import Mathlib

/-!
# Radio-control transmitter firmware: packet framer, profile store, input devices, mapper

A shallow embedding of the core of the firmware (`lib/NRF24Controller`, `lib/ConfigStorage`,
`lib/Joystick`, `lib/Lever`) together with theorems about it.

Conventions of the embedding

* C `int` / `long` values are modelled as `Int`.  The core function `map` computes with
  explicit 32-bit wrap-around; the other `int` computations are exact wherever the C
  computation has no signed overflow.  Narrowing stores (`int16_t`, `uint8_t`, `uint16_t`)
  are modelled with explicit wrap-around.
* `millis()` is a parameter `now` of the operation that reads the clock.
* Values read from the hardware (ADC readings, pin levels) are inputs of the model.
-/

/-! ## Arduino core helpers -/

/-- A value stored in a 32-bit `long` (two's complement wrap-around, the behaviour of the
ESP32 arithmetic instructions on overflow). -/
def toInt32 (x : Int) : Int := (x + 2147483648) % 4294967296 - 2147483648

/-- The values a 32-bit `long` holds. -/
@[reducible]
def fitsLong (x : Int) : Prop := -2147483648 ≤ x ∧ x < 2147483648

/-- The ESP32 core function `map(long x, long in_min, long in_max, long out_min,
long out_max)`: `run = in_max - in_min`, `-1` for an empty input range, else
`rise = out_max - out_min`, `delta = x - in_min` and `(delta * rise) / run + out_min` with C
division (truncation towards zero).  Every intermediate value is a 32-bit `long`, so each
operation wraps around at 32 bits. -/
def arduinoMap (x in_min in_max out_min out_max : Int) : Int :=
  let run := toInt32 (in_max - in_min)
  if run = 0 then -1
  else
    let rise := toInt32 (out_max - out_min)
    let delta := toInt32 (x - in_min)
    toInt32 (Int.tdiv (toInt32 (delta * rise)) run + out_min)

/-- Arduino `constrain(amt, low, high)`. -/
def constrain (amt low high : Int) : Int :=
  if amt < low then low else if amt > high then high else amt

/-- Conversion of an integer to `int16_t` (two's complement wrap-around). -/
def toInt16 (x : Int) : Int := (x + 32768) % 65536 - 32768

/-- Subtraction of two `unsigned long` values (32 bits, wrap-around). -/
def subU32 (a b : Nat) : Nat := (a % 4294967296 + 4294967296 - b % 4294967296) % 4294967296

/-- Little-endian bytes of an unsigned value, `w` bytes wide. -/
def leBytes : Nat → Nat → List Nat
  | 0, _ => []
  | w + 1, v => (v % 256) :: leBytes w (v / 256)

/-- The two bytes of an `int16_t` in memory (two's complement, little-endian). -/
def int16Bytes (x : Int) : List Nat := leBytes 2 (x % 65536).toNat

/-! ## Packet framer (`NRF24Controller.h`, `NRF24Controller.cpp`) -/

/-- Control types for packet identification (`enum ControlType`). -/
inductive ControlType
  | CONTROL_JOYSTICK
  | CONTROL_LEVER_ANALOG
  | CONTROL_LEVER_ENCODER
  | CONTROL_LEVER_DIGITAL
  | CONTROL_BUTTON
  | CONTROL_CUSTOM
  deriving DecidableEq, Repr

/-- Enumerator value of a control type. -/
def ControlType.toNat : ControlType → Nat
  | .CONTROL_JOYSTICK => 0
  | .CONTROL_LEVER_ANALOG => 1
  | .CONTROL_LEVER_ENCODER => 2
  | .CONTROL_LEVER_DIGITAL => 3
  | .CONTROL_BUTTON => 4
  | .CONTROL_CUSTOM => 5

/-- Individual control record (`struct ControlData`). -/
structure ControlData where
  id : Nat
  type : ControlType
  valueX : Int
  valueY : Int
  flags : Nat
  timestamp : Nat
  deriving DecidableEq, Repr

/-- Main data packet (`struct DataPacket`); `controls` has 8 entries. -/
structure DataPacket where
  packetId : Nat
  controlCount : Nat
  controls : List ControlData
  checksum : Nat
  timestamp : Nat
  deriving DecidableEq, Repr

/-- A zeroed control record (`memset(..., 0, ...)`). -/
def ControlData.zero : ControlData :=
  { id := 0, type := .CONTROL_JOYSTICK, valueX := 0, valueY := 0, flags := 0, timestamp := 0 }

/-- Memory image of a `ControlData` on the ESP32 target (little-endian, 4-byte enum,
natural alignment, padding bytes zero as left by `memset`): 20 bytes. -/
def ControlData.bytes (c : ControlData) : List Nat :=
  [c.id % 256, 0, 0, 0] ++ leBytes 4 c.type.toNat ++ int16Bytes c.valueX ++ int16Bytes c.valueY
    ++ [c.flags % 256, 0, 0, 0] ++ leBytes 4 c.timestamp

/-- The value of `sizeof(DataPacket)` on the ESP32 target. -/
def sizeofDataPacket : Nat := 172

/-- Byte offset of the `checksum` field inside a `DataPacket`. -/
def checksumOffset : Nat := 164

/-- Memory image of a `DataPacket` (172 bytes): `packetId`, `controlCount`, 2 padding bytes,
8 records of 20 bytes, `checksum` (2 bytes), 2 padding bytes, `timestamp` (4 bytes). -/
def DataPacket.bytes (p : DataPacket) : List Nat :=
  [p.packetId % 256, p.controlCount % 256, 0, 0]
    ++ (p.controls.map ControlData.bytes).flatten
    ++ leBytes 2 p.checksum ++ [0, 0] ++ leBytes 4 p.timestamp

/-- One iteration of the checksum loop:
`checksum ^= data[i]; checksum = (checksum << 1) | (checksum >> 15);` on a `uint16_t`. -/
def checksumStep (checksum byte : Nat) : Nat :=
  let c := checksum ^^^ byte
  ((c <<< 1) ||| (c >>> 15)) % 65536

/-- The loop `for (i = ...; i < n; i++)` of `_calculateChecksum`, with `k` iterations left. -/
def checksumLoop (data : List Nat) : Nat → Nat → Nat → Nat
  | 0, _, checksum => checksum
  | k + 1, i, checksum => checksumLoop data k (i + 1) (checksumStep checksum (data.getD i 0))

/-- The checksum of `NRF24Controller::_calculateChecksum` on a raw image `data`:
the loop runs over `i < sizeof(DataPacket) - sizeof(uint16_t)`. -/
def calculateChecksumBytes (data : List Nat) : Nat :=
  checksumLoop data (sizeofDataPacket - 2) 0 0

/-- Model of `NRF24Controller::_calculateChecksum(packet)`. -/
def _calculateChecksum (packet : DataPacket) : Nat :=
  calculateChecksumBytes packet.bytes

/-- Model of `NRF24Controller::clearPacket` on the current packet. -/
def clearPacket : DataPacket :=
  { packetId := 0, controlCount := 0, controls := List.replicate 8 ControlData.zero,
    checksum := 0, timestamp := 0 }

/-- Model of `NRF24Controller::addToPacket` on the current packet; `now` is `millis()`. -/
def addToPacket (pkt : DataPacket) (now : Nat) (controlId : Nat) (type : ControlType)
    (valueX valueY : Int) (flags : Nat) : DataPacket :=
  if pkt.controlCount ≥ 8 then pkt
  else
    let control : ControlData :=
      { id := controlId, type := type, valueX := valueX, valueY := valueY, flags := flags,
        timestamp := now }
    { pkt with controls := pkt.controls.set pkt.controlCount control,
               controlCount := pkt.controlCount + 1 }

/-- The stamping lines of `sendData`:
`packetId = _packetCounter++; timestamp = millis(); checksum = _calculateChecksum(packet)`. -/
def stampPacket (pkt : DataPacket) (packetCounter now : Nat) : DataPacket :=
  let p1 := { pkt with packetId := packetCounter }
  let p2 := { p1 with timestamp := now }
  { p2 with checksum := _calculateChecksum p2 }

/-! ## Joystick (`Joystick.h`, `Joystick.cpp`)

`float` values (`_smoothingFactor`, `_lastX`, `_lastY`) are modelled by exact rationals.  With
smoothing disabled the only `float` operation is the conversion of an ADC reading to `float`
and back, which is exact. -/

/-- Conversion of a `float` to `long` (truncation towards zero). -/
def truncToLong (q : ℚ) : Int := Int.tdiv q.num q.den

/-- State of a `Joystick` object.  The last three fields are the hardware inputs it samples:
`rawX` / `rawY` are what `_readRawX()` / `_readRawY()` return and `buttonLevel` is
`digitalRead(_pinButton)`. -/
structure Joystick where
  _pinButton : Nat
  _minX : Int
  _maxX : Int
  _centerX : Int
  _minY : Int
  _maxY : Int
  _centerY : Int
  _deadZoneRadius : Int
  _useCircularDeadZone : Bool
  _invertX : Bool
  _invertY : Bool
  _useSmoothing : Bool
  _smoothingFactor : ℚ
  _lastX : ℚ
  _lastY : ℚ
  _lastButtonState : Bool
  _lastDebounceTime : Nat
  _debounceDelay : Nat
  rawX : Int
  rawY : Int
  buttonLevel : Bool
  deriving DecidableEq

namespace Joystick

/-- The constructor `Joystick::Joystick(pinX, pinY, pinButton)`, sampling the given inputs. -/
def new (pinButton : Nat) (rawX rawY : Int) (buttonLevel : Bool) : Joystick :=
  { _pinButton := pinButton,
    _minX := 0, _maxX := 4095, _centerX := 2048,
    _minY := 0, _maxY := 4095, _centerY := 2048,
    _deadZoneRadius := 50, _useCircularDeadZone := true,
    _invertX := false, _invertY := false,
    _useSmoothing := false, _smoothingFactor := 1 / 10, _lastX := 0, _lastY := 0,
    _lastButtonState := false, _lastDebounceTime := 0, _debounceDelay := 50,
    rawX := rawX, rawY := rawY, buttonLevel := buttonLevel }

/-- Model of `Joystick::setDeadZone`. -/
def setDeadZone (j : Joystick) (radius : Int) (circular : Bool) : Joystick :=
  { j with _deadZoneRadius := radius, _useCircularDeadZone := circular }

/-- Model of `Joystick::setLimits`. -/
def setLimits (j : Joystick) (minX maxX minY maxY : Int) : Joystick :=
  { j with _minX := minX, _maxX := maxX, _minY := minY, _maxY := maxY }

/-- Model of `Joystick::setCenter`. -/
def setCenter (j : Joystick) (centerX centerY : Int) : Joystick :=
  { j with _centerX := centerX, _centerY := centerY }

/-- Model of `Joystick::invertAxis`. -/
def invertAxis (j : Joystick) (invertX invertY : Bool) : Joystick :=
  { j with _invertX := invertX, _invertY := invertY }

/-- Model of `Joystick::_applySmoothing`, with `float` values as exact rationals.  The value is
the code's where the `float` operations round nothing: with smoothing disabled, and with the
factors 0 and 1 (the sum is then one operand times 1 plus a zero).  For a factor strictly
between 0 and 1 the code rounds the products and the sum, and the model gives the unrounded
value. -/
def _applySmoothing (j : Joystick) (newValue lastValue : ℚ) : ℚ :=
  if j._useSmoothing then lastValue * (1 - j._smoothingFactor) + newValue * j._smoothingFactor
  else newValue

/-- Model of `Joystick::_isInDeadZone`.  The circular test `sqrt(dx*dx + dy*dy) <= _deadZoneRadius`
compares a non-negative square root with the radius, which holds exactly when the radius is
non-negative and `dx*dx + dy*dy <= radius*radius`. -/
def _isInDeadZone (j : Joystick) (x y : Int) : Bool :=
  if j._useCircularDeadZone then
    let dx := x - j._centerX
    let dy := y - j._centerY
    decide (0 ≤ j._deadZoneRadius ∧ dx * dx + dy * dy ≤ j._deadZoneRadius * j._deadZoneRadius)
  else
    decide (|x - j._centerX| ≤ j._deadZoneRadius ∧ |y - j._centerY| ≤ j._deadZoneRadius)

/-- Model of `Joystick::readX`: the value returned and the joystick afterwards. -/
def readX (j : Joystick) : Int × Joystick :=
  let rawX := j.rawX
  let rawY := j.rawY
  if j._isInDeadZone rawX rawY then (0, j)
  else
    let smoothedX := j._applySmoothing rawX j._lastX
    let j1 := { j with _lastX := smoothedX }
    let processedX :=
      if smoothedX ≥ (j._centerX : ℚ) then
        arduinoMap (truncToLong smoothedX) j._centerX j._maxX 0 255
      else
        arduinoMap (truncToLong smoothedX) j._minX j._centerX (-255) 0
    let processedX := if j._invertX then -processedX else processedX
    (constrain processedX (-255) 255, j1)

/-- Model of `Joystick::readY`: the value returned and the joystick afterwards. -/
def readY (j : Joystick) : Int × Joystick :=
  let rawX := j.rawX
  let rawY := j.rawY
  if j._isInDeadZone rawX rawY then (0, j)
  else
    let smoothedY := j._applySmoothing rawY j._lastY
    let j1 := { j with _lastY := smoothedY }
    let processedY :=
      if smoothedY ≥ (j._centerY : ℚ) then
        arduinoMap (truncToLong smoothedY) j._centerY j._maxY 0 255
      else
        arduinoMap (truncToLong smoothedY) j._minY j._centerY (-255) 0
    let processedY := if j._invertY then -processedY else processedY
    (constrain processedY (-255) 255, j1)

/-- Model of `Joystick::isPressed` (pull-up wiring: pressed when the pin reads low). -/
def isPressed (j : Joystick) : Bool :=
  if j._pinButton = 255 then false else !j.buttonLevel

/-- Model of `Joystick::isNeutral`: `readX() == 0 && readY() == 0` (short-circuit evaluation). -/
def isNeutral (j : Joystick) : Bool × Joystick :=
  let (x, j1) := j.readX
  if x = 0 then
    let (y, j2) := j1.readY
    (decide (y = 0), j2)
  else (false, j1)

/-- Model of `Joystick::isAtEdge`. -/
def isAtEdge (j : Joystick) : Bool × Joystick :=
  let (x, j1) := j.readX
  let (y, j2) := j1.readY
  (decide (|x| ≥ 95 ∨ |y| ≥ 95), j2)

end Joystick

/-! ## Lever (`Lever.h`, `Lever.cpp`) -/

/-- Lever types (`enum LeverType`). -/
inductive LeverType
  | ANALOG_LEVER
  | ROTARY_ENCODER
  | DIGITAL_LEVER
  deriving DecidableEq, Repr

/-- State of a `Lever` object.  The last four fields are the hardware inputs it samples:
`analogA` is `analogRead(_pinA)`, the others are `digitalRead` of the three pins
(`true` for `HIGH`). -/
structure Lever where
  _leverType : LeverType
  _pinB : Nat
  _pinButton : Nat
  _minPosition : Int
  _maxPosition : Int
  _centerPosition : Int
  _deadZone : Int
  _invertDirection : Bool
  _encoderPosition : Int
  _lastEncoderA : Bool
  _stepsPerDetent : Int
  _minSteps : Int
  _maxSteps : Int
  _digitalPositions : Int
  _currentDigitalPos : Int
  _lastPosition : ℚ
  _lastUpdateTime : Nat
  _velocity : ℚ
  _isMoving : Bool
  _useSmoothing : Bool
  _smoothingFactor : ℚ
  _smoothedPosition : ℚ
  _lastButtonState : Bool
  _lastDebounceTime : Nat
  _debounceDelay : Nat
  analogA : Int
  levelA : Bool
  levelB : Bool
  buttonLevel : Bool
  deriving DecidableEq

namespace Lever

/-- The constructor `Lever::Lever(type, pinA, pinB, pinButton)`, sampling the given inputs. -/
def new (type : LeverType) (pinB pinButton : Nat) (analogA : Int)
    (levelA levelB buttonLevel : Bool) : Lever :=
  { _leverType := type, _pinB := pinB, _pinButton := pinButton,
    _minPosition := 0, _maxPosition := 4095, _centerPosition := 2048, _deadZone := 50,
    _invertDirection := false,
    _encoderPosition := 0, _lastEncoderA := false, _stepsPerDetent := 4,
    _minSteps := -100, _maxSteps := 100,
    _digitalPositions := 5, _currentDigitalPos := 0,
    _lastPosition := 0, _lastUpdateTime := 0, _velocity := 0, _isMoving := false,
    _useSmoothing := false, _smoothingFactor := 1 / 10, _smoothedPosition := 0,
    _lastButtonState := false, _lastDebounceTime := 0, _debounceDelay := 50,
    analogA := analogA, levelA := levelA, levelB := levelB, buttonLevel := buttonLevel }

/-- Model of `Lever::setEncoderLimits`. -/
def setEncoderLimits (l : Lever) (minSteps maxSteps : Int) : Lever :=
  { l with _minSteps := minSteps, _maxSteps := maxSteps }

/-- Model of `Lever::setStepsPerDetent`. -/
def setStepsPerDetent (l : Lever) (steps : Int) : Lever :=
  { l with _stepsPerDetent := steps }

/-- Model of `Lever::setEncoderPosition`. -/
def setEncoderPosition (l : Lever) (position : Int) : Lever :=
  { l with _encoderPosition := position }

/-- Model of `Lever::setDigitalPositions`. -/
def setDigitalPositions (l : Lever) (positions : Int) : Lever :=
  { l with _digitalPositions := positions }

/-- Model of `Lever::_isInDeadZone`. -/
def _isInDeadZone (l : Lever) (position : Int) : Bool :=
  decide (|position - l._centerPosition| ≤ l._deadZone)

/-- Model of `Lever::readRaw`. -/
def readRaw (l : Lever) : Int :=
  match l._leverType with
  | .ANALOG_LEVER => l.analogA
  | .ROTARY_ENCODER => l._encoderPosition
  | .DIGITAL_LEVER => l._currentDigitalPos

/-- Model of `Lever::readPosition`: the value returned and the lever afterwards. -/
def readPosition (l : Lever) : Int × Lever :=
  let rawValue := l.readRaw
  match l._leverType with
  | .ANALOG_LEVER =>
    let rawValue := if l._isInDeadZone rawValue then l._centerPosition else rawValue
    let smoothed :=
      l._smoothedPosition * (1 - l._smoothingFactor) + (rawValue : ℚ) * l._smoothingFactor
    let l1 := if l._useSmoothing then { l with _smoothedPosition := smoothed } else l
    let rawValue := if l._useSmoothing then truncToLong smoothed else rawValue
    let processedValue :=
      if rawValue ≥ l._centerPosition then
        arduinoMap rawValue l._centerPosition l._maxPosition 0 100
      else
        arduinoMap rawValue l._minPosition l._centerPosition (-100) 0
    let processedValue := if l._invertDirection then -processedValue else processedValue
    (constrain processedValue (-100) 100, l1)
  | .ROTARY_ENCODER =>
    let steps := Int.tdiv l._encoderPosition l._stepsPerDetent
    (arduinoMap steps (Int.tdiv l._minSteps l._stepsPerDetent)
      (Int.tdiv l._maxSteps l._stepsPerDetent) (-100) 100, l)
  | .DIGITAL_LEVER =>
    (arduinoMap l._currentDigitalPos 0 (l._digitalPositions - 1) 0 100, l)

/-- Model of `Lever::_calculateVelocity`; `now` is `millis()`.  The `float` quotient
`deltaPosition / deltaTime` is modelled by the exact quotient; the code's value is the
quotient of the rounded operands, rounded again, so `velocity` is the code's value only up to
that rounding.  Which fields are written, and when, is as in the code. -/
def _calculateVelocity (l : Lever) (now : Nat) : ℚ × Lever :=
  let deltaTime : ℚ := (subU32 now l._lastUpdateTime : ℚ) / 1000
  if deltaTime ≤ 0 then (l._velocity, l)
  else
    let currentPosition : ℚ := (l.readRaw : ℚ)
    let deltaPosition := currentPosition - l._lastPosition
    let velocity := deltaPosition / deltaTime
    (velocity,
      { l with _velocity := velocity, _lastPosition := currentPosition, _lastUpdateTime := now,
               _isMoving := decide (|velocity| > 1) })

/-- Model of `Lever::readVelocity`. -/
def readVelocity (l : Lever) (now : Nat) : ℚ × Lever := l._calculateVelocity now

/-- Model of `Lever::isMoving`. -/
def isMoving (l : Lever) (now : Nat) : Bool × Lever :=
  let (_, l1) := l._calculateVelocity now
  (l1._isMoving, l1)

/-- Model of `Lever::isAtCenter`. -/
def isAtCenter (l : Lever) : Bool :=
  match l._leverType with
  | .ANALOG_LEVER => l._isInDeadZone l.readRaw
  | .ROTARY_ENCODER => decide (|l._encoderPosition| ≤ l._stepsPerDetent)
  | .DIGITAL_LEVER => decide (l._currentDigitalPos = Int.tdiv l._digitalPositions 2)

/-- Model of `Lever::isAtMinimum`. -/
def isAtMinimum (l : Lever) : Bool × Lever :=
  let (position, l1) := l.readPosition
  (decide (position ≤ -95), l1)

/-- Model of `Lever::isAtMaximum`. -/
def isAtMaximum (l : Lever) : Bool × Lever :=
  let (position, l1) := l.readPosition
  (decide (position ≥ 95), l1)

/-- Model of `Lever::isPressed`. -/
def isPressed (l : Lever) : Bool :=
  if l._pinButton = 255 then false else !l.buttonLevel

/-- Model of `Lever::getDigitalPosition`. -/
def getDigitalPosition (l : Lever) : Int := l._currentDigitalPos

/-- Model of `Lever::getLeverType`. -/
def getLeverType (l : Lever) : LeverType := l._leverType

end Lever

/-! ## Controller (`NRF24Controller.h`, `NRF24Controller.cpp`) -/

/-- Control mapping configuration (`struct ControlMapping`); `scaleFactor` is a `float`,
modelled by a rational. -/
structure ControlMapping where
  outputChannel : Nat
  minValue : Int
  maxValue : Int
  centerValue : Int
  invertOutput : Bool
  scaleFactor : ℚ
  enabled : Bool
  deriving DecidableEq

/-- Conditional mapping based on lever position (`struct ConditionalMapping`). -/
structure ConditionalMapping where
  conditionLeverId : Nat
  conditionPosition : Nat
  mapping : ControlMapping
  deriving DecidableEq

/-- The UTF-8 encoding of one character. -/
def utf8Bytes (ch : Char) : List Nat :=
  let v := ch.toNat
  if v < 128 then [v]
  else if v < 2048 then [192 + v / 64, 128 + v % 64]
  else if v < 65536 then [224 + v / 4096, 128 + v / 64 % 64, 128 + v % 64]
  else [240 + v / 262144, 128 + v / 4096 % 64, 128 + v / 64 % 64, 128 + v % 64]

/-- The C string a `const char*` argument denotes.  The argument is given as text; the bytes
the code sees are those of its UTF-8 encoding (the encoding of the sources), up to the
first NUL. -/
def cStringBytes (s : String) : List Nat :=
  ((s.data.map utf8Bytes).flatten).takeWhile fun b => b != 0

/-- Control profile (`struct ControlProfile`).  `name` is the C string held in the field
`char name[16]` (the bytes before its first NUL).  `joystickMappings[j]` is the pair of the
X mapping (`[j][0]`) and the Y mapping (`[j][1]`). -/
structure ControlProfile where
  name : List Nat
  joystickMappings : List (ControlMapping × ControlMapping)
  leverMappings : List ControlMapping
  conditionalMappings : List ConditionalMapping
  conditionalCount : Nat
  autoExecute : Bool
  executeInterval : Nat
  enabled : Bool
  deriving DecidableEq

/-- Transmission statistics (`struct TransmissionStats`). -/
structure TransmissionStats where
  packetsSent : Nat
  packetsReceived : Nat
  packetsLost : Nat
  lastTransmissionTime : Nat
  successRate : ℚ
  deriving DecidableEq

/-- The constant `MAX_JOYSTICKS`. -/
def MAX_JOYSTICKS : Nat := 4

/-- The constant `MAX_LEVERS`. -/
def MAX_LEVERS : Nat := 6

/-- State of an `NRF24Controller`.  `_joysticks` / `_levers` hold the registered devices
(`none` for `nullptr`).  The last two fields model the radio collaborator: `radioWriteOk` is
the result `_radio->write` reports and `radioSent` lists the packets handed to
`_radio->write`, oldest first. -/
structure NRF24Controller where
  _joysticks : List (Option Joystick)
  _levers : List (Option Lever)
  _joystickCount : Nat
  _leverCount : Nat
  _currentPacket : DataPacket
  _packetCounter : Nat
  _autoSend : Bool
  _sendInterval : Nat
  _lastSendTime : Nat
  _stats : TransmissionStats
  _joystickEnabled : List Bool
  _leverEnabled : List Bool
  _joystickThreshold : Int
  _leverThreshold : Int
  _sendOnlyChanges : Bool
  _lastJoystickData : List ControlData
  _lastLeverData : List ControlData
  _profiles : List ControlProfile
  _activeProfile : Nat
  _profileCount : Nat
  _lastProfileExecution : Nat
  _channelValues : List Int
  _channelUpdated : List Bool
  radioWriteOk : Bool
  radioSent : List DataPacket
  deriving DecidableEq

/-- A zeroed `ControlMapping`. -/
def ControlMapping.zero : ControlMapping :=
  { outputChannel := 0, minValue := 0, maxValue := 0, centerValue := 0, invertOutput := false,
    scaleFactor := 0, enabled := false }

/-- A zeroed `ConditionalMapping`. -/
def ConditionalMapping.zero : ConditionalMapping :=
  { conditionLeverId := 0, conditionPosition := 0, mapping := ControlMapping.zero }

/-- One profile as left by `_initializeProfiles`. -/
def initialProfile : ControlProfile :=
  { name := [],
    joystickMappings := List.replicate MAX_JOYSTICKS
      ({ outputChannel := 0, minValue := -100, maxValue := 100, centerValue := 0,
         invertOutput := false, scaleFactor := 1, enabled := false },
       { outputChannel := 1, minValue := -100, maxValue := 100, centerValue := 0,
         invertOutput := false, scaleFactor := 1, enabled := false }),
    leverMappings := (List.range MAX_LEVERS).map fun j =>
      { outputChannel := (j + 10) % 256, minValue := 0, maxValue := 100, centerValue := 50,
        invertOutput := false, scaleFactor := 1, enabled := false },
    conditionalMappings := List.replicate 8 ConditionalMapping.zero,
    conditionalCount := 0,
    autoExecute := false,
    executeInterval := 50,
    enabled := false }

/-- A zeroed profile, the default for reads outside the array model. -/
def ControlProfile.zero : ControlProfile :=
  { name := [], joystickMappings := [], leverMappings := [], conditionalMappings := [],
    conditionalCount := 0, autoExecute := false, executeInterval := 0, enabled := false }

namespace NRF24Controller

/-- The constructor `NRF24Controller::NRF24Controller`, with the radio's write result. -/
def new (radioWriteOk : Bool) : NRF24Controller :=
  { _joysticks := List.replicate MAX_JOYSTICKS none,
    _levers := List.replicate MAX_LEVERS none,
    _joystickCount := 0, _leverCount := 0,
    _currentPacket := clearPacket,
    _packetCounter := 0, _autoSend := false, _sendInterval := 50, _lastSendTime := 0,
    _stats := { packetsSent := 0, packetsReceived := 0, packetsLost := 0,
                lastTransmissionTime := 0, successRate := 0 },
    _joystickEnabled := List.replicate MAX_JOYSTICKS true,
    _leverEnabled := List.replicate MAX_LEVERS true,
    _joystickThreshold := 5, _leverThreshold := 5, _sendOnlyChanges := true,
    _lastJoystickData := List.replicate MAX_JOYSTICKS ControlData.zero,
    _lastLeverData := List.replicate MAX_LEVERS ControlData.zero,
    _profiles := List.replicate 4 initialProfile,
    _activeProfile := 0, _profileCount := 0, _lastProfileExecution := 0,
    _channelValues := List.replicate 32 0,
    _channelUpdated := List.replicate 32 false,
    radioWriteOk := radioWriteOk, radioSent := [] }

/-- Model of `NRF24Controller::addJoystick`. -/
def addJoystick (c : NRF24Controller) (joystick : Joystick) (id : Nat) :
    Bool × NRF24Controller :=
  if id ≥ MAX_JOYSTICKS ∨ (c._joysticks.getD id none).isSome then (false, c)
  else
    let last := c._lastJoystickData.getD id ControlData.zero
    (true,
      { c with _joysticks := c._joysticks.set id (some joystick),
               _joystickEnabled := c._joystickEnabled.set id true,
               _joystickCount := (c._joystickCount + 1) % 256,
               _lastJoystickData :=
                 c._lastJoystickData.set id { last with id := id, type := .CONTROL_JOYSTICK } })

/-- Model of `NRF24Controller::addLever`. -/
def addLever (c : NRF24Controller) (lever : Lever) (id : Nat) : Bool × NRF24Controller :=
  if id ≥ MAX_LEVERS ∨ (c._levers.getD id none).isSome then (false, c)
  else
    let last := c._lastLeverData.getD id ControlData.zero
    let type : ControlType :=
      match lever.getLeverType with
      | .ANALOG_LEVER => .CONTROL_LEVER_ANALOG
      | .ROTARY_ENCODER => .CONTROL_LEVER_ENCODER
      | .DIGITAL_LEVER => .CONTROL_LEVER_DIGITAL
    (true,
      { c with _levers := c._levers.set id (some lever),
               _leverEnabled := c._leverEnabled.set id true,
               _leverCount := (c._leverCount + 1) % 256,
               _lastLeverData := c._lastLeverData.set id { last with id := id, type := type } })

/-- The body of the joystick loop of `_updateControlData` for index `i`. -/
def updateControlJoystick (now : Nat) (c : NRF24Controller) (i : Nat) : NRF24Controller :=
  match c._joysticks.getD i none with
  | none => c
  | some j =>
    if c._joystickEnabled.getD i false then
      let (x, j) := j.readX
      let x := toInt16 x
      let (y, j) := j.readY
      let y := toInt16 y
      let flags : Nat := 0
      let flags := if j.isPressed then flags ||| 1 else flags
      let (neutral, j) := j.isNeutral
      let flags := if neutral then flags ||| 2 else flags
      let (atEdge, j) := j.isAtEdge
      let flags := if atEdge then flags ||| 4 else flags
      let last := c._lastJoystickData.getD i ControlData.zero
      let changed : Bool :=
        !c._sendOnlyChanges ||
        decide (|x - last.valueX| ≥ c._joystickThreshold) ||
        decide (|y - last.valueY| ≥ c._joystickThreshold) ||
        decide (flags ≠ last.flags)
      let c := { c with _joysticks := c._joysticks.set i (some j) }
      if changed then
        { c with _currentPacket := addToPacket c._currentPacket now i .CONTROL_JOYSTICK x y flags,
                 _lastJoystickData :=
                   c._lastJoystickData.set i { last with valueX := x, valueY := y, flags := flags } }
      else c
    else c

/-- The body of the lever loop of `_updateControlData` for index `i`. -/
def updateControlLever (now : Nat) (c : NRF24Controller) (i : Nat) : NRF24Controller :=
  match c._levers.getD i none with
  | none => c
  | some l =>
    if c._leverEnabled.getD i false then
      let (position, l) := l.readPosition
      let position := toInt16 position
      let (v, l) := l.readVelocity now
      let velocity := toInt16 (truncToLong v)
      let flags : Nat := 0
      let flags := if l.isPressed then flags ||| 1 else flags
      let flags := if l.isAtCenter then flags ||| 2 else flags
      let (atMin, l) := l.isAtMinimum
      let flags := if atMin then flags ||| 4 else flags
      let (atMax, l) := l.isAtMaximum
      let flags := if atMax then flags ||| 8 else flags
      let (moving, l) := l.isMoving now
      let flags := if moving then flags ||| 16 else flags
      let last := c._lastLeverData.getD i ControlData.zero
      let changed : Bool :=
        !c._sendOnlyChanges ||
        decide (|position - last.valueX| ≥ c._leverThreshold) ||
        decide (flags ≠ last.flags)
      let c := { c with _levers := c._levers.set i (some l) }
      if changed then
        { c with _currentPacket :=
                   addToPacket c._currentPacket now (i + 100) last.type position velocity flags,
                 _lastLeverData :=
                   c._lastLeverData.set i
                     { last with valueX := position, valueY := velocity, flags := flags } }
      else c
    else c

/-- Model of `NRF24Controller::_updateControlData`; `now` is `millis()`. -/
def _updateControlData (c : NRF24Controller) (now : Nat) : NRF24Controller :=
  let c := { c with _currentPacket := clearPacket }
  let c := (List.range MAX_JOYSTICKS).foldl (updateControlJoystick now) c
  (List.range MAX_LEVERS).foldl (updateControlLever now) c

/-- Model of `NRF24Controller::_updateStats`. -/
def _updateStats (c : NRF24Controller) (now : Nat) (success : Bool) : NRF24Controller :=
  let st := c._stats
  let st := if success then { st with packetsSent := (st.packetsSent + 1) % 4294967296 }
            else { st with packetsLost := (st.packetsLost + 1) % 4294967296 }
  let st := { st with lastTransmissionTime := now }
  let totalAttempts : Nat := (st.packetsSent + st.packetsLost) % 4294967296
  let st := if totalAttempts > 0 then
      { st with successRate := (st.packetsSent : ℚ) / (totalAttempts : ℚ) * 100 }
    else st
  { c with _stats := st }

/-- Model of `NRF24Controller::sendData`; `now` is `millis()`. -/
def sendData (c : NRF24Controller) (now : Nat) : Bool × NRF24Controller :=
  let c := c._updateControlData now
  if c._currentPacket.controlCount = 0 then (true, c)
  else
    let c := { c with _currentPacket := stampPacket c._currentPacket c._packetCounter now,
                      _packetCounter := (c._packetCounter + 1) % 256 }
    let result := c.radioWriteOk
    let c := { c with radioSent := c.radioSent ++ [c._currentPacket] }
    let c := c._updateStats now result
    (result, c)

/-- The `checksum` field of a received packet image (bytes 164 and 165, little-endian). -/
def storedChecksum (data : List Nat) : Nat :=
  data.getD checksumOffset 0 + 256 * data.getD (checksumOffset + 1) 0

/-- Model of `NRF24Controller::readData`.  `rx` is what the radio delivers: `none` when nothing is
available, otherwise the `sizeof(DataPacket)` bytes read into `packet`. -/
def readData (c : NRF24Controller) (rx : Option (List Nat)) : Bool × NRF24Controller :=
  match rx with
  | none => (false, c)
  | some data =>
    let calculatedChecksum := calculateChecksumBytes data
    if calculatedChecksum = storedChecksum data then
      (true, { c with _stats :=
        { c._stats with packetsReceived := (c._stats.packetsReceived + 1) % 4294967296 } })
    else (false, c)

/-- Model of `NRF24Controller::createProfile`: the returned index (255 on error) and the state.
`strncpy(_profiles[index].name, name, 15)` followed by `name[15] = 0` leaves the first 15
bytes of the argument in the name field. -/
def createProfile (c : NRF24Controller) (name : String) : Nat × NRF24Controller :=
  if c._profileCount ≥ 4 then (255, c)
  else
    let index := c._profileCount
    let p := c._profiles.getD index ControlProfile.zero
    let p := { p with name := (cStringBytes name).take 15, enabled := true,
                      autoExecute := true, executeInterval := 50, conditionalCount := 0 }
    (index, { c with _profileCount := (c._profileCount + 1) % 256,
                     _profiles := c._profiles.set index p })

/-- Model of `NRF24Controller::selectProfile(uint8_t)`. -/
def selectProfile (c : NRF24Controller) (profileIndex : Nat) : Bool × NRF24Controller :=
  if profileIndex ≥ c._profileCount then (false, c)
  else (true, { c with _activeProfile := profileIndex })

/-- The fields written by the three mapping installers into a `ControlMapping`. -/
def installMapping (channel : Nat) (minVal maxVal : Int) : ControlMapping :=
  { outputChannel := channel, minValue := minVal, maxValue := maxVal,
    centerValue := toInt16 (Int.tdiv (minVal + maxVal) 2),
    invertOutput := false, scaleFactor := 1, enabled := true }

/-- Model of `NRF24Controller::mapJoystickToChannel`. -/
def mapJoystickToChannel (c : NRF24Controller) (joystickId : Nat) (xAxis : Bool)
    (channel : Nat) (minVal maxVal : Int) : NRF24Controller :=
  if joystickId ≥ MAX_JOYSTICKS ∨ c._activeProfile ≥ c._profileCount then c
  else
    let p := c._profiles.getD c._activeProfile ControlProfile.zero
    let pair := p.joystickMappings.getD joystickId (ControlMapping.zero, ControlMapping.zero)
    let m := installMapping channel minVal maxVal
    let pair := if xAxis then (m, pair.2) else (pair.1, m)
    let p := { p with joystickMappings := p.joystickMappings.set joystickId pair }
    { c with _profiles := c._profiles.set c._activeProfile p }

/-- Model of `NRF24Controller::mapLeverToChannel`. -/
def mapLeverToChannel (c : NRF24Controller) (leverId : Nat) (channel : Nat)
    (minVal maxVal : Int) : NRF24Controller :=
  if leverId ≥ MAX_LEVERS ∨ c._activeProfile ≥ c._profileCount then c
  else
    let p := c._profiles.getD c._activeProfile ControlProfile.zero
    let m := installMapping channel minVal maxVal
    let p := { p with leverMappings := p.leverMappings.set leverId m }
    { c with _profiles := c._profiles.set c._activeProfile p }

/-- Model of `NRF24Controller::mapJoystickConditional`. -/
def mapJoystickConditional (c : NRF24Controller) (_joystickId : Nat) (_xAxis : Bool)
    (channel : Nat) (conditionLever leverPosition : Nat) (minVal maxVal : Int) :
    NRF24Controller :=
  let p := c._profiles.getD c._activeProfile ControlProfile.zero
  if c._activeProfile ≥ c._profileCount ∨ p.conditionalCount ≥ 8 then c
  else
    let conditional : ConditionalMapping :=
      { conditionLeverId := conditionLever, conditionPosition := leverPosition,
        mapping := installMapping channel minVal maxVal }
    let p := { p with conditionalMappings := p.conditionalMappings.set p.conditionalCount conditional,
                      conditionalCount := p.conditionalCount + 1 }
    { c with _profiles := c._profiles.set c._activeProfile p }

/-- Model of `NRF24Controller::_applyMapping` (the result is an `int16_t`). -/
def _applyMapping (inputValue : Int) (mapping : ControlMapping) : Int :=
  if !mapping.enabled then 0
  else
    let scaledValue : ℚ := (inputValue : ℚ) * mapping.scaleFactor
    let mappedValue :=
      toInt16 (arduinoMap (truncToLong scaledValue) (-100) 100 mapping.minValue mapping.maxValue)
    let mappedValue :=
      if mapping.invertOutput then toInt16 (mapping.maxValue - mappedValue + mapping.minValue)
      else mappedValue
    mappedValue

/-- Model of `NRF24Controller::_checkConditionalMapping`. -/
def _checkConditionalMapping (c : NRF24Controller) (conditional : ConditionalMapping) : Bool :=
  if conditional.conditionLeverId ≥ MAX_LEVERS then false
  else
    match c._levers.getD conditional.conditionLeverId none with
    | none => false
    | some l => decide (l.getDigitalPosition = (conditional.conditionPosition : Int))

/-- The store `_channelValues[channel] = value; _channelUpdated[channel] = true;`.  Both
arrays have 32 entries, and the model is the code for `channel < 32`.  For `channel >= 32`
the C store lands outside the arrays (on `_channelUpdated` and on the members that follow
it), which has no defined behaviour; the model then leaves both tables unchanged. -/
def writeChannel (c : NRF24Controller) (channel : Nat) (value : Int) : NRF24Controller :=
  { c with _channelValues := c._channelValues.set channel value,
           _channelUpdated := c._channelUpdated.set channel true }

/-- The body of the joystick loop of `_updateChannelValues` for index `i`. -/
def updateChannelJoystick (profile : ControlProfile) (c : NRF24Controller) (i : Nat) :
    NRF24Controller :=
  match c._joysticks.getD i none with
  | none => c
  | some j =>
    if c._joystickEnabled.getD i false then
      let pair := profile.joystickMappings.getD i (ControlMapping.zero, ControlMapping.zero)
      let (c, j) :=
        if pair.1.enabled then
          let (value, j) := j.readX
          let mappedValue := _applyMapping (toInt16 value) pair.1
          (writeChannel c pair.1.outputChannel mappedValue, j)
        else (c, j)
      let (c, j) :=
        if pair.2.enabled then
          let (value, j) := j.readY
          let mappedValue := _applyMapping (toInt16 value) pair.2
          (writeChannel c pair.2.outputChannel mappedValue, j)
        else (c, j)
      { c with _joysticks := c._joysticks.set i (some j) }
    else c

/-- The body of the lever loop of `_updateChannelValues` for index `i`. -/
def updateChannelLever (profile : ControlProfile) (c : NRF24Controller) (i : Nat) :
    NRF24Controller :=
  match c._levers.getD i none with
  | none => c
  | some l =>
    let m := profile.leverMappings.getD i ControlMapping.zero
    if c._leverEnabled.getD i false && m.enabled then
      let (value, l) := l.readPosition
      let mappedValue := _applyMapping (toInt16 value) m
      let c := writeChannel c m.outputChannel mappedValue
      { c with _levers := c._levers.set i (some l) }
    else c

/-- The body of the conditional loop of `_updateChannelValues` for index `i`. -/
def updateChannelConditional (profile : ControlProfile) (c : NRF24Controller) (i : Nat) :
    NRF24Controller :=
  let conditional := profile.conditionalMappings.getD i ConditionalMapping.zero
  if c._checkConditionalMapping conditional then
    let channel := conditional.mapping.outputChannel
    let currentValue := c._channelValues.getD channel 0
    let newMin := conditional.mapping.minValue
    let newMax := conditional.mapping.maxValue
    writeChannel c channel (toInt16 (arduinoMap currentValue (-100) 100 newMin newMax))
  else c

/-- Model of `NRF24Controller::_updateChannelValues` (one mapper cycle). -/
def _updateChannelValues (c : NRF24Controller) : NRF24Controller :=
  let profile := c._profiles.getD c._activeProfile ControlProfile.zero
  let c := { c with _channelUpdated := List.replicate 32 false }
  let c := (List.range MAX_JOYSTICKS).foldl (updateChannelJoystick profile) c
  let c := (List.range MAX_LEVERS).foldl (updateChannelLever profile) c
  (List.range profile.conditionalCount).foldl (updateChannelConditional profile) c

/-- The body of the channel loop of `_executeActiveProfile` for index `i`. -/
def addUpdatedChannel (now : Nat) (c : NRF24Controller) (i : Nat) : NRF24Controller :=
  if c._channelUpdated.getD i false then
    { c with _currentPacket :=
        addToPacket c._currentPacket now i .CONTROL_CUSTOM (c._channelValues.getD i 0) 0 0 }
  else c

/-- Model of `NRF24Controller::_executeActiveProfile`; `now` is `millis()`. -/
def _executeActiveProfile (c : NRF24Controller) (now : Nat) : NRF24Controller :=
  let profile := c._profiles.getD c._activeProfile ControlProfile.zero
  if c._activeProfile ≥ c._profileCount ∨ !profile.enabled then c
  else if !profile.autoExecute then c
  else
    let currentTime := now
    if subU32 currentTime c._lastProfileExecution < profile.executeInterval then c
    else
      let c := c._updateChannelValues
      let c := { c with _currentPacket := clearPacket }
      let c := (List.range 32).foldl (addUpdatedChannel now) c
      let c := if c._currentPacket.controlCount > 0 then (c.sendData now).2 else c
      { c with _lastProfileExecution := currentTime }

end NRF24Controller

/-! ## Profile store (`ConfigStorage.h`, `ConfigStorage.cpp`)

The persistence collaborator is the ESP32 `Preferences` key/value store.  The code keeps three
kinds of entries under disjoint keys (byte arrays under `p<n>v`, 64-bit values under `p<n>a`,
one byte under `active`), so the model keeps one association list per kind. -/

/-- Lookup in an association list. -/
def kvGet {α : Type} : List (String × α) → String → Option α
  | [], _ => none
  | (k, v) :: rest, key => if k = key then some v else kvGet rest key

/-- Insert or overwrite in an association list. -/
def kvSet {α : Type} : List (String × α) → String → α → List (String × α)
  | [], key, value => [(key, value)]
  | (k, v) :: rest, key, value =>
    if k = key then (key, value) :: rest else (k, v) :: kvSet rest key value

/-- Removal from an association list. -/
def kvRemove {α : Type} (m : List (String × α)) (key : String) : List (String × α) :=
  m.filter fun e => e.1 ≠ key

/-- The `Preferences` store.  A put on a key listed in `failKeys` fails (returns 0 and stores
nothing); `putCalls` counts the put calls made so far. -/
structure Preferences where
  blobs : List (String × List Nat)
  u64s : List (String × Nat)
  u8s : List (String × Nat)
  failKeys : List String
  putCalls : Nat
  deriving DecidableEq

namespace Preferences

/-- Model of `Preferences::getBytes(key, buf, maxLen)`: the number of bytes read and the buffer
afterwards.  Nothing is copied when the entry is absent, empty or longer than `maxLen`. -/
def getBytes (p : Preferences) (key : String) (buf : List Nat) (maxLen : Nat) :
    Nat × List Nat :=
  match kvGet p.blobs key with
  | none => (0, buf)
  | some value =>
    let len := value.length
    if len = 0 ∨ maxLen = 0 then (len, buf)
    else if len > maxLen then (0, buf)
    else (len, value ++ buf.drop len)

/-- Model of `Preferences::putBytes(key, value, len)`: the number of bytes written. -/
def putBytes (p : Preferences) (key : String) (value : List Nat) : Nat × Preferences :=
  let p := { p with putCalls := p.putCalls + 1 }
  if key ∈ p.failKeys then (0, p)
  else (value.length, { p with blobs := kvSet p.blobs key value })

/-- Model of `Preferences::getULong64(key, defaultValue)`. -/
def getULong64 (p : Preferences) (key : String) (defaultValue : Nat) : Nat :=
  (kvGet p.u64s key).getD defaultValue

/-- Model of `Preferences::putULong64(key, value)`: the number of bytes written (8 or 0). -/
def putULong64 (p : Preferences) (key : String) (value : Nat) : Nat × Preferences :=
  let p := { p with putCalls := p.putCalls + 1 }
  if key ∈ p.failKeys then (0, p)
  else (8, { p with u64s := kvSet p.u64s key value })

/-- Model of `Preferences::getUChar(key, defaultValue)`. -/
def getUChar (p : Preferences) (key : String) (defaultValue : Nat) : Nat :=
  (kvGet p.u8s key).getD defaultValue

/-- Model of `Preferences::putUChar(key, value)`: the number of bytes written (1 or 0). -/
def putUChar (p : Preferences) (key : String) (value : Nat) : Nat × Preferences :=
  let p := { p with putCalls := p.putCalls + 1 }
  if key ∈ p.failKeys then (0, p)
  else (1, { p with u8s := kvSet p.u8s key value })

end Preferences

/-- The constant `MAX_PROFILES`. -/
def MAX_PROFILES : Nat := 4

/-- The constant `CONFIG_VALUES_COUNT`. -/
def CONFIG_VALUES_COUNT : Nat := 15

/-- One configuration profile (`struct ConfigProfile`): 15 byte values and the address. -/
structure ConfigProfile where
  values : List Nat
  address : Nat
  deriving DecidableEq

/-- State of a `ConfigStorage` object. -/
structure ConfigStorage where
  preferences : Preferences
  activeProfile : Nat
  currentConfig : ConfigProfile
  deriving DecidableEq

namespace ConfigStorage

/-- Model of `ConfigStorage::getProfileKey`: `"p" + String(profile) + "v"`. -/
def getProfileKey (profile : Nat) : String := "p" ++ toString profile ++ "v"

/-- Model of `ConfigStorage::getAddressKey`: `"p" + String(profile) + "a"`. -/
def getAddressKey (profile : Nat) : String := "p" ++ toString profile ++ "a"

/-- The default address `0xE8E8F0F0E1`. -/
def defaultAddress : Nat := 0xE8E8F0F0E1

/-- Model of `ConfigStorage::saveConfigToProfile`. -/
def saveConfigToProfile (s : ConfigStorage) (profile : Nat) : Bool × ConfigStorage :=
  if profile ≥ MAX_PROFILES then (false, s)
  else
    let valuesKey := getProfileKey profile
    let addressKey := getAddressKey profile
    let (written, prefs) := s.preferences.putBytes valuesKey s.currentConfig.values
    let (addressWritten, prefs) := prefs.putULong64 addressKey s.currentConfig.address
    let addressSaved : Bool := decide (addressWritten ≠ 0)
    let success := decide (written = CONFIG_VALUES_COUNT) && addressSaved
    (success, { s with preferences := prefs })

/-- Model of `ConfigStorage::loadConfigFromProfile`. -/
def loadConfigFromProfile (s : ConfigStorage) (profile : Nat) : Bool × ConfigStorage :=
  if profile ≥ MAX_PROFILES then (false, s)
  else
    let valuesKey := getProfileKey profile
    let addressKey := getAddressKey profile
    let (bytesRead, values) :=
      s.preferences.getBytes valuesKey s.currentConfig.values CONFIG_VALUES_COUNT
    let s := { s with currentConfig := { s.currentConfig with values := values } }
    let s := { s with currentConfig :=
      { s.currentConfig with address := s.preferences.getULong64 addressKey defaultAddress } }
    let success : Bool := decide (bytesRead = CONFIG_VALUES_COUNT)
    if !success && bytesRead = 14 then
      let s := { s with currentConfig :=
        { s.currentConfig with values := s.currentConfig.values.set 14 1 } }
      let (_, s) := s.saveConfigToProfile profile
      (true, s)
    else if !success || bytesRead = 0 then (false, s)
    else (success, s)

/-- Model of `ConfigStorage::saveCurrentConfig`. -/
def saveCurrentConfig (s : ConfigStorage) : Bool × ConfigStorage :=
  s.saveConfigToProfile s.activeProfile

/-- Model of `ConfigStorage::loadCurrentConfig`. -/
def loadCurrentConfig (s : ConfigStorage) : Bool × ConfigStorage :=
  s.loadConfigFromProfile s.activeProfile

/-- Model of `ConfigStorage::setConfig`. -/
def setConfig (s : ConfigStorage) (config : ConfigProfile) : ConfigStorage :=
  { s with currentConfig := config }

/-- Model of `ConfigStorage::resetCurrentConfig`. -/
def resetCurrentConfig (s : ConfigStorage) : ConfigStorage :=
  { s with currentConfig :=
    { values := [80, 160, 255, 50, 128, 200, 100, 180, 255, 120, 140, 160, 200, 128, 1],
      address := defaultAddress } }

end ConfigStorage

/-! ## Reference definitions and scenarios used by the theorems -/

/-- Rotation of a 16-bit value to the left by one bit. -/
def rotl16 (x : Nat) : Nat := ((x <<< 1) ||| (x >>> 15)) % 65536

/-- The bytes the loop of `_calculateChecksum` visits: `data[i]` for
`i < sizeof(DataPacket) - sizeof(uint16_t)`. -/
def coveredBytes (data : List Nat) : List Nat := data.take (sizeofDataPacket - 2)

/-- The bytes of a packet image other than the two bytes of the `checksum` field. -/
def bytesOutsideChecksum (data : List Nat) : List Nat :=
  data.take checksumOffset ++ data.drop (checksumOffset + 2)

/-- The checksum as the specification words it: starting from 0, for each byte other than the
checksum field, in field order, `csum := rotl16(csum, 1) XOR byte`. -/
def specChecksum (packet : DataPacket) : Nat :=
  (bytesOutsideChecksum packet.bytes).foldl (fun csum byte => rotl16 csum ^^^ byte) 0

/-- A controller with one joystick (default calibration) registered as joystick 0, pushed
fully to the right (`rawX = 4095`, `rawY` at the centre). -/
def oneJoystickController : NRF24Controller :=
  ((NRF24Controller.new true).addJoystick (Joystick.new 255 4095 2048 true) 0).2

/-- An empty store that accepts every write. -/
def emptyPreferences : Preferences :=
  { blobs := [], u64s := [], u8s := [], failKeys := [], putCalls := 0 }

/-- A `ConfigStorage` over the empty store holding the factory defaults in memory. -/
def freshStorage : ConfigStorage :=
  ConfigStorage.resetCurrentConfig
    { preferences := emptyPreferences, activeProfile := 0,
      currentConfig := { values := List.replicate 15 0, address := 0 } }

/-- A `ConfigStorage` over the empty store whose in-memory address was set to `0x1122334455`
(`setAddress`) after the factory defaults. -/
def editedStorage : ConfigStorage :=
  { freshStorage with
    currentConfig := { freshStorage.currentConfig with address := 0x1122334455 } }

/-- A `ConfigStorage` whose slot 1 holds a 14-byte record of the layout before the intensity
byte was added. -/
def legacyStorage : ConfigStorage :=
  { freshStorage with
    preferences :=
      { emptyPreferences with
        blobs := [("p1v", [10, 20, 30, 40, 50, 60, 70, 80, 90, 100, 110, 120, 130, 140])] } }

/-- The controller `oneJoystickController` after `createProfile("car")` and
`mapJoystickToChannel(0, true, 1, -100, 100)`. -/
def mappedController : NRF24Controller :=
  (oneJoystickController.createProfile "car").2.mapJoystickToChannel 0 true 1 (-100) 100

/-- The controller `mappedController` with a digital lever registered as lever 1, standing at
position `leverPos`, and the conditional mapping
`mapJoystickConditional(0, true, 1, 1, 0, -50, 50)` (channel 1, trigger: lever 1 at
position 0, range `[-50, 50]`). -/
def conditionalController (leverPos : Int) : NRF24Controller :=
  (mappedController.addLever
      { Lever.new .DIGITAL_LEVER 255 255 0 true true true with _currentDigitalPos := leverPos }
      1).2.mapJoystickConditional 0 true 1 1 0 (-50) 50

/-! ## Further operations of the controller and of the profile store -/

namespace NRF24Controller

/-- Model of `NRF24Controller::selectProfile(const char*)`: the first profile below
`_profileCount` whose name compares equal (`strcmp`, byte by byte) is selected. -/
def selectProfileByName (c : NRF24Controller) (name : String) : Bool × NRF24Controller :=
  match (List.range c._profileCount).find?
      (fun i => decide ((c._profiles.getD i ControlProfile.zero).name = cStringBytes name)) with
  | some i => c.selectProfile i
  | none => (false, c)

/-- The loop `for (i = profileIndex; i < _profileCount - 1; i++) _profiles[i] = _profiles[i + 1];`
of `deleteProfile`. -/
def shiftProfilesDown (profiles : List ControlProfile) (profileIndex profileCount : Nat) :
    List ControlProfile :=
  (List.range (profileCount - 1 - profileIndex)).foldl
    (fun ps k => ps.set (profileIndex + k) (ps.getD (profileIndex + k + 1) ControlProfile.zero))
    profiles

/-- Model of `NRF24Controller::deleteProfile`. -/
def deleteProfile (c : NRF24Controller) (profileIndex : Nat) : NRF24Controller :=
  if profileIndex ≥ c._profileCount then c
  else
    let c := { c with _profiles := shiftProfilesDown c._profiles profileIndex c._profileCount }
    let c := { c with _profileCount := c._profileCount - 1 }
    if c._activeProfile ≥ c._profileCount ∧ c._profileCount > 0 then
      { c with _activeProfile := c._profileCount - 1 }
    else c

/-- Model of `NRF24Controller::factoryReset` on the controller state (the EEPROM it clears is
not part of this state). -/
def factoryReset (c : NRF24Controller) : NRF24Controller :=
  { c with _profiles := List.replicate 4 initialProfile, _activeProfile := 0,
           _profileCount := 0 }

/-- The controller states reachable from construction through `createProfile`,
`selectProfile` (by index or by name), `deleteProfile` and `factoryReset`. -/
inductive Reachable : NRF24Controller → Prop
  | construct (radioWriteOk : Bool) : Reachable (NRF24Controller.new radioWriteOk)
  | createProfile (c : NRF24Controller) (name : String) :
      Reachable c → Reachable (c.createProfile name).2
  | selectProfile (c : NRF24Controller) (profileIndex : Nat) :
      Reachable c → Reachable (c.selectProfile profileIndex).2
  | selectProfileByName (c : NRF24Controller) (name : String) :
      Reachable c → Reachable (c.selectProfileByName name).2
  | deleteProfile (c : NRF24Controller) (profileIndex : Nat) :
      Reachable c → Reachable (c.deleteProfile profileIndex)
  | factoryReset (c : NRF24Controller) : Reachable c → Reachable c.factoryReset

/-- The first two loops of `_updateChannelValues`: the updated flags are cleared and every
enabled base mapping (joystick axes, then levers) writes its channel. -/
def updateChannelBase (c : NRF24Controller) : NRF24Controller :=
  let profile := c._profiles.getD c._activeProfile ControlProfile.zero
  let c := { c with _channelUpdated := List.replicate 32 false }
  let c := (List.range MAX_JOYSTICKS).foldl (updateChannelJoystick profile) c
  (List.range MAX_LEVERS).foldl (updateChannelLever profile) c

/-- The assignment of the conditional loop of `_updateChannelValues`:
`map(currentValue, -100, 100, newMin, newMax)` stored into an `int16_t`. -/
def conditionalRemap (currentValue : Int) (conditional : ConditionalMapping) : Int :=
  toInt16 (arduinoMap currentValue (-100) 100 conditional.mapping.minValue
    conditional.mapping.maxValue)

end NRF24Controller

namespace ConfigStorage

/-- Model of `ConfigStorage::setActiveProfile`. -/
def setActiveProfile (s : ConfigStorage) (profile : Nat) : Bool × ConfigStorage :=
  if profile ≥ MAX_PROFILES then (false, s)
  else if s.activeProfile ≠ profile then
    let (_, s) := s.saveCurrentConfig
    let s := { s with activeProfile := profile }
    let (written, prefs) := s.preferences.putUChar "active" s.activeProfile
    let s := { s with preferences := prefs }
    let activeSaved : Bool := decide (written ≠ 0)
    if !activeSaved then
      (false, { s with activeProfile := if s.activeProfile = 0 then profile else s.activeProfile })
    else
      let (configLoaded, s) := s.loadCurrentConfig
      if !configLoaded then
        let s := s.resetCurrentConfig
        let (_, s) := s.saveCurrentConfig
        (true, s)
      else (true, s)
  else (true, s)

/-- Model of `ConfigStorage::repairProfile`. -/
def repairProfile (s : ConfigStorage) (profile : Nat) : Bool × ConfigStorage :=
  if profile ≥ MAX_PROFILES then (false, s)
  else
    let backup := s.currentConfig
    let s := s.resetCurrentConfig
    let (success, s) := s.saveConfigToProfile profile
    let s := { s with currentConfig := backup }
    (success, s)

/-- The factory defaults written by `resetCurrentConfig`. -/
def factoryDefaults : ConfigProfile :=
  { values := [80, 160, 255, 50, 128, 200, 100, 180, 255, 120, 140, 160, 200, 128, 1],
    address := 0xE8E8F0F0E1 }

end ConfigStorage

/-- A controller with one analog lever at its default calibration registered as lever 0,
reading `raw` on its analog pin, after `createProfile("plane")` and
`mapLeverToChannel(0, 3, 0, 100)`. -/
def leverController (raw : Int) : NRF24Controller :=
  ((((NRF24Controller.new true).addLever
      (Lever.new .ANALOG_LEVER 255 255 raw true true true) 0).2.createProfile
        "plane").2).mapLeverToChannel 0 3 0 100

/-! ## Buttons, encoder and switch updates, intensity, and the persisted profile set -/

namespace Joystick

/-- Model of `Joystick::wasPressed`; `now` is `millis()`, the same at both reads of the clock
inside one call. -/
def wasPressed (j : Joystick) (now : Nat) : Bool × Joystick :=
  if j._pinButton = 255 then (false, j)
  else
    let currentState := !j.buttonLevel
    let j := if currentState ≠ j._lastButtonState then { j with _lastDebounceTime := now } else j
    if subU32 now j._lastDebounceTime > j._debounceDelay then
      let wasPressed := currentState && !j._lastButtonState
      (wasPressed, { j with _lastButtonState := currentState })
    else (false, j)

/-- Model of `Joystick::wasReleased`; `now` is `millis()`. -/
def wasReleased (j : Joystick) (now : Nat) : Bool × Joystick :=
  if j._pinButton = 255 then (false, j)
  else
    let currentState := !j.buttonLevel
    let j := if currentState ≠ j._lastButtonState then { j with _lastDebounceTime := now } else j
    if subU32 now j._lastDebounceTime > j._debounceDelay then
      let wasReleased := !currentState && j._lastButtonState
      (wasReleased, { j with _lastButtonState := currentState })
    else (false, j)

/-- The results of polling `wasPressed` at the given times while the button input keeps its
level. -/
def pollWasPressed (j : Joystick) : List Nat → List Bool
  | [] => []
  | now :: rest => (j.wasPressed now).1 :: pollWasPressed (j.wasPressed now).2 rest

end Joystick

/-- The function-local `static bool lastPinAState, lastPinBState` of
`Lever::_updateDigitalPosition`: one pair for the whole program. -/
structure LeverStatics where
  lastPinAState : Bool
  lastPinBState : Bool
  deriving DecidableEq

namespace Lever

/-- Model of `Lever::wasPressed`; `now` is `millis()`, the same at both reads of the clock
inside one call. -/
def wasPressed (l : Lever) (now : Nat) : Bool × Lever :=
  if l._pinButton = 255 then (false, l)
  else
    let currentState := !l.buttonLevel
    let l := if currentState ≠ l._lastButtonState then { l with _lastDebounceTime := now } else l
    if subU32 now l._lastDebounceTime > l._debounceDelay then
      let wasPressed := currentState && !l._lastButtonState
      (wasPressed, { l with _lastButtonState := currentState })
    else (false, l)

/-- The results of polling `wasPressed` at the given times while the button input keeps its
level. -/
def pollWasPressed (l : Lever) : List Nat → List Bool
  | [] => []
  | now :: rest => (l.wasPressed now).1 :: pollWasPressed (l.wasPressed now).2 rest

/-- Model of `Lever::_updateEncoder`. -/
def _updateEncoder (l : Lever) : Lever :=
  let currentA := l.levelA
  let currentB := l.levelB
  if currentA ≠ l._lastEncoderA then
    let position := if currentB ≠ currentA then l._encoderPosition + 1 else l._encoderPosition - 1
    { l with _encoderPosition := constrain position l._minSteps l._maxSteps,
             _lastEncoderA := currentA }
  else l

/-- Model of `Lever::_updateDigitalPosition`, with the function's static variables. -/
def _updateDigitalPosition (l : Lever) (st : LeverStatics) : Lever × LeverStatics :=
  let pinAState := !l.levelA
  let pinBState := if l._pinB ≠ 255 then !l.levelB else false
  let l := if pinAState && !st.lastPinAState then
      { l with _currentDigitalPos := min (l._currentDigitalPos + 1) (l._digitalPositions - 1) }
    else l
  let l := if pinBState && !st.lastPinBState then
      { l with _currentDigitalPos := max (l._currentDigitalPos - 1) 0 }
    else l
  (l, { lastPinAState := pinAState, lastPinBState := pinBState })

/-- Model of `Lever::update`; `now` is `millis()`. -/
def update (l : Lever) (st : LeverStatics) (now : Nat) : Lever × LeverStatics :=
  let (l, st) :=
    match l._leverType with
    | .ROTARY_ENCODER => (l._updateEncoder, st)
    | .DIGITAL_LEVER => l._updateDigitalPosition st
    | .ANALOG_LEVER => (l, st)
  ((l._calculateVelocity now).2, st)

/-- Model of `Lever::moveToNextPosition`. -/
def moveToNextPosition (l : Lever) : Bool × Lever :=
  if l._leverType = .DIGITAL_LEVER ∧ l._currentDigitalPos < l._digitalPositions - 1 then
    (true, { l with _currentDigitalPos := l._currentDigitalPos + 1 })
  else (false, l)

/-- Model of `Lever::moveToPreviousPosition`. -/
def moveToPreviousPosition (l : Lever) : Bool × Lever :=
  if l._leverType = .DIGITAL_LEVER ∧ l._currentDigitalPos > 0 then
    (true, { l with _currentDigitalPos := l._currentDigitalPos - 1 })
  else (false, l)

end Lever

namespace ConfigStorage

/-- Model of `ConfigStorage::setIntensity` (`intensity` is a `uint8_t`). -/
def setIntensity (s : ConfigStorage) (intensity : Nat) : ConfigStorage :=
  let intensity := if intensity < 1 then 1 else intensity
  let intensity := if intensity > 4 then 4 else intensity
  if CONFIG_VALUES_COUNT > 14 then
    { s with currentConfig :=
      { s.currentConfig with values := s.currentConfig.values.set 14 intensity } }
  else s

/-- Model of `ConfigStorage::getIntensityLimit`. -/
def getIntensityLimit (s : ConfigStorage) : Nat :=
  if CONFIG_VALUES_COUNT > 14 then
    let intensity := s.currentConfig.values.getD 14 0
    let intensity := if intensity = 0 then 1 else intensity
    let intensity := if intensity > 4 then 4 else intensity
    intensity
  else 1

end ConfigStorage

/-- The value of `sizeof(EEPROMProfileData)` on the ESP32 target: `magicNumber` at offset 0,
`version` at 4, `profiles` (4 records of 500 bytes) at 8, `profileCount` at 2008 and
`checksum` at 2010. -/
def sizeofEEPROMProfileData : Nat := 2012

namespace NRF24Controller

/-- The `magicNumber` field of a blob image (bytes 0 to 3, little-endian). -/
def eepromMagicNumber (data : List Nat) : Nat :=
  data.getD 0 0 + 256 * data.getD 1 0 + 65536 * data.getD 2 0 + 16777216 * data.getD 3 0

/-- The `version` field of a blob image. -/
def eepromVersion (data : List Nat) : Nat := data.getD 4 0

/-- The `profileCount` field of a blob image. -/
def eepromProfileCount (data : List Nat) : Nat := data.getD 2008 0

/-- The `checksum` field of a blob image (bytes 2010 and 2011, little-endian). -/
def eepromChecksum (data : List Nat) : Nat := data.getD 2010 0 + 256 * data.getD 2011 0

/-- The loop `for (i = 0; i < sizeof(EEPROMProfileData) - sizeof(uint16_t); i++)
calculatedChecksum ^= data[i];`. -/
def eepromCalculatedChecksum (data : List Nat) : Nat :=
  (List.range (sizeofEEPROMProfileData - 2)).foldl (fun checksum i => checksum ^^^ data.getD i 0) 0

/-- Model of `NRF24Controller::loadProfilesFromEEPROM`.  `data` is the sequence of bytes
`EEPROM.read(startAddress + i)` delivers; `profilesOfBytes` is the reading of bytes 8 to 2007
as a `ControlProfile[4]`, which the model takes as a parameter. -/
def loadProfilesFromEEPROM (c : NRF24Controller) (data : List Nat)
    (profilesOfBytes : List Nat → List ControlProfile) : Bool × NRF24Controller :=
  if eepromMagicNumber data ≠ 0x12345678 then (false, c)
  else if eepromVersion data ≠ 1 then (false, c)
  else
    let calculatedChecksum := eepromCalculatedChecksum data
    if calculatedChecksum ≠ eepromChecksum data then (false, c)
    else
      (true, { c with _profileCount := eepromProfileCount data,
                      _profiles := profilesOfBytes data })

/-- What the joystick loop of `_updateControlData` reads from a joystick: `x`, `y`, the
flags, and the joystick after the reads. -/
def joystickReport (j : Joystick) : Int × Int × Nat × Joystick :=
  let (x, j) := j.readX
  let x := toInt16 x
  let (y, j) := j.readY
  let y := toInt16 y
  let flags : Nat := 0
  let flags := if j.isPressed then flags ||| 1 else flags
  let (neutral, j) := j.isNeutral
  let flags := if neutral then flags ||| 2 else flags
  let (atEdge, j) := j.isAtEdge
  let flags := if atEdge then flags ||| 4 else flags
  (x, y, flags, j)

/-- What the lever loop of `_updateControlData` reads from a lever: position, velocity, the
flags, and the lever after the reads. -/
def leverReport (l : Lever) (now : Nat) : Int × Int × Nat × Lever :=
  let (position, l) := l.readPosition
  let position := toInt16 position
  let (v, l) := l.readVelocity now
  let velocity := toInt16 (truncToLong v)
  let flags : Nat := 0
  let flags := if l.isPressed then flags ||| 1 else flags
  let flags := if l.isAtCenter then flags ||| 2 else flags
  let (atMin, l) := l.isAtMinimum
  let flags := if atMin then flags ||| 4 else flags
  let (atMax, l) := l.isAtMaximum
  let flags := if atMax then flags ||| 8 else flags
  let (moving, l) := l.isMoving now
  let flags := if moving then flags ||| 16 else flags
  (position, velocity, flags, l)

end NRF24Controller

/-- The packet holds no record with the given id among its first `controlCount` records. -/
def noRecordWithId (pkt : DataPacket) (id : Nat) : Prop :=
  ∀ r ∈ pkt.controls.take pkt.controlCount, r.id ≠ id

/-- A controller whose only device is joystick 0 at rest (raw readings at the centre). -/
def restingJoystickController : NRF24Controller :=
  ((NRF24Controller.new true).addJoystick (Joystick.new 255 2048 2048 true) 0).2

/-- A persisted profile image with the magic number 0x12345678 (little-endian), version 1,
all other covered bytes zero, and the matching checksum `0x78 ^ 0x56 ^ 0x34 ^ 0x12 ^ 1 = 9`. -/
def validProfileImage : List Nat :=
  [0x78, 0x56, 0x34, 0x12, 1] ++ List.replicate 2005 0 ++ [9, 0]

/-- A received image that differs from the all-zero packet in its first byte. -/
def corruptedImage : List Nat := 1 :: List.replicate 171 0

/-! ## Burst filter, smoothing setter, mapped lever reading, and further scenarios -/

/-- Arduino `constrain(amt, low, high)` on `float` arguments. -/
def constrainQ (amt low high : ℚ) : ℚ :=
  if amt < low then low else if amt > high then high else amt

namespace Joystick

/-- Model of `Joystick::_readRawX` (`_readRawY` has the same body) as a function of the ten
`analogRead` results, `buffer`.  The `float` mean is modelled by the exact rational: for ADC
readings in `0..4095` every difference `buffer[i] - avg` is a multiple of `1/10`, so the test
against the tolerance and the truncation of the mean come out the same in `float`. -/
def _readRawX (buffer : List Int) : Int :=
  let samples : Nat := 10
  let sum : Int := (List.range samples).foldl (fun sum i => sum + buffer.getD i 0) 0
  let avg : ℚ := (sum : ℚ) / (samples : ℚ)
  let tolerance : ℚ := 150
  let valid : Int × Int := (List.range samples).foldl
    (fun valid i =>
      if |((buffer.getD i 0 : Int) : ℚ) - avg| < tolerance then
        (valid.1 + buffer.getD i 0, valid.2 + 1)
      else valid) (0, 0)
  if valid.2 = 0 then truncToLong avg
  else Int.tdiv valid.1 valid.2

/-- Model of `Joystick::setSmoothing`. -/
def setSmoothing (j : Joystick) (enable : Bool) (factor : ℚ) : Joystick :=
  { j with _useSmoothing := enable, _smoothingFactor := constrainQ factor 0 1 }

/-- The joystick with its filter memory `_lastX`, `_lastY` zeroed: two joysticks with the same
image differ at most in their filter memory. -/
def clearFilterMemory (j : Joystick) : Joystick :=
  { j with _lastX := 0, _lastY := 0 }

end Joystick

namespace Lever

/-- Model of `Lever::readMapped`: the value returned and the lever afterwards. -/
def readMapped (l : Lever) (minVal maxVal : Int) : Int × Lever :=
  let (position, l) := l.readPosition
  if l._leverType = .DIGITAL_LEVER ∨ (l._leverType = .ANALOG_LEVER ∧ l._minPosition ≥ 0) then
    (arduinoMap position 0 100 minVal maxVal, l)
  else
    (arduinoMap position (-100) 100 minVal maxVal, l)

/-- The position of lever `a` after its `update()` is called once for each entry of `steps`;
an entry `some b` says that `update()` of the other lever, in state `b`, is called right
before.  All calls share the static variables `st`; `now` is `millis()`. -/
def positionAfterUpdates (a : Lever) (st : LeverStatics) (now : Nat) :
    List (Option Lever) → Int
  | [] => a._currentDigitalPos
  | none :: rest => positionAfterUpdates (a.update st now).1 (a.update st now).2 now rest
  | some b :: rest =>
    positionAfterUpdates (a.update (b.update st now).2 now).1
      (a.update (b.update st now).2 now).2 now rest

end Lever

/-- The image `data` with bit `bit` of its byte `i` flipped. -/
def flipBit (data : List Nat) (i bit : Nat) : List Nat :=
  data.set i (data.getD i 0 ^^^ (1 <<< bit))

/-- The all-zero packet image: its stored checksum 0 is the one `_calculateChecksum`
computes for it. -/
def zeroImage : List Nat := List.replicate 172 0

/-- A digital lever whose input A is held low (the "up" switch stays closed). -/
def heldSwitchLever : Lever := Lever.new .DIGITAL_LEVER 255 255 0 false true true

/-- A digital lever whose inputs are both high (no switch closed). -/
def idleSwitchLever : Lever := Lever.new .DIGITAL_LEVER 255 255 0 true true true

/-- A controller with four resting joysticks and six centred analog levers registered. -/
def crowdedController : NRF24Controller :=
  (List.range 6).foldl
    (fun c i => (c.addLever (Lever.new .ANALOG_LEVER 255 255 2048 true true true) i).2)
    ((List.range 4).foldl
      (fun c i => (c.addJoystick (Joystick.new 255 2048 2048 true) i).2)
      (NRF24Controller.new true))

/-- The controller `mappedController` with a digital lever at position 0 registered as lever 1
and the conditional mapping `mapJoystickConditional(0, true, 5, 1, 0, 0, 100)`: channel 5,
which no base mapping writes, is remapped to `[0, 100]` while lever 1 is at position 0. -/
def uncoveredConditionalController : NRF24Controller :=
  (mappedController.addLever (Lever.new .DIGITAL_LEVER 255 255 0 true true true)
      1).2.mapJoystickConditional 0 true 5 1 0 0 100

/-- A packet filled by eight calls of `addToPacket` on the cleared packet. -/
def fullPacket : DataPacket :=
  (List.range 8).foldl (fun p i => addToPacket p 0 i .CONTROL_CUSTOM 0 0 0) clearPacket

/-- The controller `mappedController` after eight calls of
`mapJoystickConditional(0, true, 1, 1, 0, -50, 50)`, which fill the conditional table of
its profile. -/
def eightConditionalsController : NRF24Controller :=
  (List.range 8).foldl (fun c _ => c.mapJoystickConditional 0 true 1 1 0 (-50) 50)
    mappedController

namespace NRF24Controller

/-- Smoothing is disabled on every registered joystick and lever. -/
def smoothingOff (c : NRF24Controller) : Prop :=
  (∀ i, i < c._joysticks.length →
    ((c._joysticks.getD i none).map Joystick._useSmoothing).getD false = false) ∧
  (∀ i, i < c._levers.length →
    ((c._levers.getD i none).map Lever._useSmoothing).getD false = false)

/-- The controllers `a` and `b` hold the same devices up to the joysticks' filter memory, the
same enable flags and the same profiles. -/
def devicesKept (a b : NRF24Controller) : Prop :=
  a._joysticks.map (Option.map Joystick.clearFilterMemory)
    = b._joysticks.map (Option.map Joystick.clearFilterMemory) ∧
  a._levers = b._levers ∧
  a._joystickEnabled = b._joystickEnabled ∧
  a._leverEnabled = b._leverEnabled ∧
  a._profiles = b._profiles ∧
  a._activeProfile = b._activeProfile

/-- The channel tables of `a` and `b`, taken at corresponding places of two mapper cycles,
agree: both hold 32 channels, the updated flags are equal, every channel flagged as updated
holds the same value in both, and every channel of `b` not flagged holds its value of the
table `initial`. -/
def tablesAgree (initial : List Int) (a b : NRF24Controller) : Prop :=
  a._channelValues.length = 32 ∧ b._channelValues.length = 32 ∧
  a._channelUpdated.length = 32 ∧
  a._channelUpdated = b._channelUpdated ∧
  (∀ ch, a._channelUpdated.getD ch false = true →
    a._channelValues.getD ch 0 = b._channelValues.getD ch 0) ∧
  (∀ ch, b._channelUpdated.getD ch false = false →
    b._channelValues.getD ch 0 = initial.getD ch 0)

/-- Every conditional mapping of the active profile whose trigger holds targets a channel
that the base mappings of the cycle write. -/
def conditionalsCovered (c : NRF24Controller) : Prop :=
  ∀ i, i < (c._profiles.getD c._activeProfile ControlProfile.zero).conditionalCount →
    c._checkConditionalMapping
      ((c._profiles.getD c._activeProfile ControlProfile.zero).conditionalMappings.getD i
        ConditionalMapping.zero) = true →
    c.updateChannelBase._channelUpdated.getD
      ((c._profiles.getD c._activeProfile ControlProfile.zero).conditionalMappings.getD i
        ConditionalMapping.zero).mapping.outputChannel false = true

end NRF24Controller

/-- Every channel a mapper cycle of the profile can store to exists in the 32-entry channel
tables: the output channels of its enabled base mappings and of its conditional mappings
below `conditionalCount` are below 32. -/
@[reducible]
def ControlProfile.channelsInRange (p : ControlProfile) : Prop :=
  (∀ m ∈ p.joystickMappings,
    (m.1.enabled = true → m.1.outputChannel < 32) ∧
    (m.2.enabled = true → m.2.outputChannel < 32)) ∧
  (∀ m ∈ p.leverMappings, m.enabled = true → m.outputChannel < 32) ∧
  (∀ m ∈ p.conditionalMappings.take p.conditionalCount, m.mapping.outputChannel < 32)

/-- A store over the factory defaults whose writes to the key `active` fail. -/
def activeWriteFailsStorage : ConfigStorage :=
  { freshStorage with
    preferences := { freshStorage.preferences with failKeys := ["active"] } }

/-! ## Theorems -/

/-! ### Packet checksum -/

theorem checksumLoop_eq_foldl (data : List Nat) :
    ∀ (k i checksum : Nat), i + k ≤ data.length →
      checksumLoop data k i checksum = ((data.drop i).take k).foldl checksumStep checksum := by
  intro k
  induction k with
  | zero => intro i checksum _; simp [checksumLoop]
  | succ k ih =>
    intro i checksum h
    have hi : i < data.length := by omega
    rw [checksumLoop, ih (i + 1) _ (by omega)]
    have hd : data.drop i = data[i] :: data.drop (i + 1) := List.drop_eq_getElem_cons hi
    rw [hd, List.take_succ_cons, List.foldl_cons]
    simp [List.getD, List.getElem?_eq_getElem hi]

theorem ControlData.bytes_length_eq (c : ControlData) : c.bytes.length = 20 := by
  simp [ControlData.bytes, leBytes, int16Bytes]

theorem length_flatten_bytes (cs : List ControlData) :
    (cs.map ControlData.bytes).flatten.length = 20 * cs.length := by
  induction cs with
  | nil => simp
  | cons c cs ih => simp [ControlData.bytes_length_eq, ih]; omega

theorem DataPacket.image_length_eq (p : DataPacket) (h : p.controls.length = 8) :
    p.bytes.length = sizeofDataPacket := by
  simp only [DataPacket.bytes, List.length_append, length_flatten_bytes, h]
  simp [leBytes, sizeofDataPacket]

/-- For a packet whose `checksum` and `timestamp` fields are zero, the bytes the loop of
`_calculateChecksum` visits are the bytes outside the checksum field: both are the 164 bytes
before the checksum field followed by six zero bytes. -/
theorem coveredBytes_eq_bytesOutsideChecksum (packet : DataPacket)
    (h : packet.controls.length = 8) (hck : packet.checksum = 0) (hts : packet.timestamp = 0) :
    coveredBytes packet.bytes = bytesOutsideChecksum packet.bytes := by
  have hA : ([packet.packetId % 256, packet.controlCount % 256, 0, 0]
      ++ (packet.controls.map ControlData.bytes).flatten).length = 164 := by
    rw [List.length_append, length_flatten_bytes, h]
    rfl
  have hb : packet.bytes = ([packet.packetId % 256, packet.controlCount % 256, 0, 0]
      ++ (packet.controls.map ControlData.bytes).flatten) ++ [0, 0, 0, 0, 0, 0, 0, 0] := by
    unfold DataPacket.bytes
    rw [hck, hts]
    simp [leBytes]
  generalize ([packet.packetId % 256, packet.controlCount % 256, 0, 0]
      ++ (packet.controls.map ControlData.bytes).flatten) = A at hA hb
  have t170 : (A ++ [0, 0, 0, 0, 0, 0, 0, 0]).take 170 = A ++ [0, 0, 0, 0, 0, 0] := by
    rw [List.take_append_eq_append_take, List.take_of_length_le (by omega), hA]
    rfl
  have t164 : (A ++ [0, 0, 0, 0, 0, 0, 0, 0]).take 164 = A := by
    rw [← hA, List.take_left]
  have d166 : (A ++ [0, 0, 0, 0, 0, 0, 0, 0]).drop 166 = [0, 0, 0, 0, 0, 0] := by
    rw [List.drop_append_eq_append_drop, List.drop_of_length_le (by omega), hA]
    rfl
  unfold coveredBytes bytesOutsideChecksum
  rw [hb]
  exact t170.trans (by rw [show checksumOffset = 164 from rfl, t164, d166])

/-- C8 (as amended): for a packet as `clearPacket` and `addToPacket` leave it (`checksum` and
`timestamp` fields zero), `_calculateChecksum(packet)` is the value obtained by starting from
`csum = 0` and, for each byte of the packet other than the two bytes of the checksum field,
taken in field order, setting `csum := rotl16(csum XOR byte, 1)`: the byte is XORed in first
and the result is then rotated left by one. -/
theorem calculateChecksum_eq_xor_then_rotate (packet : DataPacket)
    (h : packet.controls.length = 8) (hck : packet.checksum = 0) (hts : packet.timestamp = 0) :
    _calculateChecksum packet =
      (bytesOutsideChecksum packet.bytes).foldl (fun csum byte => rotl16 (csum ^^^ byte)) 0 := by
  have hl := DataPacket.image_length_eq packet h
  rw [← coveredBytes_eq_bytesOutsideChecksum packet h hck hts]
  unfold _calculateChecksum calculateChecksumBytes coveredBytes
  rw [checksumLoop_eq_foldl _ _ _ _ (by rw [hl]; decide)]
  simp only [List.drop_zero]
  rfl

set_option maxRecDepth 100000 in
/-- Witness for C8 (as amended): the packet holding the single record
`addToPacket(0, CONTROL_JOYSTICK, 255, 0, 0)`, whose checksum is 49727. -/
theorem calculateChecksum_eq_xor_then_rotate_witness :
    _calculateChecksum (addToPacket clearPacket 0 0 .CONTROL_JOYSTICK 255 0 0) =
      (bytesOutsideChecksum (addToPacket clearPacket 0 0 .CONTROL_JOYSTICK 255 0 0).bytes).foldl
        (fun csum byte => rotl16 (csum ^^^ byte)) 0 ∧
    (bytesOutsideChecksum (addToPacket clearPacket 0 0 .CONTROL_JOYSTICK 255 0 0).bytes).foldl
        (fun csum byte => rotl16 (csum ^^^ byte)) 0 = 49727 :=
  ⟨calculateChecksum_eq_xor_then_rotate (addToPacket clearPacket 0 0 .CONTROL_JOYSTICK 255 0 0)
    (by decide) (by decide) (by decide), by decide⟩

set_option maxRecDepth 100000 in
/-- C8 (counterexample): on the packet holding the single record
`addToPacket(0, CONTROL_JOYSTICK, 255, 0, 0)` the code computes 49727, while the fold
`csum := rotl16(csum, 1) XOR byte` gives 57631 over the bytes outside the checksum field and
57631 over the bytes the loop visits: rotating before the XOR does not give the code's value. -/
theorem calculateChecksum_ne_specChecksum :
    _calculateChecksum (addToPacket clearPacket 0 0 .CONTROL_JOYSTICK 255 0 0) = 49727 ∧
    specChecksum (addToPacket clearPacket 0 0 .CONTROL_JOYSTICK 255 0 0) = 57631 ∧
    (coveredBytes (addToPacket clearPacket 0 0 .CONTROL_JOYSTICK 255 0 0).bytes).foldl
      (fun csum byte => rotl16 csum ^^^ byte) 0 = 57631 ∧
    specChecksum (addToPacket clearPacket 0 0 .CONTROL_JOYSTICK 255 0 0) ≠
      _calculateChecksum (addToPacket clearPacket 0 0 .CONTROL_JOYSTICK 255 0 0) := by
  decide

set_option maxRecDepth 100000 in
/-- C1 (failing input): `sendData` at time 1000 on a controller whose only device is joystick 0
pushed fully right hands the radio one packet whose stored checksum is 60409, while
`_calculateChecksum` on that unmodified packet gives 51417, so `readData` on the same bytes
returns false. -/
theorem sendData_checksum_not_reproduced :
    (oneJoystickController.sendData 1000).1 = true ∧
    (oneJoystickController.sendData 1000).2.radioSent.map
        (fun p => (p.controlCount, p.checksum, _calculateChecksum p,
          ((NRF24Controller.new true).readData (some p.bytes)).1))
      = [(1, 60409, 51417, false)] := by
  decide

/-! ### Profile store -/

theorem kvGet_kvSet_same {α : Type} (m : List (String × α)) (k : String) (v : α) :
    kvGet (kvSet m k v) k = some v := by
  induction m with
  | nil => simp [kvSet, kvGet]
  | cons e m ih =>
    obtain ⟨k', v'⟩ := e
    by_cases h : k' = k
    · simp [kvSet, kvGet, h]
    · simp [kvSet, kvGet, h, ih]

theorem kvGet_kvSet_ne {α : Type} (m : List (String × α)) (k k' : String) (v : α)
    (h : k' ≠ k) : kvGet (kvSet m k v) k' = kvGet m k' := by
  induction m with
  | nil => simp [kvSet, kvGet, Ne.symm h]
  | cons e m ih =>
    obtain ⟨k0, v0⟩ := e
    by_cases h0 : k0 = k
    · subst h0
      simp [kvSet, kvGet, Ne.symm h]
    · by_cases h1 : k0 = k'
      · subst h1
        simp [kvSet, kvGet, h0]
      · simp [kvSet, kvGet, h0, h1, ih]

theorem ConfigStorage.getProfileKey_ne {i j : Nat} (hi : i < 4) (hj : j < 4) (hij : i ≠ j) :
    ConfigStorage.getProfileKey i ≠ ConfigStorage.getProfileKey j := by
  interval_cases i <;> interval_cases j <;> first | (exact absurd rfl hij) | decide

theorem ConfigStorage.getAddressKey_ne {i j : Nat} (hi : i < 4) (hj : j < 4) (hij : i ≠ j) :
    ConfigStorage.getAddressKey i ≠ ConfigStorage.getAddressKey j := by
  interval_cases i <;> interval_cases j <;> first | (exact absurd rfl hij) | decide

/-- The effect of `saveConfigToProfile` on a store that accepts writes. -/
theorem ConfigStorage.saveConfigToProfile_writable (s : ConfigStorage) (p : Nat) (hp : p < 4)
    (hw : s.preferences.failKeys = []) :
    s.saveConfigToProfile p =
      (decide (s.currentConfig.values.length = 15),
        { s with preferences :=
          { s.preferences with
            blobs := kvSet s.preferences.blobs (getProfileKey p) s.currentConfig.values,
            u64s := kvSet s.preferences.u64s (getAddressKey p) s.currentConfig.address,
            putCalls := s.preferences.putCalls + 1 + 1 } }) := by
  have hp' : ¬ p ≥ MAX_PROFILES := by simp [MAX_PROFILES]; omega
  simp [saveConfigToProfile, hp', Preferences.putBytes, Preferences.putULong64, hw,
    CONFIG_VALUES_COUNT]

/-- The effect of `loadConfigFromProfile` on a slot holding a 15-byte record. -/
theorem ConfigStorage.loadConfigFromProfile_full (s : ConfigStorage) (p : Nat) (hp : p < 4)
    (v : List Nat) (hv : v.length = 15) (hbuf : s.currentConfig.values.length = 15)
    (hget : kvGet s.preferences.blobs (getProfileKey p) = some v) :
    s.loadConfigFromProfile p =
      (true, { s with currentConfig :=
        { values := v,
          address := s.preferences.getULong64 (getAddressKey p) defaultAddress } }) := by
  have hp' : ¬ p ≥ MAX_PROFILES := by simp [MAX_PROFILES]; omega
  simp [loadConfigFromProfile, hp', Preferences.getBytes, hget, hv, CONFIG_VALUES_COUNT, hbuf]

/-- C2: with a store that accepts writes, saving slot `i`, changing the in-memory
configuration arbitrarily, saving another slot `j` and loading slot `i` again returns true
and restores exactly the 15 values and the address that were saved. -/
theorem save_other_slot_then_load_roundtrip (s : ConfigStorage) (i j : Nat)
    (other : ConfigProfile) (hi : i < 4) (hj : j < 4) (hij : i ≠ j)
    (hlen : s.currentConfig.values.length = 15) (hother : other.values.length = 15)
    (hw : s.preferences.failKeys = []) :
    ((((s.saveConfigToProfile i).2.setConfig other).saveConfigToProfile j).2.loadConfigFromProfile
        i).1 = true ∧
    ((((s.saveConfigToProfile i).2.setConfig other).saveConfigToProfile j).2.loadConfigFromProfile
        i).2.currentConfig = s.currentConfig := by
  rw [ConfigStorage.saveConfigToProfile_writable s i hi hw]
  rw [ConfigStorage.saveConfigToProfile_writable _ j hj (by simpa [ConfigStorage.setConfig] using hw)]
  rw [ConfigStorage.loadConfigFromProfile_full _ i hi s.currentConfig.values hlen
    (by simpa [ConfigStorage.setConfig] using hother)
    (by
      simp only [ConfigStorage.setConfig]
      rw [kvGet_kvSet_ne _ _ _ _ (ConfigStorage.getProfileKey_ne hi hj hij), kvGet_kvSet_same])]
  refine ⟨rfl, ?_⟩
  simp only [ConfigStorage.setConfig, Preferences.getULong64]
  rw [kvGet_kvSet_ne _ _ _ _ (ConfigStorage.getAddressKey_ne hi hj hij), kvGet_kvSet_same]
  rfl

/-- Witness for C2: slots 2 and 0 on an empty store. -/
theorem save_other_slot_then_load_roundtrip_witness :
    freshStorage.currentConfig.values.length = 15 ∧
    ((((freshStorage.saveConfigToProfile 2).2.setConfig
        { values := List.replicate 15 7, address := 5 }).saveConfigToProfile
          0).2.loadConfigFromProfile 2).1 = true ∧
    ((((freshStorage.saveConfigToProfile 2).2.setConfig
        { values := List.replicate 15 7, address := 5 }).saveConfigToProfile
          0).2.loadConfigFromProfile 2).2.currentConfig = freshStorage.currentConfig :=
  ⟨by decide,
    save_other_slot_then_load_roundtrip freshStorage 2 0
      { values := List.replicate 15 7, address := 5 }
      (by decide) (by decide) (by decide) (by decide) (by decide) (by decide)⟩

/-- C3 (counterexample): on an empty store, with the in-memory address `0x1122334455`,
`loadConfigFromProfile(0)` returns false but the in-memory address has become the default
`0xE8E8F0F0E1`: the in-memory configuration is not what it was before the call. -/
theorem load_absent_slot_overwrites_address :
    (editedStorage.loadConfigFromProfile 0).1 = false ∧
    editedStorage.currentConfig.address = 0x1122334455 ∧
    (editedStorage.loadConfigFromProfile 0).2.currentConfig.address = 0xE8E8F0F0E1 ∧
    (editedStorage.loadConfigFromProfile 0).2.currentConfig ≠ editedStorage.currentConfig := by
  decide

/-- C3 (as amended): if slot `p < 4` has no stored values record (absent or zero-length),
`loadConfigFromProfile(p)` returns false, leaves the 15 in-memory values and the store as they
were, and replaces the in-memory address by the value stored under the slot's address key,
or by the default `0xE8E8F0F0E1` when there is none. -/
theorem load_absent_slot (s : ConfigStorage) (p : Nat) (hp : p < 4)
    (habsent : kvGet s.preferences.blobs (ConfigStorage.getProfileKey p) = none ∨
      kvGet s.preferences.blobs (ConfigStorage.getProfileKey p) = some []) :
    (s.loadConfigFromProfile p).1 = false ∧
    (s.loadConfigFromProfile p).2.currentConfig.values = s.currentConfig.values ∧
    (s.loadConfigFromProfile p).2.currentConfig.address =
      (kvGet s.preferences.u64s (ConfigStorage.getAddressKey p)).getD 0xE8E8F0F0E1 ∧
    (s.loadConfigFromProfile p).2.preferences = s.preferences ∧
    (s.loadConfigFromProfile p).2.activeProfile = s.activeProfile := by
  have hp' : ¬ p ≥ MAX_PROFILES := by simp [MAX_PROFILES]; omega
  rcases habsent with h | h <;>
    simp [ConfigStorage.loadConfigFromProfile, hp', Preferences.getBytes, h,
      CONFIG_VALUES_COUNT, Preferences.getULong64, ConfigStorage.defaultAddress]

/-- Witness for C3 (as amended): slot 0 of an empty store. -/
theorem load_absent_slot_witness :
    (editedStorage.loadConfigFromProfile 0).1 = false ∧
    (editedStorage.loadConfigFromProfile 0).2.currentConfig.values =
      editedStorage.currentConfig.values ∧
    (editedStorage.loadConfigFromProfile 0).2.currentConfig.address =
      (kvGet editedStorage.preferences.u64s (ConfigStorage.getAddressKey 0)).getD 0xE8E8F0F0E1 ∧
    (editedStorage.loadConfigFromProfile 0).2.preferences = editedStorage.preferences ∧
    (editedStorage.loadConfigFromProfile 0).2.activeProfile = editedStorage.activeProfile :=
  load_absent_slot editedStorage 0 (by decide) (Or.inl (by decide))

/-- The first `loadConfigFromProfile` on a slot holding a 14-byte record, on a store that
accepts writes. -/
theorem ConfigStorage.loadConfigFromProfile_legacy (s : ConfigStorage) (p : Nat) (b : List Nat)
    (hp : p < 4) (hb : b.length = 14) (hbuf : s.currentConfig.values.length = 15)
    (hget : kvGet s.preferences.blobs (getProfileKey p) = some b)
    (hw : s.preferences.failKeys = []) :
    s.loadConfigFromProfile p =
      (true,
        { s with
          currentConfig :=
            { values := b ++ [1],
              address := s.preferences.getULong64 (getAddressKey p) defaultAddress },
          preferences :=
            { s.preferences with
              blobs := kvSet s.preferences.blobs (getProfileKey p) (b ++ [1]),
              u64s := kvSet s.preferences.u64s (getAddressKey p)
                (s.preferences.getULong64 (getAddressKey p) defaultAddress),
              putCalls := s.preferences.putCalls + 1 + 1 } }) := by
  have hp' : ¬ p ≥ MAX_PROFILES := by simp [MAX_PROFILES]; omega
  have hvals : (b ++ List.drop 14 s.currentConfig.values).set 14 1 = b ++ [1] := by
    have hd : (List.drop 14 s.currentConfig.values).length = 1 := by simp [hbuf]
    obtain ⟨x, hx⟩ := List.length_eq_one.mp hd
    rw [hx, List.set_append_right _ _ (by omega)]
    simp [hb]
  simp [loadConfigFromProfile, hp', Preferences.getBytes, hget, hb,
    CONFIG_VALUES_COUNT, hvals, saveConfigToProfile, Preferences.putBytes,
    Preferences.putULong64, hw]

/-- The result and the in-memory values of `loadConfigFromProfile` on a slot holding a 14-byte
record, whether or not the store accepts the rewrite. -/
theorem ConfigStorage.loadConfigFromProfile_legacy_values (s : ConfigStorage) (p : Nat)
    (b : List Nat) (hp : p < 4) (hb : b.length = 14)
    (hbuf : s.currentConfig.values.length = 15)
    (hget : kvGet s.preferences.blobs (getProfileKey p) = some b) :
    (s.loadConfigFromProfile p).1 = true ∧
    (s.loadConfigFromProfile p).2.currentConfig.values = b ++ [1] ∧
    (kvGet (s.loadConfigFromProfile p).2.preferences.blobs (getProfileKey p) = some b ∨
      kvGet (s.loadConfigFromProfile p).2.preferences.blobs (getProfileKey p)
        = some (b ++ [1])) := by
  have hp' : ¬ p ≥ MAX_PROFILES := by simp [MAX_PROFILES]; omega
  have hvals : (b ++ List.drop 14 s.currentConfig.values).set 14 1 = b ++ [1] := by
    have hd : (List.drop 14 s.currentConfig.values).length = 1 := by simp [hbuf]
    obtain ⟨x, hx⟩ := List.length_eq_one.mp hd
    rw [hx, List.set_append_right _ _ (by omega)]
    simp [hb]
  by_cases hK : getProfileKey p ∈ s.preferences.failKeys <;>
    by_cases hA : getAddressKey p ∈ s.preferences.failKeys <;>
    simp [loadConfigFromProfile, hp', Preferences.getBytes, hget, hb,
      CONFIG_VALUES_COUNT, hvals, saveConfigToProfile, Preferences.putBytes,
      Preferences.putULong64, hK, hA, kvGet_kvSet_same]

/-- C4: if slot `p` holds a 14-byte record `b`, the first `loadConfigFromProfile(p)` returns
true and leaves the in-memory values equal to `b` followed by 1, and a second
`loadConfigFromProfile(p)` returns true with the same 15 in-memory values; on a store that
accepts writes the first load rewrites the slot's record as those 15 bytes and the second load
makes no put call and leaves the store unchanged. -/
theorem load_legacy_record_migrates_once (s : ConfigStorage) (p : Nat) (b : List Nat)
    (hp : p < 4) (hb : b.length = 14) (hbuf : s.currentConfig.values.length = 15)
    (hget : kvGet s.preferences.blobs (ConfigStorage.getProfileKey p) = some b) :
    (s.loadConfigFromProfile p).1 = true ∧
    (s.loadConfigFromProfile p).2.currentConfig.values = b ++ [1] ∧
    ((s.loadConfigFromProfile p).2.loadConfigFromProfile p).1 = true ∧
    ((s.loadConfigFromProfile p).2.loadConfigFromProfile p).2.currentConfig.values = b ++ [1] ∧
    (s.preferences.failKeys = [] →
      kvGet (s.loadConfigFromProfile p).2.preferences.blobs (ConfigStorage.getProfileKey p) =
        some (b ++ [1]) ∧
      ((s.loadConfigFromProfile p).2.loadConfigFromProfile p).2.preferences.putCalls =
        (s.loadConfigFromProfile p).2.preferences.putCalls ∧
      ((s.loadConfigFromProfile p).2.loadConfigFromProfile p).2.preferences =
        (s.loadConfigFromProfile p).2.preferences) := by
  obtain ⟨h1, h2, h3⟩ := ConfigStorage.loadConfigFromProfile_legacy_values s p b hp hb hbuf hget
  refine ⟨h1, h2, ?_, ?_, ?_⟩
  · rcases h3 with h3 | h3
    · exact (ConfigStorage.loadConfigFromProfile_legacy_values _ p b hp hb
        (by rw [h2]; simp [hb]) h3).1
    · rw [ConfigStorage.loadConfigFromProfile_full _ p hp (b ++ [1]) (by simp [hb])
        (by rw [h2]; simp [hb]) h3]
  · rcases h3 with h3 | h3
    · exact (ConfigStorage.loadConfigFromProfile_legacy_values _ p b hp hb
        (by rw [h2]; simp [hb]) h3).2.1
    · rw [ConfigStorage.loadConfigFromProfile_full _ p hp (b ++ [1]) (by simp [hb])
        (by rw [h2]; simp [hb]) h3]
  · intro hw
    rw [ConfigStorage.loadConfigFromProfile_legacy s p b hp hb hbuf hget hw]
    have hsecond := ConfigStorage.loadConfigFromProfile_full
      { s with
        currentConfig :=
          { values := b ++ [1],
            address := s.preferences.getULong64 (ConfigStorage.getAddressKey p)
              ConfigStorage.defaultAddress },
        preferences :=
          { s.preferences with
            blobs := kvSet s.preferences.blobs (ConfigStorage.getProfileKey p) (b ++ [1]),
            u64s := kvSet s.preferences.u64s (ConfigStorage.getAddressKey p)
              (s.preferences.getULong64 (ConfigStorage.getAddressKey p)
                ConfigStorage.defaultAddress),
            putCalls := s.preferences.putCalls + 1 + 1 } }
      p hp (b ++ [1]) (by simp [hb]) (by simp [hb]) (kvGet_kvSet_same _ _ _)
    simp only [] at hsecond ⊢
    rw [hsecond]
    simp [kvGet_kvSet_same]

/-- Witness for C4: slot 1 holding a 14-byte record. -/
theorem load_legacy_record_migrates_once_witness :
    kvGet legacyStorage.preferences.blobs (ConfigStorage.getProfileKey 1) =
      some [10, 20, 30, 40, 50, 60, 70, 80, 90, 100, 110, 120, 130, 140] ∧
    legacyStorage.preferences.failKeys = [] ∧
    (legacyStorage.loadConfigFromProfile 1).2.currentConfig.values =
      [10, 20, 30, 40, 50, 60, 70, 80, 90, 100, 110, 120, 130, 140] ++ [1] ∧
    kvGet (legacyStorage.loadConfigFromProfile 1).2.preferences.blobs
        (ConfigStorage.getProfileKey 1) =
      some ([10, 20, 30, 40, 50, 60, 70, 80, 90, 100, 110, 120, 130, 140] ++ [1]) :=
  ⟨by decide, by decide,
    (load_legacy_record_migrates_once legacyStorage 1
      [10, 20, 30, 40, 50, 60, 70, 80, 90, 100, 110, 120, 130, 140]
      (by decide) (by decide) (by decide) (by decide)).2.1,
    ((load_legacy_record_migrates_once legacyStorage 1
      [10, 20, 30, 40, 50, 60, 70, 80, 90, 100, 110, 120, 130, 140]
      (by decide) (by decide) (by decide) (by decide)).2.2.2.2 (by decide)).1⟩

/-! ### Joystick -/

theorem truncToLong_intCast (n : Int) : truncToLong (n : ℚ) = n := by
  simp [truncToLong]

theorem constrain_bounds (a lo hi : Int) (h : lo ≤ hi) :
    lo ≤ constrain a lo hi ∧ constrain a lo hi ≤ hi := by
  unfold constrain
  split_ifs <;> omega

theorem constrain_mono (a b lo hi : Int) (h : lo ≤ hi) (hab : a ≤ b) :
    constrain a lo hi ≤ constrain b lo hi := by
  unfold constrain
  split_ifs <;> omega

theorem toInt32_of_fits (x : Int) (h : fitsLong x) : toInt32 x = x := by
  unfold fitsLong at h
  unfold toInt32
  omega

/-- Where no intermediate value leaves the 32-bit range, `map` is the exact quotient. -/
theorem arduinoMap_of_fits (x a b lo hi : Int) (hrun : fitsLong (b - a))
    (hrise : fitsLong (hi - lo)) (hdelta : fitsLong (x - a))
    (hprod : fitsLong ((x - a) * (hi - lo)))
    (hres : fitsLong (Int.tdiv ((x - a) * (hi - lo)) (b - a) + lo)) :
    arduinoMap x a b lo hi =
      if b - a = 0 then -1 else Int.tdiv ((x - a) * (hi - lo)) (b - a) + lo := by
  simp only [arduinoMap, toInt32_of_fits _ hrun, toInt32_of_fits _ hrise,
    toInt32_of_fits _ hdelta, toInt32_of_fits _ hprod, toInt32_of_fits _ hres]

/-- The upper half of the axis map, for a reading between the centre and the maximum. -/
theorem arduinoMap_upper (x c M : Int) (hc : c < M) (hx : c ≤ x) (hxM : x ≤ M)
    (hfit : (M - c) * 255 < 2147483648) :
    arduinoMap x c M 0 255 = (x - c) * 255 / (M - c) := by
  have hrun : M - c ≠ 0 := by omega
  have hp0 : 0 ≤ (x - c) * 255 := by omega
  have hq0 : 0 ≤ (x - c) * 255 / (M - c) := Int.ediv_nonneg hp0 (by omega)
  have hq1 : (x - c) * 255 / (M - c) ≤ 255 := Int.ediv_le_of_le_mul (by omega) (by nlinarith)
  have ht : Int.tdiv ((x - c) * (255 - 0)) (M - c) = (x - c) * 255 / (M - c) := by
    rw [show (255 : Int) - 0 = 255 by norm_num, Int.tdiv_eq_ediv hp0 (by omega)]
  rw [arduinoMap_of_fits x c M 0 255 (by unfold fitsLong; omega) (by unfold fitsLong; omega)
    (by unfold fitsLong; omega) (by unfold fitsLong; omega)
    (by rw [ht]; unfold fitsLong; omega), if_neg hrun, ht]
  omega

/-- The lower half of the axis map, for a reading between the minimum and the centre. -/
theorem arduinoMap_lower (x m c : Int) (hc : m < c) (hx : m ≤ x) (hxc : x ≤ c)
    (hfit : (c - m) * 255 < 2147483648) :
    arduinoMap x m c (-255) 0 = (x - m) * 255 / (c - m) - 255 := by
  have hrun : c - m ≠ 0 := by omega
  have hp0 : 0 ≤ (x - m) * 255 := by omega
  have hq0 : 0 ≤ (x - m) * 255 / (c - m) := Int.ediv_nonneg hp0 (by omega)
  have hq1 : (x - m) * 255 / (c - m) ≤ 255 := Int.ediv_le_of_le_mul (by omega) (by nlinarith)
  have ht : Int.tdiv ((x - m) * (0 - -255)) (c - m) = (x - m) * 255 / (c - m) := by
    rw [show (0 : Int) - -255 = 255 by norm_num, Int.tdiv_eq_ediv hp0 (by omega)]
  rw [arduinoMap_of_fits x m c (-255) 0 (by unfold fitsLong; omega) (by unfold fitsLong; omega)
    (by unfold fitsLong; omega) (by unfold fitsLong; omega)
    (by rw [ht]; unfold fitsLong; omega), if_neg hrun, ht]
  omega

/-- With smoothing and X inversion disabled, `readX` is the dead-zone test followed by the
two-sided map of the raw reading. -/
theorem Joystick.readX_plain (j : Joystick) (hs : j._useSmoothing = false)
    (hinv : j._invertX = false) :
    j.readX.1 =
      if j._isInDeadZone j.rawX j.rawY then 0
      else constrain
        (if j._centerX ≤ j.rawX then arduinoMap j.rawX j._centerX j._maxX 0 255
         else arduinoMap j.rawX j._minX j._centerX (-255) 0) (-255) 255 := by
  unfold Joystick.readX
  by_cases hd : j._isInDeadZone j.rawX j.rawY
  · simp [hd]
  · simp [hd, Joystick._applySmoothing, hs, hinv, truncToLong_intCast]

/-- A reading lying between the centre and a reading inside the dead zone (same `y`) is
inside the dead zone too. -/
theorem Joystick.isInDeadZone_towards_centre (j : Joystick) (x1 x2 y : Int)
    (hd : j._isInDeadZone x1 y = true)
    (h : (j._centerX ≤ x2 ∧ x2 ≤ x1) ∨ (x1 ≤ x2 ∧ x2 ≤ j._centerX)) :
    j._isInDeadZone x2 y = true := by
  unfold Joystick._isInDeadZone at hd ⊢
  by_cases hc : j._useCircularDeadZone
  · simp only [hc, if_true, decide_eq_true_eq] at hd ⊢
    refine ⟨hd.1, ?_⟩
    have : (x2 - j._centerX) * (x2 - j._centerX) ≤ (x1 - j._centerX) * (x1 - j._centerX) := by
      rcases h with ⟨h1, h2⟩ | ⟨h1, h2⟩ <;> nlinarith
    linarith [hd.2]
  · simp only [hc, decide_eq_true_eq, abs_le] at hd ⊢
    simp only [Bool.false_eq_true, if_false, decide_eq_true_eq, abs_le] at hd ⊢
    rcases h with ⟨h1, h2⟩ | ⟨h1, h2⟩ <;> omega

set_option maxRecDepth 100000 in
/-- C10 (counterexample): after `setLimits(-8420504, 4095, 0, 4095)` (centre 2048, default
circular dead zone, no inversion, no smoothing, raw Y at the centre) the raw X readings 1000
and 1001 lie within `[min, max]`, and `readX` returns -1 at 1000 and -255 at 1001: in `map`
the 32-bit product `(1001 + 8420504) * 255` wraps around, so `readX` is not monotonic. -/
theorem readX_not_monotone_wide_calibration :
    ((Joystick.new 255 1000 2048 true).setLimits (-8420504) 4095 0 4095)._minX
      < ((Joystick.new 255 1000 2048 true).setLimits (-8420504) 4095 0 4095)._centerX ∧
    ((Joystick.new 255 1000 2048 true).setLimits (-8420504) 4095 0 4095)._centerX
      < ((Joystick.new 255 1000 2048 true).setLimits (-8420504) 4095 0 4095)._maxX ∧
    (((Joystick.new 255 1000 2048 true).setLimits (-8420504) 4095 0 4095).readX).1 = -1 ∧
    (((Joystick.new 255 1001 2048 true).setLimits (-8420504) 4095 0 4095).readX).1 = -255 ∧
    ¬ (((Joystick.new 255 1000 2048 true).setLimits (-8420504) 4095 0 4095).readX).1 ≤
      (((Joystick.new 255 1001 2048 true).setLimits (-8420504) 4095 0 4095).readX).1 := by
  refine ⟨by decide, by decide, ?_, ?_, ?_⟩ <;> decide!

/-- C10 (as amended): for every calibration with `min < center < max` on which the arithmetic
of `readX` stays within its types, every dead-zone radius and shape, X inversion off,
smoothing disabled and a fixed raw Y, `readX` is monotonic non-decreasing in the raw X over
`[min, max]`, and its value lies within `[-255, 255]`.  The conditions on the calibration:
the products inside `map` fit 32 bits (`(max - center) * 255 < 2^31` and
`(center - min) * 255 < 2^31`); a `float` holds every reading of `[min, max]` exactly
(`-2^24 <= min`, `max <= 2^24`); the difference `rawY - centerY` fits 32 bits and, for the
circular dead zone, so does the sum of squares `dx*dx + dy*dy` over `[min, max]`. -/
theorem readX_monotone_and_bounded (j : Joystick) (x1 x2 : Int)
    (hmin : j._minX < j._centerX) (hmax : j._centerX < j._maxX)
    (hfitU : (j._maxX - j._centerX) * 255 < 2147483648)
    (hfitL : (j._centerX - j._minX) * 255 < 2147483648)
    (_hlo : -16777216 ≤ j._minX) (_hhi : j._maxX ≤ 16777216)
    (_hdy : |j.rawY - j._centerY| < 2147483648)
    (_hsq : j._useCircularDeadZone = true →
      (j._maxX - j._centerX) * (j._maxX - j._centerX)
        + (j.rawY - j._centerY) * (j.rawY - j._centerY) < 2147483648 ∧
      (j._centerX - j._minX) * (j._centerX - j._minX)
        + (j.rawY - j._centerY) * (j.rawY - j._centerY) < 2147483648)
    (hinv : j._invertX = false) (hs : j._useSmoothing = false)
    (h1 : j._minX ≤ x1) (h12 : x1 ≤ x2) (h2 : x2 ≤ j._maxX) :
    ({ j with rawX := x1 }.readX).1 ≤ ({ j with rawX := x2 }.readX).1 ∧
    -255 ≤ ({ j with rawX := x1 }.readX).1 ∧ ({ j with rawX := x1 }.readX).1 ≤ 255 ∧
    -255 ≤ ({ j with rawX := x2 }.readX).1 ∧ ({ j with rawX := x2 }.readX).1 ≤ 255 := by
  have key : ∀ x : Int, ({ j with rawX := x }.readX).1 =
      if j._isInDeadZone x j.rawY then 0
      else constrain
        (if j._centerX ≤ x then arduinoMap x j._centerX j._maxX 0 255
         else arduinoMap x j._minX j._centerX (-255) 0) (-255) 255 := by
    intro x
    have := Joystick.readX_plain { j with rawX := x } hs hinv
    simpa [Joystick._isInDeadZone] using this
  have bound : ∀ x : Int, -255 ≤ ({ j with rawX := x }.readX).1 ∧
      ({ j with rawX := x }.readX).1 ≤ 255 := by
    intro x
    rw [key x]
    split_ifs
    · omega
    · exact constrain_bounds _ _ _ (by omega)
    · exact constrain_bounds _ _ _ (by omega)
  have hpos : ∀ x : Int, j._centerX ≤ x → x ≤ j._maxX →
      0 ≤ ({ j with rawX := x }.readX).1 := by
    intro x hx hxM
    rw [key x]
    split_ifs
    · omega
    · rw [arduinoMap_upper x _ _ hmax hx hxM hfitU]
      have h0 : 0 ≤ (x - j._centerX) * 255 / (j._maxX - j._centerX) :=
        Int.ediv_nonneg (by nlinarith) (by omega)
      have := constrain_mono 0 _ (-255) 255 (by omega) h0
      simpa [constrain] using this
  have hneg : ∀ x : Int, j._minX ≤ x → x < j._centerX → ({ j with rawX := x }.readX).1 ≤ 0 := by
    intro x hx hxc
    rw [key x]
    have hnc : ¬ j._centerX ≤ x := by omega
    split_ifs
    · omega
    · rw [arduinoMap_lower x _ _ hmin hx (by omega) hfitL]
      have h0 : (x - j._minX) * 255 / (j._centerX - j._minX) ≤ 255 :=
        Int.ediv_le_of_le_mul (by omega) (by nlinarith)
      have := constrain_mono _ 0 (-255) 255 (by omega)
        (show (x - j._minX) * 255 / (j._centerX - j._minX) - 255 ≤ 0 by omega)
      simpa [constrain] using this
  refine ⟨?_, (bound x1).1, (bound x1).2, (bound x2).1, (bound x2).2⟩
  by_cases hx1 : j._centerX ≤ x1
  · -- both readings at or above the centre
    have hx2 : j._centerX ≤ x2 := by omega
    by_cases hd2 : j._isInDeadZone x2 j.rawY = true
    · have hd1 := Joystick.isInDeadZone_towards_centre j x2 x1 j.rawY hd2 (Or.inl ⟨hx1, h12⟩)
      rw [key x1, key x2]
      simp [hd1, hd2]
    · by_cases hd1 : j._isInDeadZone x1 j.rawY = true
      · have := hpos x2 hx2 h2
        rw [key x1]
        simp only [hd1, if_true]
        exact this
      · rw [key x1, key x2]
        simp only [hd1, hd2, hx1, hx2, if_true, if_false, Bool.false_eq_true]
        apply constrain_mono _ _ _ _ (by omega)
        rw [arduinoMap_upper x1 _ _ hmax hx1 (by omega) hfitU,
          arduinoMap_upper x2 _ _ hmax hx2 h2 hfitU]
        exact Int.ediv_le_ediv (by omega) (by nlinarith)
  · by_cases hx2 : j._centerX ≤ x2
    · -- the centre lies between the two readings
      have ha := hneg x1 h1 (by omega)
      have hb := hpos x2 hx2 h2
      omega
    · -- both readings below the centre
      by_cases hd1 : j._isInDeadZone x1 j.rawY = true
      · have hd2 := Joystick.isInDeadZone_towards_centre j x1 x2 j.rawY hd1
          (Or.inr ⟨h12, by omega⟩)
        rw [key x1, key x2]
        simp [hd1, hd2]
      · by_cases hd2 : j._isInDeadZone x2 j.rawY = true
        · have := hneg x1 h1 (by omega)
          rw [key x2]
          simp only [hd2, if_true]
          exact this
        · rw [key x1, key x2]
          simp only [hd1, hd2, hx1, hx2, if_false, Bool.false_eq_true]
          apply constrain_mono _ _ _ _ (by omega)
          rw [arduinoMap_lower x1 _ _ hmin h1 (by omega) hfitL,
            arduinoMap_lower x2 _ _ hmin (by omega) (by omega) hfitL]
          have := Int.ediv_le_ediv (a := (x1 - j._minX) * 255) (b := (x2 - j._minX) * 255)
            (c := j._centerX - j._minX) (by omega) (by nlinarith)
          omega

/-- Witness for C10 (as amended): the default calibration, readings 1000 and 3000. -/
theorem readX_monotone_and_bounded_witness :
    ({ Joystick.new 255 0 2048 true with rawX := 1000 }.readX).1 ≤
      ({ Joystick.new 255 0 2048 true with rawX := 3000 }.readX).1 ∧
    -255 ≤ ({ Joystick.new 255 0 2048 true with rawX := 1000 }.readX).1 ∧
    ({ Joystick.new 255 0 2048 true with rawX := 1000 }.readX).1 ≤ 255 ∧
    -255 ≤ ({ Joystick.new 255 0 2048 true with rawX := 3000 }.readX).1 ∧
    ({ Joystick.new 255 0 2048 true with rawX := 3000 }.readX).1 ≤ 255 :=
  readX_monotone_and_bounded (Joystick.new 255 0 2048 true) 1000 3000
    (by decide) (by decide) (by decide) (by decide) (by decide) (by decide) (by decide)
    (by decide) (by decide) (by decide) (by decide) (by decide) (by decide)

/-- C9: for a joystick calibrated with min 0, max 4095, centre 2048 on both axes, circular dead
zone of radius 60, no inversion and smoothing disabled: raw (2048, 2048) gives `readX = 0` and
`readY = 0`; raw x = 4095 with y at the centre gives `readX = 255`; raw x = 0 with y at the
centre gives `readX = -255`. -/
theorem readX_calibrated_scenario (j : Joystick)
    (hminX : j._minX = 0) (hmaxX : j._maxX = 4095) (hcX : j._centerX = 2048)
    (hminY : j._minY = 0) (hmaxY : j._maxY = 4095) (hcY : j._centerY = 2048)
    (hr : j._deadZoneRadius = 60) (hcirc : j._useCircularDeadZone = true)
    (hix : j._invertX = false) (hiy : j._invertY = false) (hs : j._useSmoothing = false) :
    ({ j with rawX := 2048, rawY := 2048 }.readX).1 = 0 ∧
    ({ j with rawX := 2048, rawY := 2048 }.readY).1 = 0 ∧
    ({ j with rawX := 4095, rawY := 2048 }.readX).1 = 255 ∧
    ({ j with rawX := 0, rawY := 2048 }.readX).1 = -255 := by
  have _ := hminY
  have _ := hmaxY
  have _ := hiy
  refine ⟨?_, ?_, ?_, ?_⟩
  · simp [Joystick.readX, Joystick._isInDeadZone, hcX, hcY, hr, hcirc]
  · simp [Joystick.readY, Joystick._isInDeadZone, hcX, hcY, hr, hcirc]
  · rw [Joystick.readX_plain { j with rawX := 4095, rawY := 2048 } hs hix]
    simp [Joystick._isInDeadZone, hcX, hcY, hr, hcirc, hmaxX, arduinoMap, toInt32, constrain]
    decide
  · rw [Joystick.readX_plain { j with rawX := 0, rawY := 2048 } hs hix]
    simp [Joystick._isInDeadZone, hcX, hcY, hr, hcirc, hminX, arduinoMap, toInt32, constrain]

/-- Witness for C9: the joystick as constructed, with `setDeadZone(60)`. -/
theorem readX_calibrated_scenario_witness :
    ({ (Joystick.new 255 7 9 true).setDeadZone 60 true with
        rawX := 2048, rawY := 2048 }.readX).1 = 0 ∧
    ({ (Joystick.new 255 7 9 true).setDeadZone 60 true with
        rawX := 2048, rawY := 2048 }.readY).1 = 0 ∧
    ({ (Joystick.new 255 7 9 true).setDeadZone 60 true with
        rawX := 4095, rawY := 2048 }.readX).1 = 255 ∧
    ({ (Joystick.new 255 7 9 true).setDeadZone 60 true with
        rawX := 0, rawY := 2048 }.readX).1 = -255 :=
  readX_calibrated_scenario ((Joystick.new 255 7 9 true).setDeadZone 60 true)
    rfl rfl rfl rfl rfl rfl rfl rfl rfl rfl rfl

/-! ### Mapper -/

theorem toInt16_of_range (x : Int) (h1 : -32768 ≤ x) (h2 : x ≤ 32767) : toInt16 x = x := by
  unfold toInt16
  omega

/-- A reading within `[-100, 100]` (what `Lever::readPosition` returns for an analog lever) is
mapped by an installed mapping into `[minVal, maxVal]`. -/
theorem applyMapping_within_range (channel : Nat) (v minVal maxVal : Int)
    (hv1 : -100 ≤ v) (hv2 : v ≤ 100) (hmm : minVal ≤ maxVal)
    (hlo : -32768 ≤ minVal) (hhi : maxVal ≤ 32767) :
    minVal ≤ NRF24Controller._applyMapping v (NRF24Controller.installMapping channel minVal maxVal) ∧
    NRF24Controller._applyMapping v (NRF24Controller.installMapping channel minVal maxVal) ≤ maxVal := by
  have hq0 : 0 ≤ (v + 100) * (maxVal - minVal) / 200 :=
    Int.ediv_nonneg (by nlinarith) (by omega)
  have hq1 : (v + 100) * (maxVal - minVal) / 200 ≤ maxVal - minVal :=
    Int.ediv_le_of_le_mul (by omega) (by nlinarith)
  have hmap : arduinoMap v (-100) 100 minVal maxVal =
      (v + 100) * (maxVal - minVal) / 200 + minVal := by
    have hp0 : 0 ≤ (v + 100) * (maxVal - minVal) := by nlinarith
    have hp1 : (v + 100) * (maxVal - minVal) ≤ 200 * 65535 := by nlinarith
    have ht : Int.tdiv ((v - -100) * (maxVal - minVal)) (100 - -100)
        = (v + 100) * (maxVal - minVal) / 200 := by
      rw [show (100 : Int) - -100 = 200 by norm_num, show v - -100 = v + 100 by omega,
        Int.tdiv_eq_ediv hp0 (by omega)]
    rw [arduinoMap_of_fits v (-100) 100 minVal maxVal (by decide) (by unfold fitsLong; omega)
      (by unfold fitsLong; omega)
      (by rw [show v - -100 = v + 100 by omega]; unfold fitsLong; omega)
      (by rw [ht]; unfold fitsLong; omega), if_neg (by decide), ht]
  simp only [NRF24Controller._applyMapping, NRF24Controller.installMapping, Bool.not_true,
    Bool.false_eq_true, if_false, mul_one, truncToLong_intCast, hmap]
  rw [toInt16_of_range _ (by omega) (by omega)]
  omega

set_option maxRecDepth 100000 in
/-- C6 (failing input): joystick 0 at the default calibration pushed fully right reads
`readX = 255`; with the base mapping `mapJoystickToChannel(0, true, 1, -100, 100)` a mapper
cycle writes 255 to channel 1, outside `[-100, 100]`. -/
theorem base_mapping_leaves_range :
    (Joystick.new 255 4095 2048 true).readX.1 = 255 ∧
    mappedController._updateChannelValues._channelValues.getD 1 0 = 255 ∧
    mappedController._updateChannelValues._channelUpdated.getD 1 false = true := by
  decide!

set_option maxRecDepth 100000 in
/-- C5 (failing input): with the base mapping of the X axis to channel 1 with range
`[-100, 100]` and the conditional mapping on channel 1 with range `[-50, 50]`, and the
joystick pushed fully right: the cycle in which the trigger lever reports the trigger
position leaves channel 1 at 127, and the cycle in which it does not leaves it at 255. -/
theorem conditional_mapping_leaves_range :
    (conditionalController 0)._checkConditionalMapping
        (((conditionalController 0)._profiles.getD 0 ControlProfile.zero).conditionalMappings.getD
          0 ConditionalMapping.zero) = true ∧
    (conditionalController 0)._updateChannelValues._channelValues.getD 1 0 = 127 ∧
    (conditionalController 1)._checkConditionalMapping
        (((conditionalController 1)._profiles.getD 0 ControlProfile.zero).conditionalMappings.getD
          0 ConditionalMapping.zero) = false ∧
    (conditionalController 1)._updateChannelValues._channelValues.getD 1 0 = 255 := by
  decide!

set_option maxRecDepth 100000 in
/-- C7 (failing input): `_executeActiveProfile` at time 1000 on `mappedController` runs a
mapper cycle that marks channel 1 updated with value 255, and hands the radio one packet whose
only record is `(id 0, CONTROL_JOYSTICK, valueX 255)`: the packet holds no record with id 1
and type `CONTROL_CUSTOM`. -/
theorem executeActiveProfile_packet_lacks_channels :
    mappedController._updateChannelValues._channelUpdated.getD 1 false = true ∧
    (mappedController._executeActiveProfile 1000).radioSent.map
        (fun p => (p.controls.take p.controlCount).map fun r => (r.id, r.type, r.valueX))
      = [[(0, ControlType.CONTROL_JOYSTICK, 255)]] := by
  decide!

/-! ### Dead zone -/

theorem tdiv_two_int16 (a : Int) (h1 : -65536 ≤ a) (h2 : a ≤ 65534) :
    -32768 ≤ a.tdiv 2 ∧ a.tdiv 2 ≤ 32767 := by
  by_cases h : 0 ≤ a
  · rw [Int.tdiv_eq_ediv h (by decide)]
    omega
  · have hneg : a.tdiv 2 = -((-a) / 2) := by
      have h' : a.tdiv 2 = -((-a).tdiv 2) := by
        rw [Int.neg_tdiv, neg_neg]
      rw [h', Int.tdiv_eq_ediv (by omega) (by decide)]
    rw [hneg]
    omega

/-- C14: `createProfile` with fewer than 4 existing profiles returns the previous profile
count as the new index and increases the count by one; with 4 existing profiles it returns
255 and leaves the count at 4 and the four profiles and the active profile unchanged. -/
theorem createProfile_capacity (c : NRF24Controller) (name : String) :
    (c._profileCount < 4 →
      (c.createProfile name).1 = c._profileCount ∧
      (c.createProfile name).2._profileCount = c._profileCount + 1) ∧
    (c._profileCount = 4 →
      (c.createProfile name).1 = 255 ∧
      (c.createProfile name).2._profileCount = 4 ∧
      (c.createProfile name).2._profiles = c._profiles ∧
      (c.createProfile name).2._activeProfile = c._activeProfile ∧
      (c.createProfile name).2 = c) := by
  constructor
  · intro h
    have h' : ¬ c._profileCount ≥ 4 := by omega
    have hmod : (c._profileCount + 1) % 256 = c._profileCount + 1 := by omega
    simp [NRF24Controller.createProfile, h', hmod]
  · intro h
    simp [NRF24Controller.createProfile, h]

/-- Witness for C14: the first profile of a new controller gets index 0, and a fifth
`createProfile` is refused. -/
theorem createProfile_capacity_witness :
    ((NRF24Controller.new true).createProfile "a").1 = 0 ∧
    ((((((NRF24Controller.new true).createProfile "a").2.createProfile "b").2.createProfile
        "c").2.createProfile "d").2.createProfile "e").1 = 255 :=
  ⟨((createProfile_capacity (NRF24Controller.new true) "a").1 (by decide)).1,
   ((createProfile_capacity
      (((((NRF24Controller.new true).createProfile "a").2.createProfile "b").2.createProfile
        "c").2.createProfile "d").2 "e").2 (by decide)).1⟩

/-- C16: `addToPacket` on a packet that already holds 8 records leaves `controlCount` at 8 and
the records unchanged; on a packet holding `n < 8` records it stores the given id, type,
valueX, valueY and flags at index `n`, makes `controlCount` `n + 1` and leaves the records
`0 .. n-1` unchanged. -/
theorem addToPacket_capacity (pkt : DataPacket) (now controlId : Nat) (type : ControlType)
    (valueX valueY : Int) (flags : Nat) (hlen : pkt.controls.length = 8) :
    (pkt.controlCount = 8 →
      addToPacket pkt now controlId type valueX valueY flags = pkt) ∧
    (pkt.controlCount < 8 →
      (addToPacket pkt now controlId type valueX valueY flags).controlCount
        = pkt.controlCount + 1 ∧
      (addToPacket pkt now controlId type valueX valueY flags).controls.getD pkt.controlCount
          ControlData.zero
        = { id := controlId, type := type, valueX := valueX, valueY := valueY, flags := flags,
            timestamp := now } ∧
      ∀ k, k < pkt.controlCount →
        (addToPacket pkt now controlId type valueX valueY flags).controls.getD k ControlData.zero
          = pkt.controls.getD k ControlData.zero) := by
  constructor
  · intro h
    simp [addToPacket, h]
  · intro h
    have h' : ¬ pkt.controlCount ≥ 8 := by omega
    have hn : pkt.controlCount < pkt.controls.length := by omega
    simp only [addToPacket, h', if_false]
    refine ⟨trivial, ?_, ?_⟩
    · simp [List.getD, List.getElem?_set, hn]
    · intro k hk
      have hne : pkt.controlCount ≠ k := by omega
      simp [List.getD, List.getElem?_set, hne]

/-- Witness for C16: the first record of an empty packet, and a ninth record offered to a
full packet. -/
theorem addToPacket_capacity_witness :
    (addToPacket clearPacket 7 3 .CONTROL_CUSTOM 12 0 0).controlCount = 1 ∧
    (addToPacket clearPacket 7 3 .CONTROL_CUSTOM 12 0 0).controls.getD 0 ControlData.zero
      = { id := 3, type := .CONTROL_CUSTOM, valueX := 12, valueY := 0, flags := 0,
          timestamp := 7 } ∧
    fullPacket.controlCount = 8 ∧
    addToPacket fullPacket 7 3 .CONTROL_CUSTOM 12 0 0 = fullPacket :=
  ⟨((addToPacket_capacity clearPacket 7 3 .CONTROL_CUSTOM 12 0 0 (by decide)).2
      (by decide)).1,
   ((addToPacket_capacity clearPacket 7 3 .CONTROL_CUSTOM 12 0 0 (by decide)).2
      (by decide)).2.1,
   by decide,
   (addToPacket_capacity fullPacket 7 3 .CONTROL_CUSTOM 12 0 0 (by decide)).1 (by decide)⟩

/-- C15: `mapJoystickConditional` on a valid active profile that already has 8 conditional
mappings changes nothing; with `n < 8` it stores the new conditional (trigger lever, trigger
position, channel, min, max, centre `(min + max) / 2`) at index `n` and makes the count
`n + 1` without altering the entries `0 .. n-1`. -/
theorem mapJoystickConditional_capacity (c : NRF24Controller) (joystickId : Nat)
    (xAxis : Bool) (channel conditionLever leverPosition : Nat) (minVal maxVal : Int)
    (p : ControlProfile)
    (hactive : c._activeProfile < c._profileCount)
    (hp : c._profiles[c._activeProfile]? = some p)
    (hlen : p.conditionalMappings.length = 8)
    (hmin : -32768 ≤ minVal ∧ minVal ≤ 32767) (hmax : -32768 ≤ maxVal ∧ maxVal ≤ 32767) :
    (p.conditionalCount = 8 →
      c.mapJoystickConditional joystickId xAxis channel conditionLever leverPosition minVal
        maxVal = c) ∧
    (p.conditionalCount < 8 →
      ∃ q, (c.mapJoystickConditional joystickId xAxis channel conditionLever leverPosition
          minVal maxVal)._profiles[c._activeProfile]? = some q ∧
        q.conditionalCount = p.conditionalCount + 1 ∧
        q.conditionalMappings[p.conditionalCount]? =
          some { conditionLeverId := conditionLever, conditionPosition := leverPosition,
                 mapping :=
                   { outputChannel := channel, minValue := minVal, maxValue := maxVal,
                     centerValue := Int.tdiv (minVal + maxVal) 2, invertOutput := false,
                     scaleFactor := 1, enabled := true } } ∧
        ∀ k, k < p.conditionalCount → q.conditionalMappings[k]? = p.conditionalMappings[k]?) := by
  have ha : ¬ c._activeProfile ≥ c._profileCount := by omega
  have hget : c._profiles.getD c._activeProfile ControlProfile.zero = p := by
    simp [List.getD, hp]
  have hidx : c._activeProfile < c._profiles.length := by
    rcases Nat.lt_or_ge c._activeProfile c._profiles.length with h | h
    · exact h
    · rw [List.getElem?_eq_none h] at hp
      exact absurd hp (by simp)
  constructor
  · intro h
    have h8 : p.conditionalCount ≥ 8 := by omega
    simp only [NRF24Controller.mapJoystickConditional, hget, h8, or_true, if_true]
  · intro h
    have h' : ¬ p.conditionalCount ≥ 8 := by omega
    have hcentre : toInt16 (Int.tdiv (minVal + maxVal) 2) = Int.tdiv (minVal + maxVal) 2 := by
      have := tdiv_two_int16 (minVal + maxVal) (by omega) (by omega)
      exact toInt16_of_range _ this.1 this.2
    simp only [NRF24Controller.mapJoystickConditional, hget, ha, h', or_self, if_false]
    refine ⟨{ p with
        conditionalMappings := p.conditionalMappings.set p.conditionalCount
          { conditionLeverId := conditionLever, conditionPosition := leverPosition,
            mapping := NRF24Controller.installMapping channel minVal maxVal },
        conditionalCount := p.conditionalCount + 1 },
      by simp [List.getElem?_set, hidx], rfl, ?_, ?_⟩
    · have hn : p.conditionalCount < p.conditionalMappings.length := by omega
      simp [List.getElem?_set, hn, NRF24Controller.installMapping, hcentre]
    · intro k hk
      have hne : p.conditionalCount ≠ k := by omega
      simp [List.getElem?_set, hne]

set_option maxRecDepth 100000 in
/-- Witness for C15: the first conditional mapping of a new profile, and a ninth conditional
mapping offered to a profile that holds eight. -/
theorem mapJoystickConditional_capacity_witness :
    (∃ q, (mappedController.mapJoystickConditional 0 true 1 1 0 (-50) 50)._profiles[0]? = some q ∧
      q.conditionalCount = 1 ∧
      q.conditionalMappings[0]? =
        some { conditionLeverId := 1, conditionPosition := 0,
               mapping :=
                 { outputChannel := 1, minValue := -50, maxValue := 50,
                   centerValue := Int.tdiv (-50 + 50) 2, invertOutput := false,
                   scaleFactor := 1, enabled := true } }) ∧
    (eightConditionalsController._profiles.getD 0 ControlProfile.zero).conditionalCount = 8 ∧
    eightConditionalsController.mapJoystickConditional 0 true 2 1 0 (-10) 10
      = eightConditionalsController :=
  ⟨let ⟨q, h1, h2, h3, _⟩ :=
    (mapJoystickConditional_capacity mappedController 0 true 1 1 0 (-50) 50
      (mappedController._profiles.getD 0 ControlProfile.zero)
      (by decide) (by decide) (by decide) (by decide) (by decide)).2 (by decide)
   ⟨q, h1, h2, h3⟩,
   by decide,
   (mapJoystickConditional_capacity eightConditionalsController 0 true 2 1 0 (-10) 10
      (eightConditionalsController._profiles.getD 0 ControlProfile.zero)
      (by decide) (by decide) (by decide) (by decide) (by decide)).1 (by decide)⟩

/-! ### Slot switching and repair -/

/-- C13: for every slot `p < 4` and every prior state, on a store that accepts writes,
`repairProfile(p)` returns true, leaves the in-memory configuration and the active slot as
they were, and leaves slot `p` holding the factory defaults of `resetCurrentConfig`
(values 80,160,255,50,128,200,100,180,255,120,140,160,200,128,1 and address 0xE8E8F0F0E1). -/
theorem repairProfile_writes_defaults (s : ConfigStorage) (p : Nat) (hp : p < 4)
    (hw : s.preferences.failKeys = []) :
    (s.repairProfile p).1 = true ∧
    (s.repairProfile p).2.currentConfig = s.currentConfig ∧
    (s.repairProfile p).2.activeProfile = s.activeProfile ∧
    kvGet (s.repairProfile p).2.preferences.blobs (ConfigStorage.getProfileKey p) =
      some [80, 160, 255, 50, 128, 200, 100, 180, 255, 120, 140, 160, 200, 128, 1] ∧
    kvGet (s.repairProfile p).2.preferences.u64s (ConfigStorage.getAddressKey p) =
      some 0xE8E8F0F0E1 := by
  have hp' : ¬ p ≥ MAX_PROFILES := by simp [MAX_PROFILES]; omega
  have hsave := ConfigStorage.saveConfigToProfile_writable s.resetCurrentConfig p hp
    (by simpa [ConfigStorage.resetCurrentConfig] using hw)
  simp only [ConfigStorage.repairProfile, hp', if_false, hsave]
  simp [ConfigStorage.resetCurrentConfig, kvGet_kvSet_same, ConfigStorage.defaultAddress]

/-- Witness for C13: repairing slot 1 of a store whose slot 1 holds a 14-byte record. -/
theorem repairProfile_writes_defaults_witness :
    (legacyStorage.repairProfile 1).1 = true ∧
    (legacyStorage.repairProfile 1).2.currentConfig = legacyStorage.currentConfig ∧
    (legacyStorage.repairProfile 1).2.activeProfile = legacyStorage.activeProfile ∧
    kvGet (legacyStorage.repairProfile 1).2.preferences.blobs (ConfigStorage.getProfileKey 1) =
      some [80, 160, 255, 50, 128, 200, 100, 180, 255, 120, 140, 160, 200, 128, 1] ∧
    kvGet (legacyStorage.repairProfile 1).2.preferences.u64s (ConfigStorage.getAddressKey 1) =
      some 0xE8E8F0F0E1 :=
  repairProfile_writes_defaults legacyStorage 1 (by decide) (by decide)

/-- The state in which `setActiveProfile` loads the new slot, on a store that accepts writes:
the old slot has been saved and the active-slot pointer written. -/
theorem ConfigStorage.setActiveProfile_unfold (s : ConfigStorage) (new : Nat)
    (hold : s.activeProfile < 4) (hnew : new < 4) (hne : s.activeProfile ≠ new)
    (hw : s.preferences.failKeys = []) :
    s.setActiveProfile new =
      (true,
        if (loadConfigFromProfile
            { preferences :=
                { s.preferences with
                  blobs := kvSet s.preferences.blobs (getProfileKey s.activeProfile)
                    s.currentConfig.values,
                  u64s := kvSet s.preferences.u64s (getAddressKey s.activeProfile)
                    s.currentConfig.address,
                  u8s := kvSet s.preferences.u8s "active" new,
                  putCalls := s.preferences.putCalls + 1 + 1 + 1 },
              activeProfile := new,
              currentConfig := s.currentConfig } new).1 = true
        then
          (loadConfigFromProfile
            { preferences :=
                { s.preferences with
                  blobs := kvSet s.preferences.blobs (getProfileKey s.activeProfile)
                    s.currentConfig.values,
                  u64s := kvSet s.preferences.u64s (getAddressKey s.activeProfile)
                    s.currentConfig.address,
                  u8s := kvSet s.preferences.u8s "active" new,
                  putCalls := s.preferences.putCalls + 1 + 1 + 1 },
              activeProfile := new,
              currentConfig := s.currentConfig } new).2
        else
          (saveCurrentConfig (resetCurrentConfig (loadConfigFromProfile
            { preferences :=
                { s.preferences with
                  blobs := kvSet s.preferences.blobs (getProfileKey s.activeProfile)
                    s.currentConfig.values,
                  u64s := kvSet s.preferences.u64s (getAddressKey s.activeProfile)
                    s.currentConfig.address,
                  u8s := kvSet s.preferences.u8s "active" new,
                  putCalls := s.preferences.putCalls + 1 + 1 + 1 },
              activeProfile := new,
              currentConfig := s.currentConfig } new).2)).2) := by
  have hnew' : ¬ new ≥ MAX_PROFILES := by simp [MAX_PROFILES]; omega
  have hsave := ConfigStorage.saveConfigToProfile_writable s s.activeProfile hold hw
  have hmem : ¬ "active" ∈ s.preferences.failKeys := by rw [hw]; simp
  simp only [setActiveProfile, hnew', if_false, ne_eq, hne, not_false_eq_true, if_true,
    saveCurrentConfig, hsave, Preferences.putUChar, hmem, loadCurrentConfig]
  split_ifs <;> simp_all

/-- A load from a slot whose values record is absent or has a length other than 14 or 15
fails and leaves the store and the active slot as they were. -/
theorem ConfigStorage.loadConfigFromProfile_fail (s : ConfigStorage) (p : Nat) (hp : p < 4)
    (h : ∀ v, kvGet s.preferences.blobs (getProfileKey p) = some v →
      v.length ≠ 15 ∧ v.length ≠ 14) :
    (s.loadConfigFromProfile p).1 = false ∧
    (s.loadConfigFromProfile p).2.preferences = s.preferences ∧
    (s.loadConfigFromProfile p).2.activeProfile = s.activeProfile := by
  have hp' : ¬ p ≥ MAX_PROFILES := by simp [MAX_PROFILES]; omega
  rcases hR : kvGet s.preferences.blobs (getProfileKey p) with _ | v
  · simp [loadConfigFromProfile, hp', Preferences.getBytes, hR, CONFIG_VALUES_COUNT]
  · obtain ⟨h15, h14⟩ := h v hR
    by_cases h0 : v.length = 0
    · simp [loadConfigFromProfile, hp', Preferences.getBytes, hR, CONFIG_VALUES_COUNT, h0]
    · by_cases hgt : v.length > 15
      · simp [loadConfigFromProfile, hp', Preferences.getBytes, hR, CONFIG_VALUES_COUNT, h0,
          hgt]
      · have hngt : ¬ 15 < v.length := by omega
        simp [loadConfigFromProfile, hp', Preferences.getBytes, hR, CONFIG_VALUES_COUNT, h0,
          hngt, h15, h14]

/-- The state in which `setActiveProfile` loads the new slot, described by its fields. -/
theorem ConfigStorage.setActiveProfile_steps (s : ConfigStorage) (new : Nat)
    (hold : s.activeProfile < 4) (hnew : new < 4) (hne : s.activeProfile ≠ new)
    (hw : s.preferences.failKeys = []) :
    ∃ m : ConfigStorage,
      m.activeProfile = new ∧ m.currentConfig = s.currentConfig ∧
      m.preferences.failKeys = [] ∧
      m.preferences.blobs = kvSet s.preferences.blobs (getProfileKey s.activeProfile)
        s.currentConfig.values ∧
      m.preferences.u64s = kvSet s.preferences.u64s (getAddressKey s.activeProfile)
        s.currentConfig.address ∧
      m.preferences.u8s = kvSet s.preferences.u8s "active" new ∧
      s.setActiveProfile new =
        (true, if (m.loadConfigFromProfile new).1 = true then (m.loadConfigFromProfile new).2
          else (saveCurrentConfig (resetCurrentConfig (m.loadConfigFromProfile new).2)).2) :=
  ⟨{ preferences :=
        { s.preferences with
          blobs := kvSet s.preferences.blobs (getProfileKey s.activeProfile)
            s.currentConfig.values,
          u64s := kvSet s.preferences.u64s (getAddressKey s.activeProfile)
            s.currentConfig.address,
          u8s := kvSet s.preferences.u8s "active" new,
          putCalls := s.preferences.putCalls + 1 + 1 + 1 },
      activeProfile := new,
      currentConfig := s.currentConfig },
    rfl, rfl, hw, rfl, rfl, rfl, ConfigStorage.setActiveProfile_unfold s new hold hnew hne hw⟩

/-- C12 (as amended): on a store that accepts writes, for valid slots `old ≠ new` where `old`
is the active slot, `setActiveProfile(new)` returns true; afterwards slot `old` holds the
in-memory configuration as it was before the call and the active slot, in memory and under
`"active"`, is `new`.  The in-memory configuration is: slot `new`'s stored 15-byte record when
it had one; a stored 14-byte record followed by 1 when it had that (which is then stored in
slot `new`); otherwise the factory defaults, which are then stored in slot `new`.  In the
first two cases the address is the one stored under slot `new`'s address key, or
`0xE8E8F0F0E1` when there is none. -/
theorem setActiveProfile_switches_slot (s : ConfigStorage) (new : Nat)
    (hold : s.activeProfile < 4) (hnew : new < 4) (hne : s.activeProfile ≠ new)
    (hlen : s.currentConfig.values.length = 15)
    (hw : s.preferences.failKeys = []) :
    (s.setActiveProfile new).1 = true ∧
    kvGet (s.setActiveProfile new).2.preferences.blobs
      (ConfigStorage.getProfileKey s.activeProfile) = some s.currentConfig.values ∧
    kvGet (s.setActiveProfile new).2.preferences.u64s
      (ConfigStorage.getAddressKey s.activeProfile) = some s.currentConfig.address ∧
    (s.setActiveProfile new).2.activeProfile = new ∧
    kvGet (s.setActiveProfile new).2.preferences.u8s "active" = some new ∧
    (∀ v, kvGet s.preferences.blobs (ConfigStorage.getProfileKey new) = some v →
      v.length = 15 →
      (s.setActiveProfile new).2.currentConfig =
        { values := v,
          address := (kvGet s.preferences.u64s (ConfigStorage.getAddressKey new)).getD
            0xE8E8F0F0E1 }) ∧
    (∀ b, kvGet s.preferences.blobs (ConfigStorage.getProfileKey new) = some b →
      b.length = 14 →
      (s.setActiveProfile new).2.currentConfig =
        { values := b ++ [1],
          address := (kvGet s.preferences.u64s (ConfigStorage.getAddressKey new)).getD
            0xE8E8F0F0E1 } ∧
      kvGet (s.setActiveProfile new).2.preferences.blobs (ConfigStorage.getProfileKey new) =
        some (b ++ [1])) ∧
    ((∀ v, kvGet s.preferences.blobs (ConfigStorage.getProfileKey new) = some v →
        v.length ≠ 15 ∧ v.length ≠ 14) →
      (s.setActiveProfile new).2.currentConfig = ConfigStorage.factoryDefaults ∧
      kvGet (s.setActiveProfile new).2.preferences.blobs (ConfigStorage.getProfileKey new) =
        some ConfigStorage.factoryDefaults.values ∧
      kvGet (s.setActiveProfile new).2.preferences.u64s (ConfigStorage.getAddressKey new) =
        some ConfigStorage.factoryDefaults.address) := by
  obtain ⟨m, hma, hmc, hmw, hmb, hmu, hm8, hstep⟩ :=
    ConfigStorage.setActiveProfile_steps s new hold hnew hne hw
  have hkey : ConfigStorage.getProfileKey new ≠ ConfigStorage.getProfileKey s.activeProfile :=
    ConfigStorage.getProfileKey_ne hnew hold (Ne.symm hne)
  have hakey : ConfigStorage.getAddressKey new ≠ ConfigStorage.getAddressKey s.activeProfile :=
    ConfigStorage.getAddressKey_ne hnew hold (Ne.symm hne)
  have hmR : kvGet m.preferences.blobs (ConfigStorage.getProfileKey new) =
      kvGet s.preferences.blobs (ConfigStorage.getProfileKey new) := by
    rw [hmb, kvGet_kvSet_ne _ _ _ _ hkey]
  have hmA : m.preferences.getULong64 (ConfigStorage.getAddressKey new)
      ConfigStorage.defaultAddress =
      (kvGet s.preferences.u64s (ConfigStorage.getAddressKey new)).getD 0xE8E8F0F0E1 := by
    rw [Preferences.getULong64, hmu, kvGet_kvSet_ne _ _ _ _ hakey]
    rfl
  have hmold : kvGet m.preferences.blobs (ConfigStorage.getProfileKey s.activeProfile) =
      some s.currentConfig.values := by rw [hmb, kvGet_kvSet_same]
  have hmolda : kvGet m.preferences.u64s (ConfigStorage.getAddressKey s.activeProfile) =
      some s.currentConfig.address := by rw [hmu, kvGet_kvSet_same]
  have hmact : kvGet m.preferences.u8s "active" = some new := by rw [hm8, kvGet_kvSet_same]
  have hmlen : m.currentConfig.values.length = 15 := by rw [hmc]; exact hlen
  rw [hstep]
  rcases hR : kvGet s.preferences.blobs (ConfigStorage.getProfileKey new) with _ | v
  · -- no record: defaults are seeded
    have hfail := ConfigStorage.loadConfigFromProfile_fail m new hnew
      (by intro v hv; rw [hmR, hR] at hv; exact absurd hv (by simp))
    obtain ⟨hf1, hf2, hf3⟩ := hfail
    have hsave := ConfigStorage.saveConfigToProfile_writable
      (ConfigStorage.resetCurrentConfig (m.loadConfigFromProfile new).2) new hnew
      (by simp [ConfigStorage.resetCurrentConfig, hf2, hmw])
    simp only [hf1, Bool.false_eq_true, if_false, ConfigStorage.saveCurrentConfig]
    rw [show (ConfigStorage.resetCurrentConfig (m.loadConfigFromProfile new).2).activeProfile
      = new by simp [ConfigStorage.resetCurrentConfig, hf3, hma], hsave]
    simp [ConfigStorage.resetCurrentConfig, hf2, hf3, hma, kvGet_kvSet_same,
      kvGet_kvSet_ne _ _ _ _ (Ne.symm hkey), kvGet_kvSet_ne _ _ _ _ (Ne.symm hakey), hmold,
      hmolda, hmact, ConfigStorage.factoryDefaults, ConfigStorage.defaultAddress]
  · by_cases h15 : v.length = 15
    · -- a 15-byte record is loaded
      have hfull := ConfigStorage.loadConfigFromProfile_full m new hnew v h15 hmlen
        (by rw [hmR, hR])
      rw [hfull]
      simp [hma, hmold, hmolda, hmact, hmA, h15]
    · by_cases h14 : v.length = 14
      · -- a 14-byte record is migrated
        have hleg := ConfigStorage.loadConfigFromProfile_legacy m new v hnew h14 hmlen
          (by rw [hmR, hR]) hmw
        rw [hleg]
        simp [hma, hmold, hmolda, hmact, hmA, h14, kvGet_kvSet_same,
          kvGet_kvSet_ne _ _ _ _ (Ne.symm hkey), kvGet_kvSet_ne _ _ _ _ (Ne.symm hakey)]
      · -- any other record is discarded and defaults are seeded
        have hfail := ConfigStorage.loadConfigFromProfile_fail m new hnew
          (by
            intro w hw'
            rw [hmR, hR] at hw'
            cases hw'
            exact ⟨h15, h14⟩)
        obtain ⟨hf1, hf2, hf3⟩ := hfail
        have hsave := ConfigStorage.saveConfigToProfile_writable
          (ConfigStorage.resetCurrentConfig (m.loadConfigFromProfile new).2) new hnew
          (by simp [ConfigStorage.resetCurrentConfig, hf2, hmw])
        simp only [hf1, Bool.false_eq_true, if_false, ConfigStorage.saveCurrentConfig]
        rw [show (ConfigStorage.resetCurrentConfig (m.loadConfigFromProfile new).2).activeProfile
          = new by simp [ConfigStorage.resetCurrentConfig, hf3, hma], hsave]
        simp [ConfigStorage.resetCurrentConfig, hf2, hf3, hma, kvGet_kvSet_same,
          kvGet_kvSet_ne _ _ _ _ (Ne.symm hkey), kvGet_kvSet_ne _ _ _ _ (Ne.symm hakey), hmold,
          hmolda, hmact, ConfigStorage.factoryDefaults, ConfigStorage.defaultAddress, h15, h14]

/-- Witness for C12 (as amended): switching from slot 0 to slot 2 on an empty store. -/
theorem setActiveProfile_switches_slot_witness :
    (freshStorage.setActiveProfile 2).1 = true ∧
    kvGet (freshStorage.setActiveProfile 2).2.preferences.blobs
      (ConfigStorage.getProfileKey freshStorage.activeProfile)
      = some freshStorage.currentConfig.values ∧
    kvGet (freshStorage.setActiveProfile 2).2.preferences.u64s
      (ConfigStorage.getAddressKey freshStorage.activeProfile)
      = some freshStorage.currentConfig.address ∧
    (freshStorage.setActiveProfile 2).2.activeProfile = 2 ∧
    kvGet (freshStorage.setActiveProfile 2).2.preferences.u8s "active" = some 2 :=
  have h := setActiveProfile_switches_slot freshStorage 2
    (by decide) (by decide) (by decide) (by decide) (by decide)
  ⟨h.1, h.2.1, h.2.2.1, h.2.2.2.1, h.2.2.2.2.1⟩

/-- C12 (counterexample): slot 0 is active and slot 1 holds a 14-byte record, so slot 1 has
no stored 15-byte record; after `setActiveProfile(1)` the in-memory values are that record
followed by 1, not the factory defaults, and slot 1 holds those 15 bytes, not the factory
defaults. -/
theorem setActiveProfile_legacy_slot_not_defaults :
    legacyStorage.activeProfile = 0 ∧
    kvGet legacyStorage.preferences.blobs (ConfigStorage.getProfileKey 1) =
      some [10, 20, 30, 40, 50, 60, 70, 80, 90, 100, 110, 120, 130, 140] ∧
    (legacyStorage.setActiveProfile 1).1 = true ∧
    (legacyStorage.setActiveProfile 1).2.currentConfig.values =
      [10, 20, 30, 40, 50, 60, 70, 80, 90, 100, 110, 120, 130, 140, 1] ∧
    (legacyStorage.setActiveProfile 1).2.currentConfig ≠ ConfigStorage.factoryDefaults ∧
    kvGet (legacyStorage.setActiveProfile 1).2.preferences.blobs (ConfigStorage.getProfileKey 1)
      ≠ some ConfigStorage.factoryDefaults.values := by
  decide

/-! ### Mapping calls with invalid indices -/

/-- The part of C17 that holds: a mapping call with `joystickId >= 4` or `leverId >= 6`
leaves the controller as it was. -/
theorem mapping_calls_ignore_invalid_device (c : NRF24Controller) (id channel : Nat)
    (xAxis : Bool) (minVal maxVal : Int) :
    (4 ≤ id → c.mapJoystickToChannel id xAxis channel minVal maxVal = c) ∧
    (6 ≤ id → c.mapLeverToChannel id channel minVal maxVal = c) := by
  constructor
  · intro h
    have h' : id ≥ MAX_JOYSTICKS := h
    simp [NRF24Controller.mapJoystickToChannel, h']
  · intro h
    have h' : id ≥ MAX_LEVERS := h
    simp [NRF24Controller.mapLeverToChannel, h']

/-- C17 (failing input): on a controller whose only profile is active,
`mapJoystickToChannel(0, true, 40, -100, 100)` and `mapLeverToChannel(0, 40, 0, 100)` install
enabled mappings with output channel 40, so the profile is changed although 40 is not one
of the 32 channels. -/
theorem mapping_calls_install_invalid_channel :
    (((oneJoystickController.createProfile "car").2.mapJoystickToChannel 0 true 40 (-100)
        100)._profiles.getD 0 ControlProfile.zero).joystickMappings.getD 0
        (ControlMapping.zero, ControlMapping.zero)
      = (NRF24Controller.installMapping 40 (-100) 100,
          ((initialProfile.joystickMappings.getD 0
            (ControlMapping.zero, ControlMapping.zero)).2)) ∧
    ((oneJoystickController.createProfile "car").2.mapJoystickToChannel 0 true 40 (-100)
        100)._profiles ≠ (oneJoystickController.createProfile "car").2._profiles ∧
    (((oneJoystickController.createProfile "car").2.mapLeverToChannel 0 40 0
        100)._profiles.getD 0 ControlProfile.zero).leverMappings.getD 0 ControlMapping.zero
      = NRF24Controller.installMapping 40 0 100 ∧
    ((oneJoystickController.createProfile "car").2.mapLeverToChannel 0 40 0 100)._profiles
      ≠ (oneJoystickController.createProfile "car").2._profiles := by
  decide!

/-! ### Active profile invariant -/

theorem NRF24Controller.selectProfile_invariant (c : NRF24Controller) (i : Nat)
    (h : c._profileCount ≤ 4 ∧
      (c._activeProfile < c._profileCount ∨ (c._profileCount = 0 ∧ c._activeProfile = 0))) :
    (c.selectProfile i).2._profileCount ≤ 4 ∧
      ((c.selectProfile i).2._activeProfile < (c.selectProfile i).2._profileCount ∨
        ((c.selectProfile i).2._profileCount = 0 ∧ (c.selectProfile i).2._activeProfile = 0)) := by
  unfold NRF24Controller.selectProfile
  by_cases hi : i ≥ c._profileCount
  · simpa [hi] using h
  · simp only [hi, if_false]
    exact ⟨h.1, Or.inl (by omega)⟩

/-- C18 (as amended): in every controller state reachable from construction through
`createProfile`, `selectProfile`, `deleteProfile` and `factoryReset`, `profileCount <= 4`
and, as long as a profile exists, `activeProfile < profileCount`; while no profile exists
(`profileCount = 0`) `activeProfile` is 0. -/
theorem reachable_active_profile_invariant (c : NRF24Controller)
    (h : NRF24Controller.Reachable c) :
    c._profileCount ≤ 4 ∧
      (c._activeProfile < c._profileCount ∨ (c._profileCount = 0 ∧ c._activeProfile = 0)) := by
  induction h with
  | construct ok => simp [NRF24Controller.new]
  | createProfile c name _ ih =>
    unfold NRF24Controller.createProfile
    by_cases hc : c._profileCount ≥ 4
    · simpa [hc] using ih
    · simp only [hc, if_false]
      have hmod : (c._profileCount + 1) % 256 = c._profileCount + 1 := by omega
      rw [hmod]
      omega
  | selectProfile c i _ ih => exact NRF24Controller.selectProfile_invariant c i ih
  | selectProfileByName c name _ ih =>
    unfold NRF24Controller.selectProfileByName
    split
    · exact NRF24Controller.selectProfile_invariant c _ ih
    · exact ih
  | deleteProfile c i _ ih =>
    unfold NRF24Controller.deleteProfile
    by_cases hi : i ≥ c._profileCount
    · simpa [hi] using ih
    · simp only [hi, if_false]
      split_ifs with h2
      · simp only
        omega
      · simp only
        simp only [not_and_or] at h2
        omega
  | factoryReset c _ _ => simp [NRF24Controller.factoryReset]

/-- Witness for C18 (as amended): the state after the first `createProfile`. -/
theorem reachable_active_profile_invariant_witness :
    ((NRF24Controller.new true).createProfile "car").2._profileCount ≤ 4 ∧
      (((NRF24Controller.new true).createProfile "car").2._activeProfile
          < ((NRF24Controller.new true).createProfile "car").2._profileCount ∨
        (((NRF24Controller.new true).createProfile "car").2._profileCount = 0 ∧
          ((NRF24Controller.new true).createProfile "car").2._activeProfile = 0)) :=
  reachable_active_profile_invariant _
    (NRF24Controller.Reachable.createProfile _ "car" (NRF24Controller.Reachable.construct true))

/-- C18 (counterexample): the state right after construction is reachable and has
`activeProfile = 0 = profileCount`, so `activeProfile < profileCount` fails; the same holds
after the only profile is deleted. -/
theorem reachable_without_active_profile :
    NRF24Controller.Reachable (NRF24Controller.new true) ∧
    ¬ ((NRF24Controller.new true)._activeProfile < (NRF24Controller.new true)._profileCount) ∧
    NRF24Controller.Reachable
      (((NRF24Controller.new true).createProfile "car").2.deleteProfile 0) ∧
    ¬ ((((NRF24Controller.new true).createProfile "car").2.deleteProfile 0)._activeProfile
        < (((NRF24Controller.new true).createProfile "car").2.deleteProfile 0)._profileCount) :=
  ⟨NRF24Controller.Reachable.construct true, by decide,
   NRF24Controller.Reachable.deleteProfile _ 0
    (NRF24Controller.Reachable.createProfile _ "car" (NRF24Controller.Reachable.construct true)),
   by decide⟩

/-! ### Conditional overlays -/

theorem NRF24Controller.updateChannelJoystick_length (profile : ControlProfile)
    (c : NRF24Controller) (i : Nat) :
    (updateChannelJoystick profile c i)._channelValues.length = c._channelValues.length := by
  unfold updateChannelJoystick
  split
  · rfl
  · by_cases he : c._joystickEnabled.getD i false = true
    · by_cases h1 : (profile.joystickMappings.getD i
          (ControlMapping.zero, ControlMapping.zero)).1.enabled = true <;>
      by_cases h2 : (profile.joystickMappings.getD i
          (ControlMapping.zero, ControlMapping.zero)).2.enabled = true <;>
      (simp only [he, h1, h2, if_true, if_false, Bool.false_eq_true]; try simp [writeChannel])
    · simp only [he, if_false, Bool.false_eq_true]

theorem NRF24Controller.updateChannelLever_length (profile : ControlProfile)
    (c : NRF24Controller) (i : Nat) :
    (updateChannelLever profile c i)._channelValues.length = c._channelValues.length := by
  unfold updateChannelLever
  split
  · rfl
  · by_cases he : (c._leverEnabled.getD i false &&
        (profile.leverMappings.getD i ControlMapping.zero).enabled) = true
    · simp only [he, if_true]
      simp [writeChannel]
    · simp only [he, if_false, Bool.false_eq_true]

theorem foldl_preserves_length (f : NRF24Controller → Nat → NRF24Controller)
    (hf : ∀ c i, (f c i)._channelValues.length = c._channelValues.length)
    (is : List Nat) (c : NRF24Controller) :
    (is.foldl f c)._channelValues.length = c._channelValues.length := by
  induction is generalizing c with
  | nil => rfl
  | cons i is ih => rw [List.foldl_cons, ih, hf]

theorem NRF24Controller.updateChannelBase_length (c : NRF24Controller) :
    (updateChannelBase c)._channelValues.length = c._channelValues.length := by
  unfold updateChannelBase
  simp only []
  rw [foldl_preserves_length _ (updateChannelLever_length _),
    foldl_preserves_length _ (updateChannelJoystick_length _)]

theorem NRF24Controller.checkConditionalMapping_congr (c d : NRF24Controller)
    (h : d._levers = c._levers) (m : ConditionalMapping) :
    d._checkConditionalMapping m = c._checkConditionalMapping m := by
  simp [_checkConditionalMapping, h]

/-- One iteration of the conditional loop, seen from one channel. -/
theorem NRF24Controller.updateChannelConditional_step (profile : ControlProfile)
    (c : NRF24Controller) (i ch : Nat) (hch : ch < c._channelValues.length) :
    (updateChannelConditional profile c i)._levers = c._levers ∧
    (updateChannelConditional profile c i)._channelValues.length = c._channelValues.length ∧
    (updateChannelConditional profile c i)._channelValues.getD ch 0 =
      if (c._checkConditionalMapping (profile.conditionalMappings.getD i ConditionalMapping.zero)
          && decide ((profile.conditionalMappings.getD i
            ConditionalMapping.zero).mapping.outputChannel = ch)) = true
      then conditionalRemap (c._channelValues.getD ch 0)
        (profile.conditionalMappings.getD i ConditionalMapping.zero)
      else c._channelValues.getD ch 0 := by
  unfold updateChannelConditional
  generalize profile.conditionalMappings.getD i ConditionalMapping.zero = m
  by_cases hc : c._checkConditionalMapping m = true
  · simp only [hc, if_true, writeChannel, List.length_set, Bool.true_and, decide_eq_true_eq,
      true_and]
    by_cases he : m.mapping.outputChannel = ch
    · simp only [he, if_true]
      simp [List.getD, List.getElem?_set, hch, conditionalRemap]
    · simp only [he, if_false]
      simp [List.getD, List.getElem?_set, he]
  · simp only [hc, if_false, Bool.false_eq_true, Bool.false_and, true_and]

/-- The conditional loop over a list of indices, seen from one channel: the conditionals whose
trigger holds and whose output channel is `ch` are applied in order to the value of `ch`. -/
theorem NRF24Controller.conditional_loop_value (profile : ControlProfile) (ch : Nat)
    (is : List Nat) (c : NRF24Controller) (hch : ch < c._channelValues.length) :
    (is.foldl (updateChannelConditional profile) c)._channelValues.getD ch 0 =
      ((is.map fun i => profile.conditionalMappings.getD i ConditionalMapping.zero).filter
        fun m => c._checkConditionalMapping m && decide (m.mapping.outputChannel = ch)).foldl
        conditionalRemap (c._channelValues.getD ch 0) := by
  induction is generalizing c with
  | nil => rfl
  | cons i is ih =>
    obtain ⟨hl, hlen, hv⟩ := updateChannelConditional_step profile c i ch hch
    rw [List.foldl_cons, ih _ (by rw [hlen]; exact hch), hv]
    have hcongr : ∀ m, (updateChannelConditional profile c i)._checkConditionalMapping m =
        c._checkConditionalMapping m := checkConditionalMapping_congr c _ hl
    simp only [hcongr, List.map_cons, List.filter_cons]
    split_ifs <;> simp

theorem map_getD_range_eq_take {α : Type} (l : List α) (d : α) (n : Nat) (h : n ≤ l.length) :
    ((List.range n).map fun i => l.getD i d) = l.take n := by
  apply List.ext_getElem
  · simp [h]
  · intro i h1 h2
    simp at h1 h2
    simp [List.getD, List.getElem?_eq_getElem (show i < l.length by omega)]

/-- C19: after a mapper cycle, the value of channel `ch` is obtained from the value `b` the
base mappings left in it by applying `v := map(v, -100, 100, min_i, max_i)` (the 32-bit `map`
of the core, its result truncated to 16 bits), in installation order, for exactly the
conditional mappings of the active profile whose output channel is `ch` and whose trigger
lever reports the trigger position; conditionals whose trigger does not hold have no effect.
The active profile is one whose stores all go to existing channels, the states in which the
stores of the cycle are defined. -/
theorem conditional_overlays_compose (c : NRF24Controller) (ch : Nat) (hch : ch < 32)
    (hlen : c._channelValues.length = 32)
    (hcount : (c._profiles.getD c._activeProfile ControlProfile.zero).conditionalCount ≤
      (c._profiles.getD c._activeProfile ControlProfile.zero).conditionalMappings.length)
    (_hvalid : (c._profiles.getD c._activeProfile ControlProfile.zero).channelsInRange) :
    c._updateChannelValues._channelValues.getD ch 0 =
      ((((c._profiles.getD c._activeProfile ControlProfile.zero).conditionalMappings.take
          (c._profiles.getD c._activeProfile ControlProfile.zero).conditionalCount).filter
        fun m => c.updateChannelBase._checkConditionalMapping m &&
          decide (m.mapping.outputChannel = ch)).foldl
        (fun v m => toInt16 (arduinoMap v (-100) 100 m.mapping.minValue m.mapping.maxValue))
        (c.updateChannelBase._channelValues.getD ch 0)) := by
  have hbase : c._updateChannelValues =
      (List.range (c._profiles.getD c._activeProfile ControlProfile.zero).conditionalCount).foldl
        (NRF24Controller.updateChannelConditional
          (c._profiles.getD c._activeProfile ControlProfile.zero)) c.updateChannelBase := rfl
  rw [hbase, NRF24Controller.conditional_loop_value _ ch _ _
    (by rw [NRF24Controller.updateChannelBase_length, hlen]; exact hch),
    map_getD_range_eq_take _ _ _ hcount]
  rfl

/-- Where the product `(v + 100) * (max - min)` fits 32 bits (values and limits being
`int16_t`), the remap of a conditional is the exact quotient
`(v + 100) * (max - min) / 200 + min`, truncated towards zero and stored into an `int16_t`. -/
theorem conditionalRemap_of_fits (v : Int) (m : ConditionalMapping)
    (hv : -32768 ≤ v ∧ v ≤ 32767)
    (hmin : -32768 ≤ m.mapping.minValue ∧ m.mapping.minValue ≤ 32767)
    (hmax : -32768 ≤ m.mapping.maxValue ∧ m.mapping.maxValue ≤ 32767)
    (hprod : fitsLong ((v + 100) * (m.mapping.maxValue - m.mapping.minValue))) :
    NRF24Controller.conditionalRemap v m =
      toInt16 (Int.tdiv ((v + 100) * (m.mapping.maxValue - m.mapping.minValue)) 200
        + m.mapping.minValue) := by
  obtain ⟨hp1, hp2⟩ := hprod
  have hq : fitsLong (Int.tdiv ((v + 100) * (m.mapping.maxValue - m.mapping.minValue)) 200
      + m.mapping.minValue) := by
    generalize (v + 100) * (m.mapping.maxValue - m.mapping.minValue) = P at hp1 hp2
    unfold fitsLong
    by_cases hP : 0 ≤ P
    · rw [Int.tdiv_eq_ediv hP (by decide)]
      omega
    · have h' : P.tdiv 200 = -((-P).tdiv 200) := by rw [Int.neg_tdiv, neg_neg]
      rw [h', Int.tdiv_eq_ediv (by omega) (by decide)]
      omega
  unfold NRF24Controller.conditionalRemap
  rw [arduinoMap_of_fits v (-100) 100 m.mapping.minValue m.mapping.maxValue (by decide)
    (by unfold fitsLong; omega) (by unfold fitsLong; omega)
    (by rw [show v - -100 = v + 100 by omega]; exact ⟨hp1, hp2⟩)
    (by rw [show v - -100 = v + 100 by omega, show (100 : Int) - -100 = 200 by norm_num]
        exact hq),
    if_neg (by decide), show v - -100 = v + 100 by omega,
    show (100 : Int) - -100 = 200 by norm_num]

/-- The remap of a conditional installed with the full range `[-32768, 32767]`, applied to
the channel value 32767: the 32-bit product `32867 * 65535` inside `map` wraps around, and
the value stored into the channel is 9994. -/
theorem conditionalRemap_full_range :
    NRF24Controller.conditionalRemap 32767
      { conditionLeverId := 1, conditionPosition := 0,
        mapping := NRF24Controller.installMapping 5 (-32768) 32767 } = 9994 := by
  decide

set_option maxRecDepth 100000 in
/-- Witness for C19: the controller with the base mapping `[-100, 100]` and one conditional
`[-50, 50]` on channel 1 whose trigger holds. -/
theorem conditional_overlays_compose_witness :
    (conditionalController 0)._updateChannelValues._channelValues.getD 1 0 =
      (((((conditionalController 0)._profiles.getD (conditionalController 0)._activeProfile
          ControlProfile.zero).conditionalMappings.take
          ((conditionalController 0)._profiles.getD (conditionalController 0)._activeProfile
            ControlProfile.zero).conditionalCount).filter
        fun m => (conditionalController 0).updateChannelBase._checkConditionalMapping m &&
          decide (m.mapping.outputChannel = 1)).foldl
        (fun v m => toInt16 (arduinoMap v (-100) 100 m.mapping.minValue m.mapping.maxValue))
        ((conditionalController 0).updateChannelBase._channelValues.getD 1 0)) :=
  conditional_overlays_compose (conditionalController 0) 1 (by decide) (by decide) (by decide)
    (by decide)

/-! ### Lever scenario -/

theorem Lever.readPosition_mid_travel (l : Lever)
    (htype : l._leverType = .ANALOG_LEVER)
    (hmin : l._minPosition = 0) (hmax : l._maxPosition = 4095)
    (hcentre : l._centerPosition = 2048) (hdz : l._deadZone = 50)
    (hinv : l._invertDirection = false) (hs : l._useSmoothing = false)
    (hraw : l.analogA = 2048) :
    l.readPosition = (0, l) := by
  have _ := hmin
  simp [Lever.readPosition, Lever.readRaw, htype, Lever._isInDeadZone, hcentre, hdz, hraw, hs,
    hmax, hinv, arduinoMap, toInt32, constrain]

set_option maxRecDepth 100000 in
/-- C20: with an analog lever at its default calibration (min 0, max 4095, centre 2048, dead
zone 50, no inversion, no smoothing) registered as lever 0 and mapped by
`mapLeverToChannel(0, 3, 0, 100)`, a mapper cycle in which the lever reads mid-travel
(raw 2048) leaves channel 3 equal to 50 and marked updated. -/
theorem lever_mid_travel_channel (l : Lever) (name : String) (radioWriteOk : Bool)
    (htype : l._leverType = .ANALOG_LEVER)
    (hmin : l._minPosition = 0) (hmax : l._maxPosition = 4095)
    (hcentre : l._centerPosition = 2048) (hdz : l._deadZone = 50)
    (hinv : l._invertDirection = false) (hs : l._useSmoothing = false)
    (hraw : l.analogA = 2048) :
    ((((NRF24Controller.new radioWriteOk).addLever l 0).2.createProfile
        name).2.mapLeverToChannel 0 3 0 100)._updateChannelValues._channelValues.getD 3 0 = 50 ∧
    ((((NRF24Controller.new radioWriteOk).addLever l 0).2.createProfile
        name).2.mapLeverToChannel 0 3 0 100)._updateChannelValues._channelUpdated.getD 3 false
      = true := by
  have hread := Lever.readPosition_mid_travel l htype hmin hmax hcentre hdz hinv hs hraw
  have hmap : NRF24Controller._applyMapping (toInt16 0)
      (NRF24Controller.installMapping 3 0 100) = 50 := by decide!
  have hen : (NRF24Controller.installMapping 3 0 100).enabled = true := rfl
  have hout : (NRF24Controller.installMapping 3 0 100).outputChannel = 3 := rfl
  simp [hen, hout, NRF24Controller._updateChannelValues, NRF24Controller.new, NRF24Controller.addLever,
    NRF24Controller.createProfile, NRF24Controller.mapLeverToChannel, MAX_LEVERS, MAX_JOYSTICKS,
    initialProfile, List.range, List.range.loop, NRF24Controller.updateChannelJoystick,
    NRF24Controller.updateChannelLever, hread, hmap, NRF24Controller.writeChannel,
    List.replicate]

/-- Witness for C20: the lever as constructed, reading 2048, in a profile named "plane". -/
theorem lever_mid_travel_channel_witness :
    (leverController 2048)._updateChannelValues._channelValues.getD 3 0 = 50 ∧
    (leverController 2048)._updateChannelValues._channelUpdated.getD 3 false = true :=
  lever_mid_travel_channel (Lever.new .ANALOG_LEVER 255 255 2048 true true true) "plane" true
    rfl rfl rfl rfl rfl rfl rfl rfl

/-! ### Reception, selection and intensity -/

/-- C22 (as amended): when `readData` receives a packet whose recomputed checksum differs from
its stored checksum field, it returns false and leaves the whole controller state, in
particular `packetsReceived` and `packetsLost`, unchanged. -/
theorem readData_mismatch_discards (c : NRF24Controller) (data : List Nat)
    (h : calculateChecksumBytes data ≠ NRF24Controller.storedChecksum data) :
    (c.readData (some data)).1 = false ∧
    (c.readData (some data)).2._stats.packetsReceived = c._stats.packetsReceived ∧
    (c.readData (some data)).2._stats.packetsLost = c._stats.packetsLost ∧
    (c.readData (some data)).2 = c := by
  simp [NRF24Controller.readData, h]

set_option maxRecDepth 100000 in
/-- Witness for C22 (as amended): an image whose first byte was flipped. -/
theorem readData_mismatch_discards_witness :
    ((NRF24Controller.new true).readData (some corruptedImage)).1 = false ∧
    ((NRF24Controller.new true).readData (some corruptedImage)).2._stats.packetsReceived
      = (NRF24Controller.new true)._stats.packetsReceived ∧
    ((NRF24Controller.new true).readData (some corruptedImage)).2._stats.packetsLost
      = (NRF24Controller.new true)._stats.packetsLost ∧
    ((NRF24Controller.new true).readData (some corruptedImage)).2 = NRF24Controller.new true :=
  readData_mismatch_discards (NRF24Controller.new true) corruptedImage (by decide)

set_option maxRecDepth 100000 in
/-- C22 (counterexample): the image `corruptedImage` has recomputed checksum different from
its stored checksum 0; `readData` returns false and `packetsLost` stays 0 instead of
becoming 1. -/
theorem readData_mismatch_counts_no_loss :
    calculateChecksumBytes corruptedImage ≠ NRF24Controller.storedChecksum corruptedImage ∧
    ((NRF24Controller.new true).readData (some corruptedImage)).1 = false ∧
    (NRF24Controller.new true)._stats.packetsLost = 0 ∧
    ((NRF24Controller.new true).readData (some corruptedImage)).2._stats.packetsLost = 0 ∧
    ((NRF24Controller.new true).readData (some corruptedImage)).2._stats.packetsLost
      ≠ (NRF24Controller.new true)._stats.packetsLost + 1 := by
  decide

/-- C24: `selectProfile(index)` with `index >= profileCount`, and `selectProfile(name)` with a
name equal (as a C string) to no existing profile's name, return false and leave the controller (the active
profile and every profile) unchanged; `selectProfile(index)` with `index < profileCount`
returns true and makes `index` the active profile. -/
theorem selectProfile_unknown_rejected (c : NRF24Controller) (index : Nat) (name : String) :
    (index ≥ c._profileCount → c.selectProfile index = (false, c)) ∧
    ((∀ i, i < c._profileCount →
        (c._profiles.getD i ControlProfile.zero).name ≠ cStringBytes name) →
      c.selectProfileByName name = (false, c)) ∧
    (index < c._profileCount →
      (c.selectProfile index).1 = true ∧
      (c.selectProfile index).2._activeProfile = index ∧
      (c.selectProfile index).2._profiles = c._profiles ∧
      (c.selectProfile index).2._profileCount = c._profileCount) := by
  refine ⟨?_, ?_, ?_⟩
  · intro h
    simp [NRF24Controller.selectProfile, h]
  · intro h
    have hnone : (List.range c._profileCount).find?
        (fun i => decide ((c._profiles.getD i ControlProfile.zero).name = cStringBytes name))
          = none := by
      rw [List.find?_eq_none]
      intro i hi
      have := h i (List.mem_range.mp hi)
      simpa using this
    simp only [NRF24Controller.selectProfileByName, hnone]
  · intro h
    have h' : ¬ index ≥ c._profileCount := by omega
    simp [NRF24Controller.selectProfile, h']

/-- Witness for C24: a controller with the single profile "car". -/
theorem selectProfile_unknown_rejected_witness :
    mappedController.selectProfile 1 = (false, mappedController) ∧
    mappedController.selectProfileByName "boat" = (false, mappedController) ∧
    (mappedController.selectProfile 0).1 = true ∧
    (mappedController.selectProfile 0).2._activeProfile = 0 :=
  ⟨(selectProfile_unknown_rejected mappedController 1 "boat").1 (by decide),
   (selectProfile_unknown_rejected mappedController 1 "boat").2.1 (by decide),
   ((selectProfile_unknown_rejected mappedController 0 "boat").2.2 (by decide)).1,
   ((selectProfile_unknown_rejected mappedController 0 "boat").2.2 (by decide)).2.1⟩

/-- C25: for every byte stored at settings index 14, `getIntensityLimit` returns a value in
`[1, 4]`: 1 when the stored byte is 0, 4 when it is greater than 4, the byte itself otherwise;
and after `setIntensity(x)`, `getIntensityLimit` returns `x` clamped to `[1, 4]`. -/
theorem getIntensityLimit_clamped (s : ConfigStorage) (x : Nat)
    (hlen : s.currentConfig.values.length = 15) :
    1 ≤ s.getIntensityLimit ∧ s.getIntensityLimit ≤ 4 ∧
    (s.currentConfig.values.getD 14 0 = 0 → s.getIntensityLimit = 1) ∧
    (s.currentConfig.values.getD 14 0 > 4 → s.getIntensityLimit = 4) ∧
    (1 ≤ s.currentConfig.values.getD 14 0 → s.currentConfig.values.getD 14 0 ≤ 4 →
      s.getIntensityLimit = s.currentConfig.values.getD 14 0) ∧
    (s.setIntensity x).getIntensityLimit = max 1 (min x 4) := by
  have hget : ∀ v : Nat, (s.currentConfig.values.set 14 v).getD 14 0 = v := by
    intro v
    simp [List.getD, List.getElem?_set, hlen]
  have hlimit : ∀ t : ConfigStorage, t.getIntensityLimit =
      if t.currentConfig.values.getD 14 0 = 0 then 1
      else if t.currentConfig.values.getD 14 0 > 4 then 4
      else t.currentConfig.values.getD 14 0 := by
    intro t
    simp only [ConfigStorage.getIntensityLimit, CONFIG_VALUES_COUNT]
    split_ifs <;> omega
  have hset : (s.setIntensity x).currentConfig.values.getD 14 0 =
      if (if x < 1 then 1 else x) > 4 then 4 else (if x < 1 then 1 else x) := by
    simp only [ConfigStorage.setIntensity, CONFIG_VALUES_COUNT]
    rw [if_pos (by decide)]
    exact hget _
  refine ⟨?_, ?_, ?_, ?_, ?_, ?_⟩
  · rw [hlimit]
    split_ifs <;> omega
  · rw [hlimit]
    split_ifs <;> omega
  · intro h
    rw [hlimit, if_pos h]
  · intro h
    rw [hlimit]
    split_ifs <;> omega
  · intro h1 h2
    rw [hlimit]
    split_ifs <;> omega
  · rw [hlimit, hset]
    by_cases h1 : x < 1
    · have h0 : x = 0 := by omega
      subst h0
      decide
    · by_cases h4 : x > 4
      · have hm : max 1 (min x 4) = 4 := by omega
        simp [h1, h4, hm]
      · have hm : max 1 (min x 4) = x := by omega
        have h4' : ¬ 4 < x := h4
        have hx0 : x ≠ 0 := by omega
        simp [h1, h4', hm, hx0]

/-- Witness for C25: the factory defaults, then `setIntensity(9)`. -/
theorem getIntensityLimit_clamped_witness :
    1 ≤ freshStorage.getIntensityLimit ∧ freshStorage.getIntensityLimit ≤ 4 ∧
    (freshStorage.setIntensity 9).getIntensityLimit = max 1 (min 9 4) :=
  have h := getIntensityLimit_clamped freshStorage 9 (by decide)
  ⟨h.1, h.2.1, h.2.2.2.2.2⟩

/-! ### Inversion and button edges -/

/-- With smoothing disabled, `readY` is the dead-zone test followed by the two-sided map of
the raw reading, negated before the clamp when Y inversion is on. -/
theorem Joystick.readY_plain (j : Joystick) (hs : j._useSmoothing = false) :
    j.readY.1 =
      if j._isInDeadZone j.rawX j.rawY then 0
      else constrain
        (if j._invertY then
          -(if j._centerY ≤ j.rawY then arduinoMap j.rawY j._centerY j._maxY 0 255
            else arduinoMap j.rawY j._minY j._centerY (-255) 0)
         else
          (if j._centerY ≤ j.rawY then arduinoMap j.rawY j._centerY j._maxY 0 255
            else arduinoMap j.rawY j._minY j._centerY (-255) 0)) (-255) 255 := by
  unfold Joystick.readY
  by_cases hd : j._isInDeadZone j.rawX j.rawY
  · simp [hd]
  · simp [hd, Joystick._applySmoothing, hs, truncToLong_intCast]

/-- With smoothing disabled, `readX` is the dead-zone test followed by the two-sided map of
the raw reading, negated before the clamp when X inversion is on. -/
theorem Joystick.readX_plain_inv (j : Joystick) (hs : j._useSmoothing = false) :
    j.readX.1 =
      if j._isInDeadZone j.rawX j.rawY then 0
      else constrain
        (if j._invertX then
          -(if j._centerX ≤ j.rawX then arduinoMap j.rawX j._centerX j._maxX 0 255
            else arduinoMap j.rawX j._minX j._centerX (-255) 0)
         else
          (if j._centerX ≤ j.rawX then arduinoMap j.rawX j._centerX j._maxX 0 255
            else arduinoMap j.rawX j._minX j._centerX (-255) 0)) (-255) 255 := by
  unfold Joystick.readX
  by_cases hd : j._isInDeadZone j.rawX j.rawY
  · simp [hd]
  · simp [hd, Joystick._applySmoothing, hs, truncToLong_intCast]

/-- No call of `Joystick::wasPressed` returns true: a press is reported only when the current
state differs from `_lastButtonState`, and in that case the call has just set
`_lastDebounceTime` to the current time. -/
theorem Joystick.wasPressed_never_true (j : Joystick) (now : Nat) :
    (j.wasPressed now).1 = false := by
  have hsub : subU32 now now = 0 := by unfold subU32; omega
  unfold Joystick.wasPressed
  by_cases hp : j._pinButton = 255
  · simp [hp]
  · simp only [hp, if_false]
    by_cases hne : (!j.buttonLevel) ≠ j._lastButtonState
    · simp [hne, hsub]
    · have heq : (!j.buttonLevel) = j._lastButtonState := Decidable.of_not_not hne
      simp only [hne, if_false]
      split_ifs
      · simp [← heq]
      · rfl

/-- No call of `Lever::wasPressed` returns true, for the same reason. -/
theorem Lever.leverWasPressed_never_true (l : Lever) (now : Nat) :
    (l.wasPressed now).1 = false := by
  have hsub : subU32 now now = 0 := by unfold subU32; omega
  unfold Lever.wasPressed
  by_cases hp : l._pinButton = 255
  · simp [hp]
  · simp only [hp, if_false]
    by_cases hne : (!l.buttonLevel) ≠ l._lastButtonState
    · simp [hne, hsub]
    · have heq : (!l.buttonLevel) = l._lastButtonState := Decidable.of_not_not hne
      simp only [hne, if_false]
      split_ifs
      · simp [← heq]
      · rfl

theorem Joystick.pollWasPressed_all_false (times : List Nat) :
    ∀ j : Joystick, ∀ b ∈ j.pollWasPressed times, b = false := by
  induction times with
  | nil => intro j b hb; simp [Joystick.pollWasPressed] at hb
  | cons t ts ih =>
    intro j b hb
    simp only [Joystick.pollWasPressed, List.mem_cons] at hb
    rcases hb with hb | hb
    · rw [hb]; exact Joystick.wasPressed_never_true j t
    · exact ih _ b hb

theorem Lever.leverPollWasPressed_all_false (times : List Nat) :
    ∀ l : Lever, ∀ b ∈ l.pollWasPressed times, b = false := by
  induction times with
  | nil => intro l b hb; simp [Lever.pollWasPressed] at hb
  | cons t ts ih =>
    intro l b hb
    simp only [Lever.pollWasPressed, List.mem_cons] at hb
    rcases hb with hb | hb
    · rw [hb]; exact Lever.leverWasPressed_never_true l t
    · exact ih _ b hb

/-- C27 (failing input and beyond): a joystick and a lever whose button (on pin 5) is held
pressed, starting from the released debounced state, polled every 20 ms from 1000 to 1100:
none of the six polls of `wasPressed` returns true; in fact no poll sequence whatsoever, from
any state, contains a true result. -/
theorem wasPressed_never_reports_press :
    (Joystick.new 5 2048 2048 false).pollWasPressed [1000, 1020, 1040, 1060, 1080, 1100]
      = [false, false, false, false, false, false] ∧
    (Lever.new .ANALOG_LEVER 255 5 2048 true true false).pollWasPressed
        [1000, 1020, 1040, 1060, 1080, 1100]
      = [false, false, false, false, false, false] ∧
    (∀ (j : Joystick) (times : List Nat), (j.pollWasPressed times).count true = 0) ∧
    (∀ (l : Lever) (times : List Nat), (l.pollWasPressed times).count true = 0) := by
  refine ⟨by decide, by decide, ?_, ?_⟩
  · intro j times
    rw [List.count_eq_zero]
    intro h
    exact absurd (Joystick.pollWasPressed_all_false times j true h) (by decide)
  · intro l times
    rw [List.count_eq_zero]
    intro h
    exact absurd (Lever.leverPollWasPressed_all_false times l true h) (by decide)

/-! ### Encoder and switch levers -/

theorem tdiv_mono_of_pos (a b d : Int) (hd : 0 < d) (hab : a ≤ b) : a.tdiv d ≤ b.tdiv d := by
  have hneg : ∀ x : Int, x < 0 → x.tdiv d = -((-x) / d) := by
    intro x hx
    have h' : x.tdiv d = -((-x).tdiv d) := by rw [Int.neg_tdiv, neg_neg]
    rw [h', Int.tdiv_eq_ediv (by omega) (by omega)]
  by_cases ha : 0 ≤ a
  · rw [Int.tdiv_eq_ediv ha (by omega), Int.tdiv_eq_ediv (by omega) (by omega)]
    exact Int.ediv_le_ediv hd hab
  · by_cases hb : 0 ≤ b
    · rw [hneg a (by omega), Int.tdiv_eq_ediv hb (by omega)]
      have h1 : 0 ≤ (-a) / d := Int.ediv_nonneg (by omega) (by omega)
      have h2 : 0 ≤ b / d := Int.ediv_nonneg hb (by omega)
      omega
    · rw [hneg a (by omega), hneg b (by omega)]
      have := Int.ediv_le_ediv hd (show -b ≤ -a by omega)
      omega

/-- The map of `readPosition` for an encoder: for a detent count `s` between the limits
`a < b` whose span keeps the product within 32 bits, `map(s, a, b, -100, 100)` is the exact
quotient and lies within `[-100, 100]`. -/
theorem arduinoMap_percent (s a b : Int) (hab : a < b) (h1 : a ≤ s) (h2 : s ≤ b)
    (hfit : (b - a) * 200 < 2147483648) :
    arduinoMap s a b (-100) 100 = (s - a) * 200 / (b - a) - 100 ∧
    -100 ≤ arduinoMap s a b (-100) 100 ∧ arduinoMap s a b (-100) 100 ≤ 100 := by
  have hrun : b - a ≠ 0 := by omega
  have hp0 : 0 ≤ (s - a) * 200 := by omega
  have h0 : 0 ≤ (s - a) * 200 / (b - a) := Int.ediv_nonneg hp0 (by omega)
  have h200 : (s - a) * 200 / (b - a) ≤ 200 := Int.ediv_le_of_le_mul (by omega) (by nlinarith)
  have ht : Int.tdiv ((s - a) * (100 - -100)) (b - a) = (s - a) * 200 / (b - a) := by
    rw [show (100 : Int) - -100 = 200 by norm_num, Int.tdiv_eq_ediv hp0 (by omega)]
  have heq : arduinoMap s a b (-100) 100 = (s - a) * 200 / (b - a) - 100 := by
    rw [arduinoMap_of_fits s a b (-100) 100 (by unfold fitsLong; omega) (by decide)
      (by unfold fitsLong; omega)
      (by rw [show (100 : Int) - -100 = 200 by norm_num]; unfold fitsLong; omega)
      (by rw [ht]; unfold fitsLong; omega), if_neg hrun, ht]
    omega
  refine ⟨heq, ?_, ?_⟩ <;> rw [heq] <;> omega

/-- The map of `readPosition` for a switch lever: for a position `p` within `[0, n - 1]`
whose range keeps the product within 32 bits, `map(p, 0, n - 1, 0, 100)` lies within
`[0, 100]`. -/
theorem arduinoMap_switch (p n : Int) (hn : 2 ≤ n) (h0 : 0 ≤ p) (h1 : p ≤ n - 1)
    (hfit : (n - 1) * 100 < 2147483648) :
    0 ≤ arduinoMap p 0 (n - 1) 0 100 ∧ arduinoMap p 0 (n - 1) 0 100 ≤ 100 := by
  have hrun : n - 1 - 0 ≠ 0 := by omega
  have hp0 : 0 ≤ p * 100 := by omega
  have hq0 : 0 ≤ p * 100 / (n - 1) := Int.ediv_nonneg hp0 (by omega)
  have hq1 : p * 100 / (n - 1) ≤ 100 := Int.ediv_le_of_le_mul (by omega) (by nlinarith)
  have ht : Int.tdiv ((p - 0) * (100 - 0)) (n - 1 - 0) = p * 100 / (n - 1) := by
    rw [show (100 : Int) - 0 = 100 by norm_num, show p - 0 = p by omega,
      show n - 1 - 0 = n - 1 by omega, Int.tdiv_eq_ediv hp0 (by omega)]
  rw [arduinoMap_of_fits p 0 (n - 1) 0 100 (by unfold fitsLong; omega) (by decide)
    (by unfold fitsLong; omega)
    (by rw [show (100 : Int) - 0 = 100 by norm_num]; unfold fitsLong; omega)
    (by rw [ht]; unfold fitsLong; omega), if_neg hrun, ht]
  omega

/-- C28 (counterexample): the encoder lever after `setEncoderLimits(-20000000, 20000000)`
and `setStepsPerDetent(1)` with its step counter at `maxSteps`: `readPosition` returns -114,
neither 100 nor a value within `[-100, 100]`, because the 32-bit product `40000000 * 200`
inside `map` wraps around. -/
theorem encoder_readPosition_wraps :
    (((((Lever.new .ROTARY_ENCODER 3 255 0 true true true).setEncoderLimits (-20000000)
      20000000).setStepsPerDetent 1).setEncoderPosition 20000000).readPosition).1 = -114 ∧
    ¬ (-100 ≤ (((((Lever.new .ROTARY_ENCODER 3 255 0 true true true).setEncoderLimits
      (-20000000) 20000000).setStepsPerDetent 1).setEncoderPosition
        20000000).readPosition).1) := by
  constructor <;> decide

/-- C28 (as amended): for a rotary-encoder lever with `stepsPerDetent >= 1`, limits whose
integer quotients satisfy `minSteps/stepsPerDetent < maxSteps/stepsPerDetent` and keep the
product inside `map` within 32 bits
(`(maxSteps/stepsPerDetent - minSteps/stepsPerDetent) * 200 < 2^31`), and step counters
`p <= q` within `[minSteps, maxSteps]`: `readPosition` returns
`map(p/stepsPerDetent, minSteps/stepsPerDetent, maxSteps/stepsPerDetent, -100, 100)`, which
lies within `[-100, 100]`, is non-decreasing in the step counter, and equals -100 at
`minSteps` and 100 at `maxSteps`; and every phase-A transition of `_updateEncoder` leaves the
step counter within `[minSteps, maxSteps]`. -/
theorem encoder_readPosition (l : Lever) (p q : Int)
    (htype : l._leverType = .ROTARY_ENCODER)
    (hspd : 1 ≤ l._stepsPerDetent)
    (hlim : Int.tdiv l._minSteps l._stepsPerDetent < Int.tdiv l._maxSteps l._stepsPerDetent)
    (hfit : (Int.tdiv l._maxSteps l._stepsPerDetent - Int.tdiv l._minSteps l._stepsPerDetent)
      * 200 < 2147483648)
    (hp : l._minSteps ≤ p) (hpq : p ≤ q) (hq : q ≤ l._maxSteps) :
    ({ l with _encoderPosition := p }.readPosition).1 =
      arduinoMap (Int.tdiv p l._stepsPerDetent) (Int.tdiv l._minSteps l._stepsPerDetent)
        (Int.tdiv l._maxSteps l._stepsPerDetent) (-100) 100 ∧
    -100 ≤ ({ l with _encoderPosition := p }.readPosition).1 ∧
    ({ l with _encoderPosition := p }.readPosition).1 ≤ 100 ∧
    ({ l with _encoderPosition := p }.readPosition).1 ≤
      ({ l with _encoderPosition := q }.readPosition).1 ∧
    ({ l with _encoderPosition := l._minSteps }.readPosition).1 = -100 ∧
    ({ l with _encoderPosition := l._maxSteps }.readPosition).1 = 100 ∧
    (l.levelA ≠ l._lastEncoderA →
      l._minSteps ≤ l._updateEncoder._encoderPosition ∧
      l._updateEncoder._encoderPosition ≤ l._maxSteps) := by
  have hd : 0 < l._stepsPerDetent := by omega
  have hread : ∀ x : Int, ({ l with _encoderPosition := x }.readPosition).1 =
      arduinoMap (Int.tdiv x l._stepsPerDetent) (Int.tdiv l._minSteps l._stepsPerDetent)
        (Int.tdiv l._maxSteps l._stepsPerDetent) (-100) 100 := by
    intro x
    simp [Lever.readPosition, htype, Lever.readRaw]
  have hrange : ∀ x : Int, l._minSteps ≤ x → x ≤ l._maxSteps →
      Int.tdiv l._minSteps l._stepsPerDetent ≤ Int.tdiv x l._stepsPerDetent ∧
      Int.tdiv x l._stepsPerDetent ≤ Int.tdiv l._maxSteps l._stepsPerDetent := by
    intro x h1 h2
    exact ⟨tdiv_mono_of_pos _ _ _ hd h1, tdiv_mono_of_pos _ _ _ hd h2⟩
  have hpr := hrange p hp (by omega)
  have hqr := hrange q (by omega) hq
  obtain ⟨hpe, hpl, hpu⟩ := arduinoMap_percent _ _ _ hlim hpr.1 hpr.2 hfit
  obtain ⟨hqe, _, _⟩ := arduinoMap_percent _ _ _ hlim hqr.1 hqr.2 hfit
  obtain ⟨hmine, _, _⟩ := arduinoMap_percent (Int.tdiv l._minSteps l._stepsPerDetent) _ _ hlim
    (le_refl _) (by omega) hfit
  obtain ⟨hmaxe, _, _⟩ := arduinoMap_percent (Int.tdiv l._maxSteps l._stepsPerDetent) _ _ hlim
    (by omega) (le_refl _) hfit
  refine ⟨hread p, ?_, ?_, ?_, ?_, ?_, ?_⟩
  · rw [hread]; exact hpl
  · rw [hread]; exact hpu
  · rw [hread, hread, hpe, hqe]
    have hmono := tdiv_mono_of_pos p q _ hd hpq
    have := Int.ediv_le_ediv (a := (Int.tdiv p l._stepsPerDetent
        - Int.tdiv l._minSteps l._stepsPerDetent) * 200)
      (b := (Int.tdiv q l._stepsPerDetent - Int.tdiv l._minSteps l._stepsPerDetent) * 200)
      (c := Int.tdiv l._maxSteps l._stepsPerDetent - Int.tdiv l._minSteps l._stepsPerDetent)
      (by omega) (by omega)
    omega
  · rw [hread, hmine]
    simp
  · rw [hread, hmaxe]
    have hne : Int.tdiv l._maxSteps l._stepsPerDetent - Int.tdiv l._minSteps l._stepsPerDetent
        ≠ 0 := by omega
    rw [Int.mul_comm, Int.mul_ediv_cancel _ hne]
    norm_num
  · intro hA
    have hminmax : l._minSteps ≤ l._maxSteps := by omega
    simp only [Lever._updateEncoder, hA, ne_eq, not_false_eq_true, if_true]
    exact constrain_bounds _ _ _ hminmax

/-- Witness for C28 (as amended): the default encoder (4 steps per detent, limits -100 and 100) at the
counters 10 and 50. -/
theorem encoder_readPosition_witness :
    -100 ≤ ({ Lever.new .ROTARY_ENCODER 3 255 0 true true true with
        _encoderPosition := 10 }.readPosition).1 ∧
    ({ Lever.new .ROTARY_ENCODER 3 255 0 true true true with
        _encoderPosition := 10 }.readPosition).1 ≤
      ({ Lever.new .ROTARY_ENCODER 3 255 0 true true true with
        _encoderPosition := 50 }.readPosition).1 :=
  have h := encoder_readPosition (Lever.new .ROTARY_ENCODER 3 255 0 true true true) 10 50
    rfl (by decide) (by decide) (by decide) (by decide) (by decide) (by decide)
  ⟨h.2.1, h.2.2.2.1⟩

/-- C29 (counterexample): a switch lever after `setDigitalPositions(30000000)` at position
25000000, which lies within `[0, positions - 1]`: `readPosition` returns -59, below 0,
because the 32-bit product `25000000 * 100` inside `map` wraps around. -/
theorem digital_lever_position_wraps :
    (2 : Int) ≤ ((Lever.new .DIGITAL_LEVER 3 255 0 false false true).setDigitalPositions
      30000000)._digitalPositions ∧
    (25000000 : Int) ≤ ((Lever.new .DIGITAL_LEVER 3 255 0 false false true).setDigitalPositions
      30000000)._digitalPositions - 1 ∧
    ({ (Lever.new .DIGITAL_LEVER 3 255 0 false false true).setDigitalPositions 30000000 with
        _currentDigitalPos := 25000000 }.readPosition).1 = -59 ∧
    ¬ (0 ≤ ({ (Lever.new .DIGITAL_LEVER 3 255 0 false false true).setDigitalPositions
        30000000 with _currentDigitalPos := 25000000 }.readPosition).1) := by
  refine ⟨by decide, by decide, ?_, ?_⟩ <;> decide

/-- C29 (as amended): for a digital lever with `positions >= 2` that keeps the product inside
`map` within 32 bits (`(positions - 1) * 100 < 2^31`, that is `positions <= 21474837`) whose
position `p` satisfies `0 <= p <= positions - 1`, each of `update()`, `moveToNextPosition()` and
`moveToPreviousPosition()` changes `p` by at most one and keeps it within
`[0, positions - 1]`, and `readPosition() = map(p, 0, positions - 1, 0, 100)` lies within
`[0, 100]`. -/
theorem digital_lever_position_bounded (l : Lever) (st : LeverStatics) (now : Nat)
    (htype : l._leverType = .DIGITAL_LEVER) (hpos : 2 ≤ l._digitalPositions)
    (hfit : (l._digitalPositions - 1) * 100 < 2147483648)
    (h0 : 0 ≤ l._currentDigitalPos) (h1 : l._currentDigitalPos ≤ l._digitalPositions - 1) :
    (|(l.update st now).1._currentDigitalPos - l._currentDigitalPos| ≤ 1 ∧
      0 ≤ (l.update st now).1._currentDigitalPos ∧
      (l.update st now).1._currentDigitalPos ≤ l._digitalPositions - 1) ∧
    (|l.moveToNextPosition.2._currentDigitalPos - l._currentDigitalPos| ≤ 1 ∧
      0 ≤ l.moveToNextPosition.2._currentDigitalPos ∧
      l.moveToNextPosition.2._currentDigitalPos ≤ l._digitalPositions - 1) ∧
    (|l.moveToPreviousPosition.2._currentDigitalPos - l._currentDigitalPos| ≤ 1 ∧
      0 ≤ l.moveToPreviousPosition.2._currentDigitalPos ∧
      l.moveToPreviousPosition.2._currentDigitalPos ≤ l._digitalPositions - 1) ∧
    l.readPosition.1 = arduinoMap l._currentDigitalPos 0 (l._digitalPositions - 1) 0 100 ∧
    0 ≤ l.readPosition.1 ∧ l.readPosition.1 ≤ 100 := by
  refine ⟨?_, ?_, ?_, ?_, ?_, ?_⟩
  · have hvel : ∀ (m : Lever), (m._calculateVelocity now).2._currentDigitalPos
        = m._currentDigitalPos := by
      intro m
      simp only [Lever._calculateVelocity]
      split_ifs <;> rfl
    simp only [Lever.update, htype, hvel, Lever._updateDigitalPosition]
    rw [abs_le]
    split_ifs <;> (try simp only [min_def, max_def]) <;> (try split_ifs) <;> omega
  · simp only [Lever.moveToNextPosition]
    rw [abs_le]
    split_ifs <;> simp <;> omega
  · simp only [Lever.moveToPreviousPosition]
    rw [abs_le]
    split_ifs <;> simp <;> omega
  · simp [Lever.readPosition, htype, Lever.readRaw]
  · have hread : l.readPosition.1
        = arduinoMap l._currentDigitalPos 0 (l._digitalPositions - 1) 0 100 := by
      simp [Lever.readPosition, htype, Lever.readRaw]
    rw [hread]
    exact (arduinoMap_switch _ _ hpos h0 h1 hfit).1
  · have hread : l.readPosition.1
        = arduinoMap l._currentDigitalPos 0 (l._digitalPositions - 1) 0 100 := by
      simp [Lever.readPosition, htype, Lever.readRaw]
    rw [hread]
    exact (arduinoMap_switch _ _ hpos h0 h1 hfit).2

/-- Witness for C29 (as amended): the default five-position switch at position 4 with both inputs
rising. -/
theorem digital_lever_position_bounded_witness :
    |(({ Lever.new .DIGITAL_LEVER 3 255 0 false false true with
          _currentDigitalPos := 4 }).update ⟨false, false⟩ 10).1._currentDigitalPos - 4| ≤ 1 ∧
    0 ≤ ({ Lever.new .DIGITAL_LEVER 3 255 0 false false true with
          _currentDigitalPos := 4 }).readPosition.1 ∧
    ({ Lever.new .DIGITAL_LEVER 3 255 0 false false true with
          _currentDigitalPos := 4 }).readPosition.1 ≤ 100 :=
  have h := digital_lever_position_bounded
    { Lever.new .DIGITAL_LEVER 3 255 0 false false true with _currentDigitalPos := 4 }
    ⟨false, false⟩ 10 rfl (by decide) (by decide) (by decide) (by decide)
  ⟨h.1.1, h.2.2.2.2.1, h.2.2.2.2.2⟩

/-! ### Change detection and the execution gate -/

theorem mem_take_set_succ {α : Type} (l : List α) (n : Nat) (a r : α)
    (h : r ∈ (l.set n a).take (n + 1)) : r ∈ l.take n ∨ r = a := by
  induction l generalizing n with
  | nil => simp at h
  | cons x xs ih =>
    cases n with
    | zero =>
      simp at h
      exact Or.inr h
    | succ m =>
      simp only [List.set_cons_succ, List.take_succ_cons, List.mem_cons] at h ⊢
      rcases h with h | h
      · exact Or.inl (Or.inl h)
      · rcases ih m h with h | h
        · exact Or.inl (Or.inr h)
        · exact Or.inr h

theorem addToPacket_noRecordWithId (pkt : DataPacket) (now k id : Nat) (type : ControlType)
    (x y : Int) (flags : Nat) (hid : id ≠ k) (h : noRecordWithId pkt id) :
    noRecordWithId (addToPacket pkt now k type x y flags) id := by
  unfold addToPacket
  split_ifs with hfull
  · exact h
  · intro r hr
    rcases mem_take_set_succ _ _ _ _ hr with hr | hr
    · exact h r hr
    · rw [hr]
      exact fun heq => hid heq.symm

theorem noRecordWithId_clearPacket (id : Nat) : noRecordWithId clearPacket id := by
  intro r hr
  simp [clearPacket] at hr

/-- The joystick loop body of `_updateControlData` for a registered, enabled joystick, in
terms of `joystickReport`. -/
theorem NRF24Controller.updateControlJoystick_eq (now : Nat) (c : NRF24Controller) (k : Nat)
    (j : Joystick) (hj : c._joysticks.getD k none = some j)
    (hen : c._joystickEnabled.getD k false = true) :
    NRF24Controller.updateControlJoystick now c k =
      if (!c._sendOnlyChanges ||
          decide (|(NRF24Controller.joystickReport j).1
            - (c._lastJoystickData.getD k ControlData.zero).valueX| ≥ c._joystickThreshold) ||
          decide (|(NRF24Controller.joystickReport j).2.1
            - (c._lastJoystickData.getD k ControlData.zero).valueY| ≥ c._joystickThreshold) ||
          decide ((NRF24Controller.joystickReport j).2.2.1
            ≠ (c._lastJoystickData.getD k ControlData.zero).flags)) = true then
        { c with
          _joysticks := c._joysticks.set k (some (NRF24Controller.joystickReport j).2.2.2),
          _currentPacket := addToPacket c._currentPacket now k .CONTROL_JOYSTICK
            (NRF24Controller.joystickReport j).1 (NRF24Controller.joystickReport j).2.1
            (NRF24Controller.joystickReport j).2.2.1,
          _lastJoystickData := c._lastJoystickData.set k
            { c._lastJoystickData.getD k ControlData.zero with
              valueX := (NRF24Controller.joystickReport j).1,
              valueY := (NRF24Controller.joystickReport j).2.1,
              flags := (NRF24Controller.joystickReport j).2.2.1 } }
      else
        { c with
          _joysticks := c._joysticks.set k (some (NRF24Controller.joystickReport j).2.2.2) } := by
  unfold NRF24Controller.updateControlJoystick
  rw [hj]
  simp only [hen, if_true]
  rfl

/-- The joystick loop body of `_updateControlData` touches only the joystick table, the
current packet and the last-sent joystick records, and for index `k` only entry `k` and
records with id `k`. -/
theorem NRF24Controller.updateControlJoystick_shape (now : Nat) (c : NRF24Controller) (k : Nat) :
    ∃ js pkt last,
      NRF24Controller.updateControlJoystick now c k =
        { c with _joysticks := js, _currentPacket := pkt, _lastJoystickData := last } ∧
      (∀ i, i ≠ k → js.getD i none = c._joysticks.getD i none) ∧
      (∀ i, i ≠ k → last.getD i ControlData.zero = c._lastJoystickData.getD i ControlData.zero) ∧
      (∀ id, id ≠ k → noRecordWithId c._currentPacket id → noRecordWithId pkt id) := by
  have hsame : ∃ js pkt last, c =
        { c with _joysticks := js, _currentPacket := pkt, _lastJoystickData := last } ∧
      (∀ i, i ≠ k → js.getD i none = c._joysticks.getD i none) ∧
      (∀ i, i ≠ k → last.getD i ControlData.zero = c._lastJoystickData.getD i ControlData.zero) ∧
      (∀ id, id ≠ k → noRecordWithId c._currentPacket id → noRecordWithId pkt id) :=
    ⟨c._joysticks, c._currentPacket, c._lastJoystickData, rfl, fun _ _ => rfl,
      fun _ _ => rfl, fun _ _ h => h⟩
  cases hj : c._joysticks.getD k none with
  | none =>
    have h0 : NRF24Controller.updateControlJoystick now c k = c := by
      unfold NRF24Controller.updateControlJoystick
      rw [hj]
    rw [h0]
    exact hsame
  | some j =>
    by_cases hen : c._joystickEnabled.getD k false = true
    · rw [NRF24Controller.updateControlJoystick_eq now c k j hj hen]
      split_ifs with hch
      · refine ⟨_, _, _, rfl, ?_, ?_, ?_⟩
        · intro i hi
          simp [List.getD_eq_getElem?_getD, List.getElem?_set_ne (Ne.symm hi)]
        · intro i hi
          simp [List.getD_eq_getElem?_getD, List.getElem?_set_ne (Ne.symm hi)]
        · intro id hid h
          exact addToPacket_noRecordWithId _ _ _ _ _ _ _ _ hid h
      · refine ⟨_, c._currentPacket, c._lastJoystickData, rfl, ?_, fun _ _ => rfl,
          fun _ _ h => h⟩
        intro i hi
        simp [List.getD_eq_getElem?_getD, List.getElem?_set_ne (Ne.symm hi)]
    · have h0 : NRF24Controller.updateControlJoystick now c k = c := by
        unfold NRF24Controller.updateControlJoystick
        rw [hj]
        simp only [hen]
        rfl
      rw [h0]
      exact hsame

/-- The lever loop body of `_updateControlData` for a registered, enabled lever, in terms of
`leverReport`. -/
theorem NRF24Controller.updateControlLever_eq (now : Nat) (c : NRF24Controller) (k : Nat)
    (l : Lever) (hl : c._levers.getD k none = some l)
    (hen : c._leverEnabled.getD k false = true) :
    NRF24Controller.updateControlLever now c k =
      if (!c._sendOnlyChanges ||
          decide (|(NRF24Controller.leverReport l now).1
            - (c._lastLeverData.getD k ControlData.zero).valueX| ≥ c._leverThreshold) ||
          decide ((NRF24Controller.leverReport l now).2.2.1
            ≠ (c._lastLeverData.getD k ControlData.zero).flags)) = true then
        { c with
          _levers := c._levers.set k (some (NRF24Controller.leverReport l now).2.2.2),
          _currentPacket := addToPacket c._currentPacket now (k + 100)
            (c._lastLeverData.getD k ControlData.zero).type
            (NRF24Controller.leverReport l now).1 (NRF24Controller.leverReport l now).2.1
            (NRF24Controller.leverReport l now).2.2.1,
          _lastLeverData := c._lastLeverData.set k
            { c._lastLeverData.getD k ControlData.zero with
              valueX := (NRF24Controller.leverReport l now).1,
              valueY := (NRF24Controller.leverReport l now).2.1,
              flags := (NRF24Controller.leverReport l now).2.2.1 } }
      else
        { c with
          _levers := c._levers.set k (some (NRF24Controller.leverReport l now).2.2.2) } := by
  unfold NRF24Controller.updateControlLever
  rw [hl]
  simp only [hen, if_true]
  rfl

/-- The lever loop body of `_updateControlData` touches only the lever table, the current
packet and the last-sent lever records, and for index `k` only entry `k` and records with
id `k + 100`. -/
theorem NRF24Controller.updateControlLever_shape (now : Nat) (c : NRF24Controller) (k : Nat) :
    ∃ ls pkt last,
      NRF24Controller.updateControlLever now c k =
        { c with _levers := ls, _currentPacket := pkt, _lastLeverData := last } ∧
      (∀ i, i ≠ k → ls.getD i none = c._levers.getD i none) ∧
      (∀ i, i ≠ k → last.getD i ControlData.zero = c._lastLeverData.getD i ControlData.zero) ∧
      (∀ id, id ≠ k + 100 → noRecordWithId c._currentPacket id → noRecordWithId pkt id) := by
  have hsame : ∃ ls pkt last, c =
        { c with _levers := ls, _currentPacket := pkt, _lastLeverData := last } ∧
      (∀ i, i ≠ k → ls.getD i none = c._levers.getD i none) ∧
      (∀ i, i ≠ k → last.getD i ControlData.zero = c._lastLeverData.getD i ControlData.zero) ∧
      (∀ id, id ≠ k + 100 → noRecordWithId c._currentPacket id → noRecordWithId pkt id) :=
    ⟨c._levers, c._currentPacket, c._lastLeverData, rfl, fun _ _ => rfl,
      fun _ _ => rfl, fun _ _ h => h⟩
  cases hl : c._levers.getD k none with
  | none =>
    have h0 : NRF24Controller.updateControlLever now c k = c := by
      unfold NRF24Controller.updateControlLever
      rw [hl]
    rw [h0]
    exact hsame
  | some l =>
    by_cases hen : c._leverEnabled.getD k false = true
    · rw [NRF24Controller.updateControlLever_eq now c k l hl hen]
      split_ifs with hch
      · refine ⟨_, _, _, rfl, ?_, ?_, ?_⟩
        · intro i hi
          simp [List.getD_eq_getElem?_getD, List.getElem?_set_ne (Ne.symm hi)]
        · intro i hi
          simp [List.getD_eq_getElem?_getD, List.getElem?_set_ne (Ne.symm hi)]
        · intro id hid h
          exact addToPacket_noRecordWithId _ _ _ _ _ _ _ _ hid h
      · refine ⟨_, c._currentPacket, c._lastLeverData, rfl, ?_, fun _ _ => rfl,
          fun _ _ h => h⟩
        intro i hi
        simp [List.getD_eq_getElem?_getD, List.getElem?_set_ne (Ne.symm hi)]
    · have h0 : NRF24Controller.updateControlLever now c k = c := by
        unfold NRF24Controller.updateControlLever
        rw [hl]
        simp only [hen]
        rfl
      rw [h0]
      exact hsame

theorem NRF24Controller.updateControlJoystick_fold_shape (now : Nat) (ks : List Nat)
    (c : NRF24Controller) :
    ∃ js pkt last,
      ks.foldl (NRF24Controller.updateControlJoystick now) c =
        { c with _joysticks := js, _currentPacket := pkt, _lastJoystickData := last } ∧
      (∀ i, i ∉ ks → js.getD i none = c._joysticks.getD i none) ∧
      (∀ i, i ∉ ks → last.getD i ControlData.zero = c._lastJoystickData.getD i ControlData.zero) ∧
      (∀ id, id ∉ ks → noRecordWithId c._currentPacket id → noRecordWithId pkt id) := by
  induction ks generalizing c with
  | nil =>
    exact ⟨c._joysticks, c._currentPacket, c._lastJoystickData, rfl, fun _ _ => rfl,
      fun _ _ => rfl, fun _ _ h => h⟩
  | cons k ks ih =>
    obtain ⟨js1, pkt1, last1, h1, hj1, hl1, hp1⟩ :=
      NRF24Controller.updateControlJoystick_shape now c k
    obtain ⟨js2, pkt2, last2, h2, hj2, hl2, hp2⟩ :=
      ih { c with _joysticks := js1, _currentPacket := pkt1, _lastJoystickData := last1 }
    refine ⟨js2, pkt2, last2, ?_, ?_, ?_, ?_⟩
    · rw [List.foldl_cons, h1, h2]
    · intro i hi
      rw [List.mem_cons, not_or] at hi
      rw [hj2 i hi.2]
      exact hj1 i hi.1
    · intro i hi
      rw [List.mem_cons, not_or] at hi
      rw [hl2 i hi.2]
      exact hl1 i hi.1
    · intro id hid h
      rw [List.mem_cons, not_or] at hid
      exact hp2 id hid.2 (hp1 id hid.1 h)

theorem NRF24Controller.updateControlLever_fold_shape (now : Nat) (ks : List Nat)
    (c : NRF24Controller) :
    ∃ ls pkt last,
      ks.foldl (NRF24Controller.updateControlLever now) c =
        { c with _levers := ls, _currentPacket := pkt, _lastLeverData := last } ∧
      (∀ i, i ∉ ks → ls.getD i none = c._levers.getD i none) ∧
      (∀ i, i ∉ ks → last.getD i ControlData.zero = c._lastLeverData.getD i ControlData.zero) ∧
      (∀ id, (∀ k ∈ ks, id ≠ k + 100) →
        noRecordWithId c._currentPacket id → noRecordWithId pkt id) := by
  induction ks generalizing c with
  | nil =>
    exact ⟨c._levers, c._currentPacket, c._lastLeverData, rfl, fun _ _ => rfl,
      fun _ _ => rfl, fun _ _ h => h⟩
  | cons k ks ih =>
    obtain ⟨ls1, pkt1, last1, h1, hj1, hl1, hp1⟩ :=
      NRF24Controller.updateControlLever_shape now c k
    obtain ⟨ls2, pkt2, last2, h2, hj2, hl2, hp2⟩ :=
      ih { c with _levers := ls1, _currentPacket := pkt1, _lastLeverData := last1 }
    refine ⟨ls2, pkt2, last2, ?_, ?_, ?_, ?_⟩
    · rw [List.foldl_cons, h1, h2]
    · intro i hi
      rw [List.mem_cons, not_or] at hi
      rw [hj2 i hi.2]
      exact hj1 i hi.1
    · intro i hi
      rw [List.mem_cons, not_or] at hi
      rw [hl2 i hi.2]
      exact hl1 i hi.1
    · intro id hid h
      exact hp2 id (fun k hk => hid k (List.mem_cons_of_mem _ hk))
        (hp1 id (hid k (List.mem_cons_self _ _)) h)

/-- A joystick in the middle of the joystick loop of `_updateControlData` whose report lies
within the threshold of its last-sent record and carries the same flags gets no record. -/
theorem NRF24Controller.updateControlJoystick_fold_skips (now : Nat) (c : NRF24Controller)
    (ks1 ks2 : List Nat) (i : Nat) (j : Joystick) (h1 : i ∉ ks1) (h2 : i ∉ ks2)
    (hsoc : c._sendOnlyChanges = true)
    (hj : c._joysticks.getD i none = some j)
    (hen : c._joystickEnabled.getD i false = true)
    (hx : |(NRF24Controller.joystickReport j).1
      - (c._lastJoystickData.getD i ControlData.zero).valueX| < c._joystickThreshold)
    (hy : |(NRF24Controller.joystickReport j).2.1
      - (c._lastJoystickData.getD i ControlData.zero).valueY| < c._joystickThreshold)
    (hf : (NRF24Controller.joystickReport j).2.2.1
      = (c._lastJoystickData.getD i ControlData.zero).flags)
    (hp : noRecordWithId c._currentPacket i) :
    ∃ js pkt last,
      (ks1 ++ i :: ks2).foldl (NRF24Controller.updateControlJoystick now) c =
        { c with _joysticks := js, _currentPacket := pkt, _lastJoystickData := last } ∧
      noRecordWithId pkt i ∧
      last.getD i ControlData.zero = c._lastJoystickData.getD i ControlData.zero := by
  obtain ⟨js1, pkt1, last1, e1, hj1, hl1, hp1⟩ :=
    NRF24Controller.updateControlJoystick_fold_shape now ks1 c
  have hstep : NRF24Controller.updateControlJoystick now
      { c with _joysticks := js1, _currentPacket := pkt1, _lastJoystickData := last1 } i =
      { c with _joysticks := js1.set i (some (NRF24Controller.joystickReport j).2.2.2),
               _currentPacket := pkt1, _lastJoystickData := last1 } := by
    rw [NRF24Controller.updateControlJoystick_eq now
      { c with _joysticks := js1, _currentPacket := pkt1, _lastJoystickData := last1 } i j
      (by rw [← hj]; exact hj1 i h1) hen]
    have hl : last1.getD i ControlData.zero = c._lastJoystickData.getD i ControlData.zero :=
      hl1 i h1
    rw [if_neg]
    intro hc
    simp only [hl, hsoc, hf, Bool.not_true, Bool.false_or, Bool.or_eq_true, decide_eq_true_eq,
      ne_eq, not_true_eq_false, decide_False, Bool.false_eq_true, or_false, ge_iff_le] at hc
    rcases hc with hc | hc
    · exact absurd hc (not_le.mpr hx)
    · exact absurd hc (not_le.mpr hy)
  obtain ⟨js2, pkt2, last2, e2, _, hl2, hp2⟩ :=
    NRF24Controller.updateControlJoystick_fold_shape now ks2
      { c with _joysticks := js1.set i (some (NRF24Controller.joystickReport j).2.2.2),
               _currentPacket := pkt1, _lastJoystickData := last1 }
  refine ⟨js2, pkt2, last2, ?_, ?_, ?_⟩
  · rw [List.foldl_append, List.foldl_cons, e1, hstep, e2]
  · exact hp2 i h2 (hp1 i h1 hp)
  · rw [hl2 i h2]
    exact hl1 i h1

/-- The lever counterpart of `updateControlJoystick_fold_skips`. -/
theorem NRF24Controller.updateControlLever_fold_skips (now : Nat) (c : NRF24Controller)
    (ks1 ks2 : List Nat) (i : Nat) (l : Lever) (h1 : i ∉ ks1) (h2 : i ∉ ks2)
    (hsoc : c._sendOnlyChanges = true)
    (hl : c._levers.getD i none = some l)
    (hen : c._leverEnabled.getD i false = true)
    (hx : |(NRF24Controller.leverReport l now).1
      - (c._lastLeverData.getD i ControlData.zero).valueX| < c._leverThreshold)
    (hf : (NRF24Controller.leverReport l now).2.2.1
      = (c._lastLeverData.getD i ControlData.zero).flags)
    (hp : noRecordWithId c._currentPacket (i + 100)) :
    ∃ ls pkt last,
      (ks1 ++ i :: ks2).foldl (NRF24Controller.updateControlLever now) c =
        { c with _levers := ls, _currentPacket := pkt, _lastLeverData := last } ∧
      noRecordWithId pkt (i + 100) ∧
      last.getD i ControlData.zero = c._lastLeverData.getD i ControlData.zero := by
  obtain ⟨ls1, pkt1, last1, e1, hj1, hl1, hp1⟩ :=
    NRF24Controller.updateControlLever_fold_shape now ks1 c
  have hstep : NRF24Controller.updateControlLever now
      { c with _levers := ls1, _currentPacket := pkt1, _lastLeverData := last1 } i =
      { c with _levers := ls1.set i (some (NRF24Controller.leverReport l now).2.2.2),
               _currentPacket := pkt1, _lastLeverData := last1 } := by
    rw [NRF24Controller.updateControlLever_eq now
      { c with _levers := ls1, _currentPacket := pkt1, _lastLeverData := last1 } i l
      (by rw [← hl]; exact hj1 i h1) hen]
    have hlast : last1.getD i ControlData.zero = c._lastLeverData.getD i ControlData.zero :=
      hl1 i h1
    rw [if_neg]
    intro hc
    simp only [hlast, hsoc, hf, Bool.not_true, Bool.false_or, Bool.or_eq_true,
      decide_eq_true_eq, ne_eq, not_true_eq_false, decide_False, Bool.false_eq_true, or_false,
      ge_iff_le] at hc
    exact absurd hc (not_le.mpr hx)
  obtain ⟨ls2, pkt2, last2, e2, _, hl2, hp2⟩ :=
    NRF24Controller.updateControlLever_fold_shape now ks2
      { c with _levers := ls1.set i (some (NRF24Controller.leverReport l now).2.2.2),
               _currentPacket := pkt1, _lastLeverData := last1 }
  have hne : ∀ ks : List Nat, i ∉ ks → ∀ k ∈ ks, i + 100 ≠ k + 100 := by
    intro ks hi k hk heq
    exact hi (by have : i = k := by omega
                 rw [this]; exact hk)
  refine ⟨ls2, pkt2, last2, ?_, ?_, ?_⟩
  · rw [List.foldl_append, List.foldl_cons, e1, hstep, e2]
  · exact hp2 (i + 100) (hne ks2 h2) (hp1 (i + 100) (hne ks1 h1) hp)
  · rw [hl2 i h2]
    exact hl1 i h1

theorem range_split_at (n i : Nat) (h : i < n) :
    ∃ ks1 ks2, List.range n = ks1 ++ i :: ks2 ∧ i ∉ ks1 ∧ i ∉ ks2 := by
  obtain ⟨s, t, hst⟩ := List.append_of_mem (List.mem_range.mpr h)
  have hnd := List.nodup_range n
  rw [hst] at hnd
  rw [List.nodup_append] at hnd
  obtain ⟨_, h2, h3⟩ := hnd
  refine ⟨s, t, hst, ?_, ?_⟩
  · intro hs
    exact h3 hs (List.mem_cons_self _ _)
  · exact (List.nodup_cons.mp h2).1

/-- Counterexample for C21: joystick 0 at rest, registered on a new controller
(`sendOnlyChanges` on, threshold 5, last-sent record all zero).  Both axis values read 0 and
so lie within the threshold of the last-sent values, yet `_updateControlData` adds a record
for the joystick and rewrites its last-sent record, because the flags (neutral, bit 1) differ
from the last-sent flags. -/
theorem updateControlData_sends_on_flag_change :
    restingJoystickController._sendOnlyChanges = true ∧
    restingJoystickController._joysticks.getD 0 none = some (Joystick.new 255 2048 2048 true) ∧
    restingJoystickController._joystickEnabled.getD 0 false = true ∧
    |(NRF24Controller.joystickReport (Joystick.new 255 2048 2048 true)).1
      - (restingJoystickController._lastJoystickData.getD 0 ControlData.zero).valueX|
      < restingJoystickController._joystickThreshold ∧
    |(NRF24Controller.joystickReport (Joystick.new 255 2048 2048 true)).2.1
      - (restingJoystickController._lastJoystickData.getD 0 ControlData.zero).valueY|
      < restingJoystickController._joystickThreshold ∧
    (restingJoystickController._updateControlData 0)._currentPacket.controlCount = 1 ∧
    ((restingJoystickController._updateControlData 0)._currentPacket.controls.getD 0
      ControlData.zero).id = 0 ∧
    ¬ noRecordWithId (restingJoystickController._updateControlData 0)._currentPacket 0 ∧
    ((restingJoystickController._updateControlData 0)._lastJoystickData.getD 0
      ControlData.zero).flags = 2 ∧
    (restingJoystickController._lastJoystickData.getD 0 ControlData.zero).flags = 0 := by
  refine ⟨by decide, rfl, by decide, by decide, by decide, by decide, by decide, ?_,
    by decide, by decide⟩
  unfold noRecordWithId
  decide

/-- C21 (amended): with `sendOnlyChanges` enabled, if neither axis value of an enabled
joystick differs from that joystick's last-sent value by at least `joystickThreshold` and its
flags equal the last-sent flags (and likewise a lever's position by at least `leverThreshold`
and its flags), `_updateControlData` adds no record for that device to the packet and leaves
its last-sent record unchanged. -/
theorem updateControlData_skips_unchanged (c : NRF24Controller) (now : Nat)
    (hsoc : c._sendOnlyChanges = true) :
    (∀ (i : Nat) (j : Joystick), i < MAX_JOYSTICKS →
      c._joysticks.getD i none = some j →
      c._joystickEnabled.getD i false = true →
      |(NRF24Controller.joystickReport j).1
        - (c._lastJoystickData.getD i ControlData.zero).valueX| < c._joystickThreshold →
      |(NRF24Controller.joystickReport j).2.1
        - (c._lastJoystickData.getD i ControlData.zero).valueY| < c._joystickThreshold →
      (NRF24Controller.joystickReport j).2.2.1
        = (c._lastJoystickData.getD i ControlData.zero).flags →
      noRecordWithId (c._updateControlData now)._currentPacket i ∧
      (c._updateControlData now)._lastJoystickData.getD i ControlData.zero
        = c._lastJoystickData.getD i ControlData.zero) ∧
    (∀ (i : Nat) (l : Lever), i < MAX_LEVERS →
      c._levers.getD i none = some l →
      c._leverEnabled.getD i false = true →
      |(NRF24Controller.leverReport l now).1
        - (c._lastLeverData.getD i ControlData.zero).valueX| < c._leverThreshold →
      (NRF24Controller.leverReport l now).2.2.1
        = (c._lastLeverData.getD i ControlData.zero).flags →
      noRecordWithId (c._updateControlData now)._currentPacket (i + 100) ∧
      (c._updateControlData now)._lastLeverData.getD i ControlData.zero
        = c._lastLeverData.getD i ControlData.zero) := by
  constructor
  · intro i j hi hj hen hx hy hf
    have hi4 : i < 4 := hi
    obtain ⟨ks1, ks2, hsplit, h1, h2⟩ := range_split_at MAX_JOYSTICKS i hi
    obtain ⟨js, pkt, last, e1, hp1, hl1⟩ :=
      NRF24Controller.updateControlJoystick_fold_skips now
        { c with _currentPacket := clearPacket } ks1 ks2 i j h1 h2 hsoc hj hen hx hy hf
        (noRecordWithId_clearPacket i)
    obtain ⟨ls, pkt2, last2, e2, _, _, hp2⟩ :=
      NRF24Controller.updateControlLever_fold_shape now (List.range MAX_LEVERS)
        { c with _joysticks := js, _currentPacket := pkt, _lastJoystickData := last }
    have hres : c._updateControlData now =
        { c with _joysticks := js, _levers := ls, _currentPacket := pkt2,
                 _lastJoystickData := last, _lastLeverData := last2 } := by
      simp only [NRF24Controller._updateControlData]
      rw [hsplit, e1, e2]
    rw [hres]
    exact ⟨hp2 i (fun k _ => by omega) hp1, hl1⟩
  · intro i l hi hl hen hx hf
    obtain ⟨ks1, ks2, hsplit, h1, h2⟩ := range_split_at MAX_LEVERS i hi
    obtain ⟨js, pkt, last, e1, _, _, hp1⟩ :=
      NRF24Controller.updateControlJoystick_fold_shape now (List.range MAX_JOYSTICKS)
        { c with _currentPacket := clearPacket }
    have hnot : i + 100 ∉ List.range MAX_JOYSTICKS := by
      rw [List.mem_range]
      have : MAX_JOYSTICKS = 4 := rfl
      omega
    obtain ⟨ls, pkt2, last2, e2, hp2, hl2⟩ :=
      NRF24Controller.updateControlLever_fold_skips now
        { c with _joysticks := js, _currentPacket := pkt, _lastJoystickData := last }
        ks1 ks2 i l h1 h2 hsoc hl hen hx hf (hp1 (i + 100) hnot (noRecordWithId_clearPacket _))
    have hres : c._updateControlData now =
        { c with _joysticks := js, _levers := ls, _currentPacket := pkt2,
                 _lastJoystickData := last, _lastLeverData := last2 } := by
      simp only [NRF24Controller._updateControlData]
      rw [e1, hsplit, e2]
    rw [hres]
    exact ⟨hp2, hl2⟩

/-- Witness for C21: the resting joystick after a first cycle has last-sent values 0, 0 and
flags 2; the next cycle adds no record for it. -/
theorem updateControlData_skips_unchanged_witness :
    (restingJoystickController._updateControlData 0)._sendOnlyChanges = true ∧
    noRecordWithId
      ((restingJoystickController._updateControlData 0)._updateControlData 10)._currentPacket
      0 :=
  ⟨by decide,
   ((updateControlData_skips_unchanged (restingJoystickController._updateControlData 0) 10
      (by decide)).1 0 (Joystick.new 255 2048 2048 true) (by decide) rfl (by decide)
      (by decide) (by decide) (by decide)).1⟩

/-- The function `_updateControlData` touches only the device tables, the current packet and
the last-sent records. -/
theorem NRF24Controller.updateControlData_shape (c : NRF24Controller) (now : Nat) :
    ∃ js ls pkt lastJ lastL,
      c._updateControlData now =
        { c with _joysticks := js, _levers := ls, _currentPacket := pkt,
                 _lastJoystickData := lastJ, _lastLeverData := lastL } := by
  obtain ⟨js, pkt, last, e1, _, _, _⟩ :=
    NRF24Controller.updateControlJoystick_fold_shape now (List.range MAX_JOYSTICKS)
      { c with _currentPacket := clearPacket }
  obtain ⟨ls, pkt2, last2, e2, _, _, _⟩ :=
    NRF24Controller.updateControlLever_fold_shape now (List.range MAX_LEVERS)
      { c with _joysticks := js, _currentPacket := pkt, _lastJoystickData := last }
  refine ⟨js, ls, pkt2, last, last2, ?_⟩
  simp only [NRF24Controller._updateControlData]
  rw [e1, e2]

/-- The function `sendData` leaves the channel table and the updated flags alone. -/
theorem NRF24Controller.sendData_channels (c : NRF24Controller) (now : Nat) :
    (c.sendData now).2._channelValues = c._channelValues ∧
    (c.sendData now).2._channelUpdated = c._channelUpdated := by
  obtain ⟨js, ls, pkt, lastJ, lastL, e⟩ := NRF24Controller.updateControlData_shape c now
  unfold NRF24Controller.sendData
  rw [e]
  by_cases h : pkt.controlCount = 0
  · rw [if_pos h]
    exact ⟨rfl, rfl⟩
  · rw [if_neg h]
    exact ⟨rfl, rfl⟩

/-- The channel loop of `_executeActiveProfile` changes only the current packet. -/
theorem NRF24Controller.addUpdatedChannel_fold_shape (now : Nat) (ks : List Nat)
    (c : NRF24Controller) :
    ∃ pkt, ks.foldl (NRF24Controller.addUpdatedChannel now) c =
      { c with _currentPacket := pkt } := by
  induction ks generalizing c with
  | nil => exact ⟨c._currentPacket, rfl⟩
  | cons k ks ih =>
    rw [List.foldl_cons]
    unfold NRF24Controller.addUpdatedChannel
    split_ifs
    · obtain ⟨pkt, h⟩ := ih { c with _currentPacket :=
        (addToPacket c._currentPacket now k .CONTROL_CUSTOM (c._channelValues.getD k 0) 0 0) }
      exact ⟨pkt, h⟩
    · exact ih c

/-- C30: `_executeActiveProfile` runs a mapper cycle (the channel table and the updated flags
become those of `_updateChannelValues`) and sets `lastProfileExecution` to the current time
when the active profile index is valid, the profile is enabled with `autoExecute` on, and
`now - lastProfileExecution >= executeInterval`; in every other case it leaves the whole
controller state unchanged.  A newly created profile has `executeInterval = 50`. -/
theorem executeActiveProfile_gate (c : NRF24Controller) (now : Nat) :
    (c._activeProfile < c._profileCount ∧
      (c._profiles.getD c._activeProfile ControlProfile.zero).enabled = true ∧
      (c._profiles.getD c._activeProfile ControlProfile.zero).autoExecute = true ∧
      (c._profiles.getD c._activeProfile ControlProfile.zero).executeInterval
        ≤ subU32 now c._lastProfileExecution →
      (c._executeActiveProfile now)._channelValues = c._updateChannelValues._channelValues ∧
      (c._executeActiveProfile now)._channelUpdated = c._updateChannelValues._channelUpdated ∧
      (c._executeActiveProfile now)._lastProfileExecution = now) ∧
    (¬ (c._activeProfile < c._profileCount ∧
      (c._profiles.getD c._activeProfile ControlProfile.zero).enabled = true ∧
      (c._profiles.getD c._activeProfile ControlProfile.zero).autoExecute = true ∧
      (c._profiles.getD c._activeProfile ControlProfile.zero).executeInterval
        ≤ subU32 now c._lastProfileExecution) →
      c._executeActiveProfile now = c) ∧
    (∀ name : String, c._profiles.length = 4 → c._profileCount < 4 →
      ((c.createProfile name).2._profiles.getD (c.createProfile name).1
        ControlProfile.zero).executeInterval = 50) := by
  refine ⟨?_, ?_, ?_⟩
  · rintro ⟨hidx, hen, hauto, hint⟩
    unfold NRF24Controller._executeActiveProfile
    simp only [hen, hauto, not_le.mpr hidx, not_lt.mpr hint, ge_iff_le, Bool.not_true,
      Bool.false_eq_true, or_self, if_false]
    generalize c._updateChannelValues = u
    obtain ⟨pkt, e⟩ := NRF24Controller.addUpdatedChannel_fold_shape now (List.range 32)
      { u with _currentPacket := clearPacket }
    rw [e]
    dsimp only
    split_ifs
    · exact ⟨(NRF24Controller.sendData_channels _ now).1,
        (NRF24Controller.sendData_channels _ now).2, trivial⟩
    · exact ⟨rfl, rfl, trivial⟩
  · intro hnot
    unfold NRF24Controller._executeActiveProfile
    by_cases h1 : c._activeProfile ≥ c._profileCount ∨
        (!(c._profiles.getD c._activeProfile ControlProfile.zero).enabled) = true
    · dsimp only
      rw [if_pos h1]
    · by_cases h2 : (!(c._profiles.getD c._activeProfile ControlProfile.zero).autoExecute) = true
      · dsimp only
        rw [if_neg h1, if_pos h2]
      · by_cases h3 : subU32 now c._lastProfileExecution
            < (c._profiles.getD c._activeProfile ControlProfile.zero).executeInterval
        · dsimp only
          rw [if_neg h1, if_neg h2, if_pos h3]
        · exfalso
          apply hnot
          rw [not_or] at h1
          refine ⟨by omega, ?_, ?_, by omega⟩
          · simpa using h1.2
          · simpa using h2
  · intro name hlen hcount
    have hnot : ¬ c._profileCount ≥ 4 := by omega
    simp only [NRF24Controller.createProfile, hnot, if_false]
    rw [List.getD_eq_getElem?_getD, List.getElem?_set_eq_of_lt _ (by omega)]
    rfl

/-- Witness for C30: the controller `mappedController` (profile 0 active, interval 50, last
execution at 0) at the time 100. -/
theorem executeActiveProfile_gate_witness :
    (mappedController._activeProfile < mappedController._profileCount ∧
      (mappedController._profiles.getD mappedController._activeProfile
        ControlProfile.zero).enabled = true ∧
      (mappedController._profiles.getD mappedController._activeProfile
        ControlProfile.zero).autoExecute = true ∧
      (mappedController._profiles.getD mappedController._activeProfile
        ControlProfile.zero).executeInterval ≤ subU32 100 mappedController._lastProfileExecution) ∧
    (mappedController._executeActiveProfile 100)._lastProfileExecution = 100 :=
  ⟨by decide, ((executeActiveProfile_gate mappedController 100).1 (by decide)).2.2⟩

/-- C23: `loadProfilesFromEEPROM` returns true exactly when the stored image has the magic
number 0x12345678, the version 1 and a stored checksum equal to the XOR recomputed over the
image; whenever one of the three checks fails it returns false and leaves the controller,
with its profiles and `profileCount`, exactly as it was. -/
theorem loadProfilesFromEEPROM_validates (c : NRF24Controller) (data : List Nat)
    (profilesOfBytes : List Nat → List ControlProfile) :
    ((c.loadProfilesFromEEPROM data profilesOfBytes).1 = true ↔
      NRF24Controller.eepromMagicNumber data = 0x12345678 ∧
      NRF24Controller.eepromVersion data = 1 ∧
      NRF24Controller.eepromCalculatedChecksum data = NRF24Controller.eepromChecksum data) ∧
    (NRF24Controller.eepromMagicNumber data ≠ 0x12345678 ∨
      NRF24Controller.eepromVersion data ≠ 1 ∨
      NRF24Controller.eepromCalculatedChecksum data ≠ NRF24Controller.eepromChecksum data →
      c.loadProfilesFromEEPROM data profilesOfBytes = (false, c)) ∧
    (NRF24Controller.eepromMagicNumber data = 0x12345678 →
      NRF24Controller.eepromVersion data = 1 →
      NRF24Controller.eepromCalculatedChecksum data = NRF24Controller.eepromChecksum data →
      (c.loadProfilesFromEEPROM data profilesOfBytes).2._profileCount
        = NRF24Controller.eepromProfileCount data ∧
      (c.loadProfilesFromEEPROM data profilesOfBytes).2._profiles = profilesOfBytes data) := by
  unfold NRF24Controller.loadProfilesFromEEPROM
  by_cases hm : NRF24Controller.eepromMagicNumber data = 0x12345678
  · by_cases hv : NRF24Controller.eepromVersion data = 1
    · by_cases hc : NRF24Controller.eepromCalculatedChecksum data
          = NRF24Controller.eepromChecksum data
      · simp [hm, hv, hc]
      · simp [hm, hv, hc]
    · simp [hm, hv]
  · simp [hm]

theorem foldl_xor_replicate_zero (n x : Nat) :
    (List.replicate n 0).foldl (fun a b => a ^^^ b) x = x := by
  induction n with
  | zero => rfl
  | succ m ih => rw [List.replicate_succ, List.foldl_cons, Nat.xor_zero, ih]

theorem NRF24Controller.eepromCalculatedChecksum_eq_take (data : List Nat)
    (h : 2010 ≤ data.length) :
    NRF24Controller.eepromCalculatedChecksum data
      = (data.take 2010).foldl (fun a b => a ^^^ b) 0 := by
  rw [← map_getD_range_eq_take data 0 2010 h, List.foldl_map]
  rfl

theorem validProfileImage_checks :
    NRF24Controller.eepromMagicNumber validProfileImage = 0x12345678 ∧
    NRF24Controller.eepromVersion validProfileImage = 1 ∧
    NRF24Controller.eepromCalculatedChecksum validProfileImage
      = NRF24Controller.eepromChecksum validProfileImage := by
  refine ⟨by decide, by decide, ?_⟩
  have hA : ([0x78, 0x56, 0x34, 0x12, 1] ++ List.replicate 2005 0 : List Nat).length = 2010 := by
    simp only [List.length_append, List.length_replicate, List.length_cons, List.length_nil]
  have hlen : 2010 ≤ validProfileImage.length := by
    unfold validProfileImage
    rw [List.length_append, hA]
    exact Nat.le_add_right _ _
  have htake : validProfileImage.take 2010
      = [0x78, 0x56, 0x34, 0x12, 1] ++ List.replicate 2005 0 := List.take_left' hA
  have h10 : validProfileImage.getD 2010 0 = 9 := by
    unfold validProfileImage
    rw [List.getD_eq_getElem?_getD, List.getElem?_append_right (by rw [hA]), hA]
    rfl
  have h11 : validProfileImage.getD 2011 0 = 0 := by
    unfold validProfileImage
    rw [List.getD_eq_getElem?_getD, List.getElem?_append_right (by rw [hA]; decide), hA]
    rfl
  rw [NRF24Controller.eepromCalculatedChecksum_eq_take _ hlen, htake, List.foldl_append,
    foldl_xor_replicate_zero, NRF24Controller.eepromChecksum, h10, h11]
  decide

/-- Witness for C23: a valid image is accepted and an all-zero image is refused. -/
theorem loadProfilesFromEEPROM_validates_witness :
    ((NRF24Controller.new true).loadProfilesFromEEPROM validProfileImage
        (fun _ => List.replicate 4 initialProfile)).1 = true ∧
    (NRF24Controller.new true).loadProfilesFromEEPROM (List.replicate 2012 0)
        (fun _ => List.replicate 4 initialProfile) = (false, NRF24Controller.new true) :=
  ⟨(loadProfilesFromEEPROM_validates (NRF24Controller.new true) validProfileImage
      (fun _ => List.replicate 4 initialProfile)).1.mpr validProfileImage_checks,
   (loadProfilesFromEEPROM_validates (NRF24Controller.new true) (List.replicate 2012 0)
      (fun _ => List.replicate 4 initialProfile)).2.1 (Or.inl (by decide))⟩

/-! ### Rectangular dead zone and smoothing factor -/

/-- C33 (failing input): a joystick with the rectangular dead zone (radius 50, centre 2048)
whose raw X reading 2090 is within the radius of the centre while its raw Y reading is 4095:
`readX` returns 5, not 0, because `_isInDeadZone` requires both axes to be within the
radius; likewise `readY` is not 0 at the raw reading (4095, 2090). -/
theorem readX_rectangular_not_per_axis :
    ({ Joystick.new 255 2090 4095 true with _useCircularDeadZone := false })._useCircularDeadZone
      = false ∧
    |(2090 : Int) - (Joystick.new 255 2090 4095 true)._centerX|
      ≤ (Joystick.new 255 2090 4095 true)._deadZoneRadius ∧
    (({ Joystick.new 255 2090 4095 true with _useCircularDeadZone := false }).readX).1 = 5 ∧
    (({ Joystick.new 255 2090 4095 true with _useCircularDeadZone := false }).readX).1 ≠ 0 ∧
    (({ Joystick.new 255 4095 2090 true with _useCircularDeadZone := false }).readY).1 ≠ 0 := by
  refine ⟨rfl, by decide, ?_, ?_, ?_⟩ <;> decide!

theorem constrainQ_bounds (x : ℚ) : 0 ≤ constrainQ x 0 1 ∧ constrainQ x 0 1 ≤ 1 := by
  unfold constrainQ
  split_ifs with h1 h2
  · exact ⟨le_refl _, zero_le_one⟩
  · exact ⟨zero_le_one, le_refl _⟩
  · exact ⟨not_lt.mp h1, not_lt.mp h2⟩

/-- C35 (counterexample): after `setSmoothing(true, 0)` on a joystick whose previous filtered
value is 0, a raw reading of 3000 is filtered to 0, not to 3000, and `readX` reports -255. -/
theorem smoothing_factor_zero_holds_previous :
    ((Joystick.new 255 3000 2048 true).setSmoothing true 0)._applySmoothing 3000 0 = 0 ∧
    ((Joystick.new 255 3000 2048 true).setSmoothing true 0)._applySmoothing 3000 0 ≠ 3000 ∧
    (((Joystick.new 255 3000 2048 true).setSmoothing true 0).readX).2._lastX = 0 ∧
    (((Joystick.new 255 3000 2048 true).setSmoothing true 0).readX).1 = -255 := by
  refine ⟨?_, ?_, ?_, ?_⟩ <;> decide!

/-- C35 (as amended): smoothing factor 1 is a passthrough: after `setSmoothing(true, f)` with
`f >= 1` the stored factor is 1 and the filtered value equals the new raw reading whatever
the previous filtered value was, and outside the dead zone it is the raw reading that
`readX` stores as the new previous value; after `setSmoothing(true, f)` with `f <= 0` the
stored factor is 0, the filtered value stays the previous one and `readX` leaves the stored
previous value as it was; the stored factor always lies within `[0, 1]`.  These are the
cases in which the `float` operations of `_applySmoothing` round nothing; the reading is one
a `float` holds exactly (up to `2^24`), at most 32767 away from the centre on each axis (the
integer arithmetic of the dead-zone test then stays within 32 bits). -/
theorem applySmoothing_end_factors (j : Joystick) (factor newValue lastValue : ℚ) :
    (1 ≤ factor →
      (j.setSmoothing true factor)._smoothingFactor = 1 ∧
      (j.setSmoothing true factor)._applySmoothing newValue lastValue = newValue ∧
      (j._isInDeadZone j.rawX j.rawY = false → |j.rawX| ≤ 16777216 →
        |j.rawX - j._centerX| ≤ 32767 → |j.rawY - j._centerY| ≤ 32767 →
        ((j.setSmoothing true factor).readX).2._lastX = (j.rawX : ℚ))) ∧
    (factor ≤ 0 →
      (j.setSmoothing true factor)._smoothingFactor = 0 ∧
      (j.setSmoothing true factor)._applySmoothing newValue lastValue = lastValue ∧
      ((j.setSmoothing true factor).readX).2._lastX = j._lastX) ∧
    0 ≤ (j.setSmoothing true factor)._smoothingFactor ∧
    (j.setSmoothing true factor)._smoothingFactor ≤ 1 := by
  have hzone : ∀ b : Bool, j._isInDeadZone j.rawX j.rawY = b →
      (j.setSmoothing true factor)._isInDeadZone (j.setSmoothing true factor).rawX
        (j.setSmoothing true factor).rawY = b := by
    intro b hb
    rw [← hb]
    rfl
  have hread : j._isInDeadZone j.rawX j.rawY = false →
      ((j.setSmoothing true factor).readX).2._lastX
        = (j.setSmoothing true factor)._applySmoothing (j.rawX : ℚ) j._lastX := by
    intro hd
    simp only [Joystick.readX]
    rw [hzone false hd]
    rfl
  have hdead : j._isInDeadZone j.rawX j.rawY = true →
      ((j.setSmoothing true factor).readX).2._lastX = j._lastX := by
    intro hd
    simp only [Joystick.readX]
    rw [hzone true hd]
    rfl
  refine ⟨?_, ?_, (constrainQ_bounds factor).1, (constrainQ_bounds factor).2⟩
  · intro h1
    have hf : constrainQ factor 0 1 = 1 := by
      unfold constrainQ
      split_ifs with ha hb
      · linarith
      · rfl
      · linarith
    have happ : ∀ a b : ℚ, (j.setSmoothing true factor)._applySmoothing a b = a := by
      intro a b
      simp [Joystick.setSmoothing, Joystick._applySmoothing, hf]
    exact ⟨hf, happ _ _, fun hd _ _ _ => by rw [hread hd, happ]⟩
  · intro h0
    have hf : constrainQ factor 0 1 = 0 := by
      unfold constrainQ
      split_ifs with ha hb
      · rfl
      · linarith
      · linarith
    have happ : ∀ a b : ℚ, (j.setSmoothing true factor)._applySmoothing a b = b := by
      intro a b
      simp [Joystick.setSmoothing, Joystick._applySmoothing, hf]
    refine ⟨hf, happ _ _, ?_⟩
    cases hd : j._isInDeadZone j.rawX j.rawY
    · rw [hread hd, happ]
    · exact hdead hd

/-- Witness for C35 (as amended): the default joystick pushed to raw X 3000, factor 1. -/
theorem applySmoothing_end_factors_witness :
    (Joystick.new 255 3000 2048 true)._isInDeadZone 3000 2048 = false ∧
    (((Joystick.new 255 3000 2048 true).setSmoothing true 1).readX).2._lastX
      = ((3000 : Int) : ℚ) :=
  ⟨by decide,
   ((applySmoothing_end_factors (Joystick.new 255 3000 2048 true) 1 0 0).1 (le_refl 1)).2.2
     (by decide) (by decide) (by decide) (by decide)⟩

/-! ### Failed slot switch, mapped lever reading, checksum coverage, shared switch memory -/

/-- C36 (failing input and beyond): slot 0 is active and writes to the key `active` fail;
`setActiveProfile(2)` returns false and leaves slot 2 active instead of slot 0.  The same
holds for every state and every other slot below 4: the line meant to revert the change
assigns the new slot again. -/
theorem setActiveProfile_failed_write_not_reverted :
    activeWriteFailsStorage.activeProfile = 0 ∧
    (activeWriteFailsStorage.setActiveProfile 2).1 = false ∧
    (activeWriteFailsStorage.setActiveProfile 2).2.activeProfile = 2 ∧
    (∀ (s : ConfigStorage) (p : Nat), p < 4 → s.activeProfile ≠ p →
      "active" ∈ s.preferences.failKeys →
      (s.setActiveProfile p).1 = false ∧ (s.setActiveProfile p).2.activeProfile = p) := by
  refine ⟨by decide, by decide, by decide, ?_⟩
  intro s p hp hne hfail
  have hp' : ¬ p ≥ MAX_PROFILES := by unfold MAX_PROFILES; omega
  have hsave : (s.saveCurrentConfig).2.preferences.failKeys = s.preferences.failKeys := by
    simp only [ConfigStorage.saveCurrentConfig, ConfigStorage.saveConfigToProfile]
    split_ifs
    · rfl
    · simp only [Preferences.putBytes, Preferences.putULong64]
      split_ifs <;> rfl
  have hfail' : "active" ∈ (s.saveCurrentConfig).2.preferences.failKeys := by
    rw [hsave]; exact hfail
  unfold ConfigStorage.setActiveProfile
  simp only [hp', if_false, hne, ne_eq, not_false_eq_true, if_true, Preferences.putUChar,
    hfail']
  simp

/-- C37 (failing input): the default analog lever (limits 0 and 4095, centre 2048, no
inversion, no smoothing) reading raw 0 or raw 1000: `readPosition` is -100 and -52, and
`readMapped(0, 255)` returns -255 and -132, outside `0..255`. -/
theorem readMapped_leaves_range :
    ((Lever.new .ANALOG_LEVER 255 255 0 true true true).readPosition).1 = -100 ∧
    ((Lever.new .ANALOG_LEVER 255 255 0 true true true).readMapped 0 255).1 = -255 ∧
    ((Lever.new .ANALOG_LEVER 255 255 1000 true true true).readPosition).1 = -52 ∧
    ((Lever.new .ANALOG_LEVER 255 255 1000 true true true).readMapped 0 255).1 = -132 ∧
    ¬ (0 ≤ ((Lever.new .ANALOG_LEVER 255 255 0 true true true).readMapped 0 255).1) := by
  refine ⟨?_, ?_, ?_, ?_, ?_⟩ <;> decide!

theorem checksumLoop_congr (d1 d2 : List Nat) (k i cs : Nat)
    (h : ∀ n, i ≤ n → n < i + k → d1.getD n 0 = d2.getD n 0) :
    checksumLoop d1 k i cs = checksumLoop d2 k i cs := by
  induction k generalizing i cs with
  | zero => rfl
  | succ m ih =>
    simp only [checksumLoop]
    rw [h i (le_refl _) (by omega)]
    exact ih (i + 1) _ (fun n h1 h2 => h n (by omega) (by omega))

set_option maxRecDepth 100000 in
/-- C38 (failing input and beyond): the all-zero image is accepted by `readData`; with bit 0
of byte 170 (the third byte of the packet timestamp) flipped, `_calculateChecksum` still
computes 0 and `readData` accepts the corrupted image.  No bit of bytes 170 and 171 of any
image enters the checksum. -/
theorem checksum_misses_last_two_bytes :
    flipBit zeroImage 170 0 ≠ zeroImage ∧
    NRF24Controller.storedChecksum (flipBit zeroImage 170 0)
      = NRF24Controller.storedChecksum zeroImage ∧
    calculateChecksumBytes (flipBit zeroImage 170 0) = calculateChecksumBytes zeroImage ∧
    ((NRF24Controller.new true).readData (some zeroImage)).1 = true ∧
    ((NRF24Controller.new true).readData (some (flipBit zeroImage 170 0))).1 = true ∧
    _calculateChecksum { clearPacket with timestamp := 65536 } = _calculateChecksum clearPacket ∧
    (∀ (data : List Nat) (i bit : Nat), 170 ≤ i →
      calculateChecksumBytes (flipBit data i bit) = calculateChecksumBytes data) := by
  refine ⟨by decide, by decide, by decide, by decide, by decide, by decide, ?_⟩
  intro data i bit hi
  unfold calculateChecksumBytes flipBit
  apply checksumLoop_congr
  intro n _ hn
  have hne : i ≠ n := by
    have : sizeofDataPacket = 172 := rfl
    omega
  simp [List.getD_eq_getElem?_getD, List.getElem?_set_ne hne]

/-- C39 (failing input): lever A has its input A held low.  Two `update()` calls of A alone
move it from position 0 to position 1 (one edge); with an `update()` of an idle lever B
between them, the same two calls move A to position 2. -/
theorem digital_levers_share_edge_memory :
    heldSwitchLever.positionAfterUpdates ⟨false, false⟩ 0 [none, none] = 1 ∧
    heldSwitchLever.positionAfterUpdates ⟨false, false⟩ 0 [none, some idleSwitchLever] = 2 := by
  constructor <;> decide!

/-! ### Profile names -/

/-- C40 (counterexample): `createProfile` with a 24-byte name on a new controller returns
index 0, and `selectProfile` with the same name returns false: the stored name holds the
first 15 bytes only.  The same happens with the 8-character name `éééééééé`, whose UTF-8
encoding has 16 bytes. -/
theorem createProfile_long_name_not_selectable :
    ((NRF24Controller.new true).createProfile "a-very-long-profile-name").1 = 0 ∧
    (((NRF24Controller.new true).createProfile "a-very-long-profile-name").2.selectProfileByName
      "a-very-long-profile-name").1 = false ∧
    ((((NRF24Controller.new true).createProfile "a-very-long-profile-name").2._profiles.getD 0
      ControlProfile.zero).name) = cStringBytes "a-very-long-pro" ∧
    (cStringBytes "éééééééé").length = 16 ∧
    ((NRF24Controller.new true).createProfile "éééééééé").1 = 0 ∧
    (((NRF24Controller.new true).createProfile "éééééééé").2.selectProfileByName
      "éééééééé").1 = false := by
  refine ⟨by decide, by decide, by decide, by decide, by decide, by decide⟩

/-- C40 (as amended): for every name of at most 15 bytes, if `createProfile(name)` returns an
index `i` other than 255 and no earlier profile has the same name, then `selectProfile(name)`
returns true and makes `i` the active profile. -/
theorem createProfile_then_select_by_name (c : NRF24Controller) (name : String)
    (hlen : c._profiles.length = 4) (hname : (cStringBytes name).length ≤ 15)
    (hidx : (c.createProfile name).1 ≠ 255)
    (hnew : ∀ i, i < c._profileCount →
      (c._profiles.getD i ControlProfile.zero).name ≠ cStringBytes name) :
    ((c.createProfile name).2.selectProfileByName name).1 = true ∧
    ((c.createProfile name).2.selectProfileByName name).2._activeProfile
      = (c.createProfile name).1 := by
  have hcount : c._profileCount < 4 := by
    by_contra h
    apply hidx
    have h4 : c._profileCount ≥ 4 := not_lt.mp h
    simp only [NRF24Controller.createProfile, h4, if_true]
  have hnot : ¬ c._profileCount ≥ 4 := by omega
  have htake : (cStringBytes name).take 15 = cStringBytes name :=
    List.take_of_length_le hname
  have hmod : (c._profileCount + 1) % 256 = c._profileCount + 1 := by omega
  have hfind : (List.range (c._profileCount + 1)).find?
      (fun i => decide (((c.createProfile name).2._profiles.getD i ControlProfile.zero).name
        = cStringBytes name)) = some c._profileCount := by
    rw [List.range_succ, List.find?_append]
    have hnone : (List.range c._profileCount).find?
        (fun i => decide (((c.createProfile name).2._profiles.getD i
          ControlProfile.zero).name = cStringBytes name)) = none := by
      rw [List.find?_eq_none]
      intro i hi
      have hi' := List.mem_range.mp hi
      have hne : c._profileCount ≠ i := by omega
      simp only [NRF24Controller.createProfile, hnot, if_false, decide_eq_true_eq]
      rw [List.getD_eq_getElem?_getD, List.getElem?_set_ne hne, ← List.getD_eq_getElem?_getD]
      exact hnew i hi'
    rw [hnone]
    simp only [NRF24Controller.createProfile, hnot, if_false, Option.none_or, List.find?_cons,
      List.find?_nil]
    rw [List.getD_eq_getElem?_getD, List.getElem?_set_eq_of_lt _ (by omega)]
    simp [htake]
  have hc1 : (c.createProfile name).2._profileCount = c._profileCount + 1 := by
    simp [NRF24Controller.createProfile, hnot, hmod]
  have h1 : (c.createProfile name).1 = c._profileCount := by
    simp [NRF24Controller.createProfile, hnot]
  unfold NRF24Controller.selectProfileByName
  rw [hc1, hfind, h1]
  simp [NRF24Controller.selectProfile, hc1]

/-- Witness for C40 (as amended): the name "boat" on the controller that holds "car". -/
theorem createProfile_then_select_by_name_witness :
    ((mappedController.createProfile "boat").2.selectProfileByName "boat").1 = true ∧
    ((mappedController.createProfile "boat").2.selectProfileByName "boat").2._activeProfile
      = (mappedController.createProfile "boat").1 :=
  createProfile_then_select_by_name mappedController "boat" (by decide) (by decide)
    (by decide) (by decide)

/-! ### Burst filter -/

/-- C34 (counterexample): nine samples 1000 and one spike 1160 (160 above, more than the
tolerance): `_readRawX` returns 1016; nine samples 0 and one spike 4095: every sample is
farther than the tolerance from the mean 409.5 and `_readRawX` returns the raw mean 409. -/
theorem readRawX_keeps_some_spikes :
    Joystick._readRawX [1000, 1000, 1000, 1000, 1000, 1000, 1000, 1000, 1000, 1160] = 1016 ∧
    Joystick._readRawX [0, 0, 0, 0, 0, 0, 0, 0, 0, 4095] = 409 ∧
    Joystick._readRawX [1000, 1000, 1000, 1000, 1000, 1000, 1000, 1000, 1000, 1160] ≠ 1000 ∧
    Joystick._readRawX [0, 0, 0, 0, 0, 0, 0, 0, 0, 4095] ≠ 0 := by
  refine ⟨?_, ?_, ?_, ?_⟩ <;> decide!

/-- The function `_readRawX` once the sum of the ten samples is known. -/
theorem Joystick.readRawX_of_sum (buffer : List Int) (S : Int)
    (hS : (List.range 10).foldl (fun sum i => sum + buffer.getD i 0) 0 = S) :
    Joystick._readRawX buffer =
      if ((List.range 10).foldl
          (fun (valid : Int × Int) i =>
            if |((buffer.getD i 0 : Int) : ℚ) - (S : ℚ) / ((10 : Nat) : ℚ)| < (150 : ℚ) then
              (valid.1 + buffer.getD i 0, valid.2 + 1)
            else valid) (0, 0)).2 = 0 then truncToLong ((S : ℚ) / ((10 : Nat) : ℚ))
      else Int.tdiv
        ((List.range 10).foldl
          (fun (valid : Int × Int) i =>
            if |((buffer.getD i 0 : Int) : ℚ) - (S : ℚ) / ((10 : Nat) : ℚ)| < (150 : ℚ) then
              (valid.1 + buffer.getD i 0, valid.2 + 1)
            else valid) (0, 0)).1
        ((List.range 10).foldl
          (fun (valid : Int × Int) i =>
            if |((buffer.getD i 0 : Int) : ℚ) - (S : ℚ) / ((10 : Nat) : ℚ)| < (150 : ℚ) then
              (valid.1 + buffer.getD i 0, valid.2 + 1)
            else valid) (0, 0)).2 := by
  subst hS
  rfl

/-- C34 (amended): if nine of the ten samples of a burst equal `v` and the remaining one
differs from `v` by at least 167 and at most 1499 (so that it is farther than the tolerance
from the burst mean while the nine are not), `_readRawX` returns `v`, for every `v` and every
spike value in the ADC range `0..4095` and every place of the spike in the burst. -/
theorem readRawX_rejects_moderate_spike (v s : Int) (k : Nat) (hk : k < 10)
    (_hv0 : 0 ≤ v) (_hv1 : v ≤ 4095) (_hs0 : 0 ≤ s) (_hs1 : s ≤ 4095)
    (hlo : 167 ≤ |s - v|) (hhi : |s - v| ≤ 1499) :
    Joystick._readRawX ((List.replicate 10 v).set k s) = v := by
  have hrange : List.range 10 = [0, 1, 2, 3, 4, 5, 6, 7, 8, 9] := rfl
  have hhi' : (-1499 : ℚ) ≤ (s : ℚ) - (v : ℚ) ∧ (s : ℚ) - (v : ℚ) ≤ 1499 := by
    have := abs_le.mp hhi
    constructor
    · exact_mod_cast this.1
    · exact_mod_cast this.2
  have hvq : |((v : Int) : ℚ) - ((9 * v + s : Int) : ℚ) / ((10 : Nat) : ℚ)| < (150 : ℚ) := by
    push_cast
    rw [abs_lt]
    constructor <;> linarith [hhi'.1, hhi'.2]
  have hsq : ¬ |((s : Int) : ℚ) - ((9 * v + s : Int) : ℚ) / ((10 : Nat) : ℚ)| < (150 : ℚ) := by
    push_cast
    rw [abs_lt, not_and_or]
    rcases le_abs.mp hlo with h | h
    · right
      have h' : (167 : ℚ) ≤ (s : ℚ) - (v : ℚ) := by exact_mod_cast h
      linarith
    · left
      have h' : (167 : ℚ) ≤ -((s : ℚ) - (v : ℚ)) := by exact_mod_cast h
      linarith
  have h9 : Int.tdiv (9 * v) 9 = v := Int.mul_tdiv_cancel_left v (by decide)
  interval_cases k
  all_goals
    rw [Joystick.readRawX_of_sum _ (9 * v + s)
      (by simp only [hrange, List.replicate, List.set, List.foldl_cons, List.foldl_nil,
            List.getD_cons_zero, List.getD_cons_succ]
          ring)]
    simp only [hrange, List.replicate, List.set, List.foldl_cons, List.foldl_nil,
      List.getD_cons_zero, List.getD_cons_succ, hvq, hsq, if_true, if_false]
    rw [show (0 + 1 + 1 + 1 + 1 + 1 + 1 + 1 + 1 + 1 : Int) = 9 from rfl,
      show (0 + v + v + v + v + v + v + v + v + v : Int) = 9 * v by ring,
      if_neg (by decide), h9]

/-- Witness for C34 (as amended): nine samples 1000 and the spike 1400 in the fourth place. -/
theorem readRawX_rejects_moderate_spike_witness :
    Joystick._readRawX ((List.replicate 10 1000).set 3 1400) = 1000 :=
  readRawX_rejects_moderate_spike 1000 1400 3 (by decide) (by decide) (by decide) (by decide)
    (by decide) (by decide) (by decide)

/-! ### Full packets -/

/-- C32 (failing input): four resting joysticks and six centred analog levers, all registered
on a new controller; the first `_updateControlData` (at time 0) finds every device changed
(flags 2 against the last-sent flags 0).  The packet takes the four joysticks and levers 0 to
3; levers 4 and 5 get no record (ids 104 and 105), yet their last-sent flags become 2. -/
theorem updateControlData_marks_dropped_records_sent :
    (crowdedController._updateControlData 0)._currentPacket.controlCount = 8 ∧
    (crowdedController._updateControlData 0)._currentPacket.controls.map (fun r => r.id)
      = [0, 1, 2, 3, 100, 101, 102, 103] ∧
    (crowdedController._lastLeverData.getD 4 ControlData.zero).flags = 0 ∧
    (crowdedController._lastLeverData.getD 5 ControlData.zero).flags = 0 ∧
    ((crowdedController._updateControlData 0)._lastLeverData.getD 4 ControlData.zero).flags = 2 ∧
    ((crowdedController._updateControlData 0)._lastLeverData.getD 5 ControlData.zero).flags = 2 ∧
    noRecordWithId (crowdedController._updateControlData 0)._currentPacket 104 ∧
    noRecordWithId (crowdedController._updateControlData 0)._currentPacket 105 := by
  refine ⟨?_, ?_, ?_, ?_, ?_, ?_, ?_, ?_⟩
  · decide!
  · decide!
  · decide!
  · decide!
  · decide!
  · decide!
  · unfold noRecordWithId
    decide!
  · unfold noRecordWithId
    decide!

/-- C31 (counterexample): the controller `uncoveredConditionalController` (joystick 0 pushed
fully right and mapped to channel 1; a conditional mapping on channel 5, which no base
mapping writes, whose trigger holds).  The first mapper cycle leaves channel 5 at 50, the
second at 75, with the same profile, readings and lever positions and with smoothing
disabled. -/
theorem updateChannelValues_twice_differs :
    uncoveredConditionalController._updateChannelValues._channelValues.getD 5 0 = 50 ∧
    uncoveredConditionalController._updateChannelValues._updateChannelValues._channelValues.getD
      5 0 = 75 ∧
    uncoveredConditionalController._updateChannelValues._updateChannelValues._channelValues
      ≠ uncoveredConditionalController._updateChannelValues._channelValues ∧
    uncoveredConditionalController._updateChannelValues._profiles
      = uncoveredConditionalController._profiles ∧
    uncoveredConditionalController._updateChannelValues._levers
      = uncoveredConditionalController._levers ∧
    uncoveredConditionalController.smoothingOff := by
  refine ⟨?_, ?_, ?_, ?_, ?_, ?_⟩
  · decide!
  · decide!
  · decide!
  · decide!
  · decide!
  · unfold NRF24Controller.smoothingOff
    decide!

/-! ### Repeated mapper cycles -/

/-- With smoothing disabled, the value `readX` returns does not depend on the filter memory,
and the read changes nothing but the filter memory. -/
theorem Joystick.readX_clearFilterMemory (j : Joystick) (hs : j._useSmoothing = false) :
    j.readX.1 = j.clearFilterMemory.readX.1 ∧
    j.readX.2.clearFilterMemory = j.clearFilterMemory ∧
    j.readX.2._useSmoothing = false := by
  refine ⟨(Joystick.readX_plain_inv j hs).trans
    (Joystick.readX_plain_inv j.clearFilterMemory hs).symm, ?_, ?_⟩
  · simp only [Joystick.readX]
    split_ifs <;> rfl
  · simp only [Joystick.readX]
    split_ifs <;> exact hs

/-- With smoothing disabled, the value `readY` returns does not depend on the filter memory,
and the read changes nothing but the filter memory. -/
theorem Joystick.readY_clearFilterMemory (j : Joystick) (hs : j._useSmoothing = false) :
    j.readY.1 = j.clearFilterMemory.readY.1 ∧
    j.readY.2.clearFilterMemory = j.clearFilterMemory ∧
    j.readY.2._useSmoothing = false := by
  refine ⟨(Joystick.readY_plain j hs).trans
    (Joystick.readY_plain j.clearFilterMemory hs).symm, ?_, ?_⟩
  · simp only [Joystick.readY]
    split_ifs <;> rfl
  · simp only [Joystick.readY]
    split_ifs <;> exact hs

/-- With smoothing disabled, `readPosition` leaves the lever as it was. -/
theorem Lever.readPosition_keeps_state (l : Lever) (hs : l._useSmoothing = false) :
    l.readPosition.2 = l := by
  unfold Lever.readPosition
  cases h : l._leverType <;> simp [hs]

theorem list_set_getD_self {α : Type} (l : List α) (i : Nat) (d x : α)
    (h : l.getD i d = x) (hi : i < l.length) : l.set i x = l := by
  apply List.ext_getElem
  · simp
  · intro n h1 h2
    by_cases hn : i = n
    · subst hn
      simp only [List.getElem_set_self]
      rw [← h, List.getD_eq_getElem?_getD, List.getElem?_eq_getElem hi]
      rfl
    · simp [List.getElem_set_ne hn]

theorem list_getD_some_lt {α : Type} (l : List (Option α)) (i : Nat) (x : α)
    (h : l.getD i none = some x) : i < l.length := by
  by_contra hlt
  rw [List.getD_eq_getElem?_getD, List.getElem?_eq_none (not_lt.mp hlt)] at h
  simp at h

theorem NRF24Controller.smoothingOff_joystick {c : NRF24Controller} (hoff : c.smoothingOff)
    (i : Nat) (j : Joystick) (h : c._joysticks.getD i none = some j) :
    j._useSmoothing = false := by
  have := hoff.1 i (list_getD_some_lt _ _ _ h)
  rw [h] at this
  exact this

theorem NRF24Controller.smoothingOff_lever {c : NRF24Controller} (hoff : c.smoothingOff)
    (i : Nat) (l : Lever) (h : c._levers.getD i none = some l) :
    l._useSmoothing = false := by
  have := hoff.2 i (list_getD_some_lt _ _ _ h)
  rw [h] at this
  exact this

theorem NRF24Controller.devicesKept_refl (a : NRF24Controller) : a.devicesKept a :=
  ⟨rfl, rfl, rfl, rfl, rfl, rfl⟩

theorem NRF24Controller.devicesKept_symm {a b : NRF24Controller} (h : a.devicesKept b) :
    b.devicesKept a :=
  ⟨h.1.symm, h.2.1.symm, h.2.2.1.symm, h.2.2.2.1.symm, h.2.2.2.2.1.symm, h.2.2.2.2.2.symm⟩

theorem NRF24Controller.devicesKept_trans {a b c : NRF24Controller} (h1 : a.devicesKept b)
    (h2 : b.devicesKept c) : a.devicesKept c :=
  ⟨h1.1.trans h2.1, h1.2.1.trans h2.2.1, h1.2.2.1.trans h2.2.2.1,
    h1.2.2.2.1.trans h2.2.2.2.1, h1.2.2.2.2.1.trans h2.2.2.2.2.1,
    h1.2.2.2.2.2.trans h2.2.2.2.2.2⟩

/-- Controllers with the same devices up to filter memory hold, at every index, joysticks with
the same image. -/
theorem NRF24Controller.devicesKept_getD {a b : NRF24Controller} (h : a.devicesKept b)
    (i : Nat) :
    (a._joysticks.getD i none).map Joystick.clearFilterMemory
      = (b._joysticks.getD i none).map Joystick.clearFilterMemory := by
  have h1 := congrArg (fun l => l.getD i none) h.1
  simp only [List.getD_eq_getElem?_getD, List.getElem?_map] at h1 ⊢
  cases ha : a._joysticks[i]? <;> cases hb : b._joysticks[i]? <;>
    simp only [ha, hb, Option.map_none', Option.map_some', Option.getD_none,
      Option.getD_some] at h1 ⊢ <;> exact h1

theorem NRF24Controller.smoothingOff_of_devicesKept {a b : NRF24Controller}
    (hoff : a.smoothingOff) (h : a.devicesKept b) : b.smoothingOff := by
  constructor
  · intro i _
    have hg := NRF24Controller.devicesKept_getD h i
    cases hk : b._joysticks.getD i none with
    | none => rfl
    | some k =>
      rw [hk] at hg
      cases ha : a._joysticks.getD i none with
      | none => rw [ha] at hg; simp at hg
      | some j =>
        rw [ha] at hg
        simp only [Option.map_some', Option.some.injEq] at hg
        have hj := NRF24Controller.smoothingOff_joystick hoff i j ha
        have : k._useSmoothing = j._useSmoothing := by
          have := congrArg Joystick._useSmoothing hg
          exact this.symm
        simp only [Option.map_some', Option.getD_some]
        rw [this]; exact hj
  · intro i hi
    rw [← h.2.1] at hi ⊢
    exact hoff.2 i hi

/-- The joystick loop body of `_updateChannelValues` for a registered, enabled joystick, with
the reads written as projections. -/
theorem NRF24Controller.updateChannelJoystick_eq (profile : ControlProfile)
    (c : NRF24Controller) (i : Nat) (j : Joystick)
    (hj : c._joysticks.getD i none = some j)
    (hen : c._joystickEnabled.getD i false = true)
    (m1 m2 : ControlMapping)
    (hm : profile.joystickMappings.getD i (ControlMapping.zero, ControlMapping.zero) = (m1, m2)) :
    updateChannelJoystick profile c i =
      { (if m2.enabled = true then
          writeChannel
            (if m1.enabled = true then
              writeChannel c m1.outputChannel (_applyMapping (toInt16 j.readX.1) m1)
             else c)
            m2.outputChannel
            (_applyMapping (toInt16 (if m1.enabled = true then j.readX.2 else j).readY.1) m2)
         else
          (if m1.enabled = true then
              writeChannel c m1.outputChannel (_applyMapping (toInt16 j.readX.1) m1)
             else c)) with
        _joysticks := c._joysticks.set i
          (some (if m2.enabled = true then (if m1.enabled = true then j.readX.2 else j).readY.2
                 else (if m1.enabled = true then j.readX.2 else j))) } := by
  unfold NRF24Controller.updateChannelJoystick
  rw [hj]
  simp only [hen, if_true, hm]
  by_cases e1 : m1.enabled = true <;> by_cases e2 : m2.enabled = true <;>
    simp only [e1, e2, if_true, if_false, Bool.false_eq_true] <;> rfl

theorem list_getD_set {α : Type} (l : List α) (i n : Nat) (x d : α) :
    (l.set i x).getD n d = if i = n ∧ i < l.length then x else l.getD n d := by
  simp only [List.getD_eq_getElem?_getD, List.getElem?_set]
  by_cases h : i = n
  · subst h
    by_cases hi : i < l.length
    · simp [hi]
    · simp [hi, List.getElem?_eq_none (not_lt.mp hi)]
  · simp [h]

/-- Writing the same value into the same channel of two agreeing tables keeps them
agreeing. -/
theorem NRF24Controller.tablesAgree_writeChannel (initial : List Int)
    (a b : NRF24Controller) (ch : Nat) (v : Int) (h : tablesAgree initial a b) :
    tablesAgree initial (a.writeChannel ch v) (b.writeChannel ch v) := by
  obtain ⟨h1, h2, h3, h4, h5, h6⟩ := h
  have h3b : b._channelUpdated.length = 32 := by rw [← h4]; exact h3
  refine ⟨?_, ?_, ?_, ?_, ?_, ?_⟩
  · simp [NRF24Controller.writeChannel, h1]
  · simp [NRF24Controller.writeChannel, h2]
  · simp [NRF24Controller.writeChannel, h3]
  · simp [NRF24Controller.writeChannel, h4]
  · intro n hn
    simp only [NRF24Controller.writeChannel, list_getD_set, h1, h2, h3] at hn ⊢
    by_cases hc : ch = n ∧ ch < 32
    · rw [if_pos hc, if_pos hc]
    · simp only [hc, if_false] at hn ⊢
      exact h5 n hn
  · intro n hn
    simp only [NRF24Controller.writeChannel, list_getD_set, h2, h3b] at hn ⊢
    by_cases hc : ch = n ∧ ch < 32
    · rw [if_pos hc] at hn
      exact absurd hn (by decide)
    · simp only [hc, if_false] at hn ⊢
      exact h6 n hn

theorem NRF24Controller.devicesKept_writeChannel (a : NRF24Controller) (ch : Nat) (v : Int) :
    a.devicesKept (a.writeChannel ch v) :=
  ⟨rfl, rfl, rfl, rfl, rfl, rfl⟩

/-- Two joysticks with smoothing disabled and the same image read the same values and stay
so. -/
theorem Joystick.read_of_same_image (j k : Joystick) (hs : j._useSmoothing = false)
    (hjk : j.clearFilterMemory = k.clearFilterMemory) :
    k._useSmoothing = false ∧
    k.readX.1 = j.readX.1 ∧ k.readY.1 = j.readY.1 ∧
    j.readX.2.clearFilterMemory = j.clearFilterMemory ∧
    k.readX.2.clearFilterMemory = k.clearFilterMemory ∧
    j.readY.2.clearFilterMemory = j.clearFilterMemory ∧
    k.readY.2.clearFilterMemory = k.clearFilterMemory ∧
    j.readX.2._useSmoothing = false ∧ j.readY.2._useSmoothing = false := by
  have hsk : k._useSmoothing = false := by
    have := congrArg Joystick._useSmoothing hjk
    exact this.symm.trans hs
  refine ⟨hsk, ?_, ?_, (Joystick.readX_clearFilterMemory j hs).2.1,
    (Joystick.readX_clearFilterMemory k hsk).2.1, (Joystick.readY_clearFilterMemory j hs).2.1,
    (Joystick.readY_clearFilterMemory k hsk).2.1, (Joystick.readX_clearFilterMemory j hs).2.2,
    (Joystick.readY_clearFilterMemory j hs).2.2⟩
  · rw [(Joystick.readX_clearFilterMemory k hsk).1, (Joystick.readX_clearFilterMemory j hs).1,
      hjk]
  · rw [(Joystick.readY_clearFilterMemory k hsk).1, (Joystick.readY_clearFilterMemory j hs).1,
      hjk]

theorem map_set_same_image (js : List (Option Joystick)) (i : Nat) (j k : Joystick)
    (hj : js.getD i none = some j) (h : k.clearFilterMemory = j.clearFilterMemory) :
    (js.set i (some k)).map (Option.map Joystick.clearFilterMemory)
      = js.map (Option.map Joystick.clearFilterMemory) := by
  rw [List.map_set]
  apply list_set_getD_self _ _ none
  · rw [List.getD_eq_getElem?_getD, List.getElem?_map, ← List.getD_eq_getElem?_getD] at *
    have hlt := list_getD_some_lt js i j hj
    rw [List.getD_eq_getElem?_getD, List.getElem?_eq_getElem hlt] at hj
    rw [List.getElem?_eq_getElem hlt]
    simp only [Option.getD_some] at hj
    simp [hj, h]
  · simp only [List.length_map]
    exact list_getD_some_lt js i j hj

/-- The joystick loop body of `_updateChannelValues` keeps the devices up to filter memory. -/
theorem NRF24Controller.updateChannelJoystick_devicesKept (profile : ControlProfile)
    (a : NRF24Controller) (i : Nat) (hoff : a.smoothingOff) :
    a.devicesKept (updateChannelJoystick profile a i) := by
  cases ha : a._joysticks.getD i none with
  | none =>
    have h0 : updateChannelJoystick profile a i = a := by
      unfold NRF24Controller.updateChannelJoystick
      rw [ha]
    rw [h0]
    exact NRF24Controller.devicesKept_refl a
  | some j =>
    by_cases hen : a._joystickEnabled.getD i false = true
    · rcases hm : profile.joystickMappings.getD i (ControlMapping.zero, ControlMapping.zero)
        with ⟨m1, m2⟩
      rw [NRF24Controller.updateChannelJoystick_eq profile a i j ha hen m1 m2 hm]
      have hs := NRF24Controller.smoothingOff_joystick hoff i j ha
      have hX := Joystick.readX_clearFilterMemory j hs
      have hY := Joystick.readY_clearFilterMemory j hs
      have hXY := Joystick.readY_clearFilterMemory j.readX.2 hX.2.2
      by_cases e1 : m1.enabled = true <;> by_cases e2 : m2.enabled = true <;>
        simp only [if_pos, if_neg, e1, e2, not_false_eq_true] <;>
        refine ⟨?_, rfl, rfl, rfl, rfl, rfl⟩ <;> symm <;>
        apply map_set_same_image _ _ j _ ha
      · rw [hXY.2.1, hX.2.1]
      · exact hX.2.1
      · exact hY.2.1
      · rfl
    · have h0 : updateChannelJoystick profile a i = a := by
        unfold NRF24Controller.updateChannelJoystick
        rw [ha]
        simp only [hen]
        rfl
      rw [h0]
      exact NRF24Controller.devicesKept_refl a

/-- The joystick loop body of `_updateChannelValues`, run on two controllers with the same
devices up to filter memory, keeps their tables agreeing. -/
theorem NRF24Controller.updateChannelJoystick_tablesAgree (profile : ControlProfile)
    (initial : List Int) (a b : NRF24Controller) (i : Nat) (hoff : a.smoothingOff)
    (hk : a.devicesKept b) (ht : tablesAgree initial a b) :
    tablesAgree initial (updateChannelJoystick profile a i)
      (updateChannelJoystick profile b i) := by
  have hg := NRF24Controller.devicesKept_getD hk i
  cases ha : a._joysticks.getD i none with
  | none =>
    have hb : b._joysticks.getD i none = none := by
      rw [ha] at hg
      cases hb : b._joysticks.getD i none with
      | none => rfl
      | some k => rw [hb] at hg; simp at hg
    have h0 : updateChannelJoystick profile a i = a := by
      unfold NRF24Controller.updateChannelJoystick
      rw [ha]
    have h1 : updateChannelJoystick profile b i = b := by
      unfold NRF24Controller.updateChannelJoystick
      rw [hb]
    rw [h0, h1]
    exact ht
  | some j =>
    obtain ⟨k, hb, hjk⟩ : ∃ k, b._joysticks.getD i none = some k ∧
        j.clearFilterMemory = k.clearFilterMemory := by
      rw [ha] at hg
      cases hb : b._joysticks.getD i none with
      | none => rw [hb] at hg; simp at hg
      | some k =>
        rw [hb] at hg
        simp only [Option.map_some', Option.some.injEq] at hg
        exact ⟨k, rfl, hg⟩
    by_cases hen : a._joystickEnabled.getD i false = true
    · have henb : b._joystickEnabled.getD i false = true := by
        rw [← hk.2.2.1]; exact hen
      rcases hm : profile.joystickMappings.getD i (ControlMapping.zero, ControlMapping.zero)
        with ⟨m1, m2⟩
      rw [NRF24Controller.updateChannelJoystick_eq profile a i j ha hen m1 m2 hm,
        NRF24Controller.updateChannelJoystick_eq profile b i k hb henb m1 m2 hm]
      have hs := NRF24Controller.smoothingOff_joystick hoff i j ha
      have hr := Joystick.read_of_same_image j k hs hjk
      have hr2 := Joystick.read_of_same_image j.readX.2 k.readX.2 hr.2.2.2.2.2.2.2.1
        (by rw [hr.2.2.2.1, hr.2.2.2.2.1, hjk])
      by_cases e1 : m1.enabled = true <;> by_cases e2 : m2.enabled = true <;>
        simp only [e1, e2, if_true, Bool.false_eq_true, if_false]
      · rw [hr.2.1, hr2.2.2.1]
        exact NRF24Controller.tablesAgree_writeChannel _ _ _ _ _
          (NRF24Controller.tablesAgree_writeChannel _ _ _ _ _ ht)
      · rw [hr.2.1]
        exact NRF24Controller.tablesAgree_writeChannel _ _ _ _ _ ht
      · rw [hr.2.2.1]
        exact NRF24Controller.tablesAgree_writeChannel _ _ _ _ _ ht
      · exact ht
    · have henb : ¬ b._joystickEnabled.getD i false = true := by
        rw [← hk.2.2.1]; exact hen
      have h0 : updateChannelJoystick profile a i = a := by
        unfold NRF24Controller.updateChannelJoystick
        rw [ha]
        simp only [hen]
        rfl
      have h1 : updateChannelJoystick profile b i = b := by
        unfold NRF24Controller.updateChannelJoystick
        rw [hb]
        simp only [henb]
        rfl
      rw [h0, h1]
      exact ht

/-- With smoothing disabled, the lever loop body of `_updateChannelValues` is at most one
channel write. -/
theorem NRF24Controller.updateChannelLever_eq (profile : ControlProfile)
    (a : NRF24Controller) (i : Nat) (hoff : a.smoothingOff) :
    updateChannelLever profile a i =
      match a._levers.getD i none with
      | none => a
      | some l =>
        if (a._leverEnabled.getD i false
            && (profile.leverMappings.getD i ControlMapping.zero).enabled) = true then
          a.writeChannel (profile.leverMappings.getD i ControlMapping.zero).outputChannel
            (_applyMapping (toInt16 l.readPosition.1)
              (profile.leverMappings.getD i ControlMapping.zero))
        else a := by
  unfold NRF24Controller.updateChannelLever
  cases hl : a._levers.getD i none with
  | none => rfl
  | some l =>
    simp only []
    by_cases he : (a._leverEnabled.getD i false
        && (profile.leverMappings.getD i ControlMapping.zero).enabled) = true
    · simp only [he, if_true]
      have hs := Lever.readPosition_keeps_state l (NRF24Controller.smoothingOff_lever hoff i l hl)
      have hset : a._levers.set i (some l.readPosition.2) = a._levers := by
        rw [hs]
        exact list_set_getD_self _ _ none _ hl (list_getD_some_lt _ _ _ hl)
      show { writeChannel a _ _ with _levers := a._levers.set i (some l.readPosition.2) } = _
      rw [hset]
      rfl
    · simp only [he, Bool.false_eq_true, if_false]

/-- The lever loop body of `_updateChannelValues` keeps the devices. -/
theorem NRF24Controller.updateChannelLever_devicesKept (profile : ControlProfile)
    (a : NRF24Controller) (i : Nat) (hoff : a.smoothingOff) :
    a.devicesKept (updateChannelLever profile a i) := by
  rw [NRF24Controller.updateChannelLever_eq profile a i hoff]
  cases a._levers.getD i none with
  | none => exact NRF24Controller.devicesKept_refl a
  | some l =>
    simp only []
    split_ifs
    · exact NRF24Controller.devicesKept_writeChannel a _ _
    · exact NRF24Controller.devicesKept_refl a

/-- The lever loop body of `_updateChannelValues`, run on two controllers with the same
devices, keeps their tables agreeing. -/
theorem NRF24Controller.updateChannelLever_tablesAgree (profile : ControlProfile)
    (initial : List Int) (a b : NRF24Controller) (i : Nat) (hoff : a.smoothingOff)
    (hk : a.devicesKept b) (ht : tablesAgree initial a b) :
    tablesAgree initial (updateChannelLever profile a i) (updateChannelLever profile b i) := by
  rw [NRF24Controller.updateChannelLever_eq profile a i hoff,
    NRF24Controller.updateChannelLever_eq profile b i
      (NRF24Controller.smoothingOff_of_devicesKept hoff hk), ← hk.2.1, ← hk.2.2.2.1]
  cases a._levers.getD i none with
  | none => exact ht
  | some l =>
    simp only []
    split_ifs
    · exact NRF24Controller.tablesAgree_writeChannel _ _ _ _ _ ht
    · exact ht

/-- The conditional loop body of `_updateChannelValues` keeps the devices. -/
theorem NRF24Controller.updateChannelConditional_devicesKept (profile : ControlProfile)
    (a : NRF24Controller) (i : Nat) :
    a.devicesKept (updateChannelConditional profile a i) := by
  unfold NRF24Controller.updateChannelConditional
  simp only []
  split_ifs
  · exact NRF24Controller.devicesKept_writeChannel a _ _
  · exact NRF24Controller.devicesKept_refl a

/-- The conditional loop body of `_updateChannelValues`, run on two controllers with the same
devices and agreeing tables, keeps the tables agreeing when the channel it remaps is flagged
as updated. -/
theorem NRF24Controller.updateChannelConditional_tablesAgree (profile : ControlProfile)
    (initial : List Int) (a b : NRF24Controller) (i : Nat)
    (hk : a.devicesKept b) (ht : tablesAgree initial a b)
    (hcov : a._checkConditionalMapping
        (profile.conditionalMappings.getD i ConditionalMapping.zero) = true →
      a._channelUpdated.getD
        (profile.conditionalMappings.getD i ConditionalMapping.zero).mapping.outputChannel
        false = true) :
    tablesAgree initial (updateChannelConditional profile a i)
      (updateChannelConditional profile b i) := by
  unfold NRF24Controller.updateChannelConditional
  simp only []
  rw [NRF24Controller.checkConditionalMapping_congr a b hk.2.1.symm]
  by_cases hc : a._checkConditionalMapping
      (profile.conditionalMappings.getD i ConditionalMapping.zero) = true
  · rw [if_pos hc, if_pos hc, ← ht.2.2.2.2.1 _ (hcov hc)]
    exact NRF24Controller.tablesAgree_writeChannel _ _ _ _ _ ht
  · rw [if_neg hc, if_neg hc]
    exact ht

theorem foldl_rel {α β : Type} (f : α → β → α) (P : α → α → Prop) (l : List β)
    (h : ∀ a b i, i ∈ l → P a b → P (f a i) (f b i)) (a b : α) (h0 : P a b) :
    P (l.foldl f a) (l.foldl f b) := by
  induction l generalizing a b with
  | nil => exact h0
  | cons x xs ih =>
    rw [List.foldl_cons, List.foldl_cons]
    exact ih (fun a b i hi => h a b i (List.mem_cons_of_mem _ hi)) _ _
      (h a b x (List.mem_cons_self _ _) h0)

theorem NRF24Controller.updateChannelConditional_flags (profile : ControlProfile)
    (a : NRF24Controller) (i ch : Nat) (h : a._channelUpdated.getD ch false = true) :
    (updateChannelConditional profile a i)._channelUpdated.getD ch false = true := by
  unfold NRF24Controller.updateChannelConditional
  simp only []
  split_ifs
  · simp only [NRF24Controller.writeChannel, list_getD_set]
    split_ifs
    · rfl
    · exact h
  · exact h

/-- One mapper cycle run in step on two controllers with the same devices (up to filter
memory) and agreeing tables: the devices are kept and the tables still agree at the end,
provided every triggered conditional remaps a channel flagged by the base mappings. -/
theorem NRF24Controller.cycle_lockstep (profile : ControlProfile) (initial : List Int)
    (a b : NRF24Controller) (hoff : a.smoothingOff) (hk : a.devicesKept b)
    (ht : tablesAgree initial a b)
    (hcov : ∀ i, i < profile.conditionalCount →
      ((List.range MAX_LEVERS).foldl (updateChannelLever profile)
        ((List.range MAX_JOYSTICKS).foldl (updateChannelJoystick profile)
          a))._checkConditionalMapping
        (profile.conditionalMappings.getD i ConditionalMapping.zero) = true →
      ((List.range MAX_LEVERS).foldl (updateChannelLever profile)
        ((List.range MAX_JOYSTICKS).foldl (updateChannelJoystick profile)
          a))._channelUpdated.getD
        (profile.conditionalMappings.getD i ConditionalMapping.zero).mapping.outputChannel
        false = true) :
    a.devicesKept
      ((List.range profile.conditionalCount).foldl (updateChannelConditional profile)
        ((List.range MAX_LEVERS).foldl (updateChannelLever profile)
          ((List.range MAX_JOYSTICKS).foldl (updateChannelJoystick profile) a))) ∧
    ((List.range profile.conditionalCount).foldl (updateChannelConditional profile)
        ((List.range MAX_LEVERS).foldl (updateChannelLever profile)
          ((List.range MAX_JOYSTICKS).foldl (updateChannelJoystick profile) a))).devicesKept
      ((List.range profile.conditionalCount).foldl (updateChannelConditional profile)
        ((List.range MAX_LEVERS).foldl (updateChannelLever profile)
          ((List.range MAX_JOYSTICKS).foldl (updateChannelJoystick profile) b))) ∧
    tablesAgree initial
      ((List.range profile.conditionalCount).foldl (updateChannelConditional profile)
        ((List.range MAX_LEVERS).foldl (updateChannelLever profile)
          ((List.range MAX_JOYSTICKS).foldl (updateChannelJoystick profile) a)))
      ((List.range profile.conditionalCount).foldl (updateChannelConditional profile)
        ((List.range MAX_LEVERS).foldl (updateChannelLever profile)
          ((List.range MAX_JOYSTICKS).foldl (updateChannelJoystick profile) b))) := by
  -- the joystick loop
  have hJ := foldl_rel (updateChannelJoystick profile)
    (fun x y => a.devicesKept x ∧ x.devicesKept y ∧ tablesAgree initial x y)
    (List.range MAX_JOYSTICKS)
    (fun x y i _ hP => by
      obtain ⟨hax, hxy, hT⟩ := hP
      have hoffx := NRF24Controller.smoothingOff_of_devicesKept hoff hax
      have hoffy := NRF24Controller.smoothingOff_of_devicesKept hoffx hxy
      have kx := NRF24Controller.updateChannelJoystick_devicesKept profile x i hoffx
      have ky := NRF24Controller.updateChannelJoystick_devicesKept profile y i hoffy
      exact ⟨NRF24Controller.devicesKept_trans hax kx,
        NRF24Controller.devicesKept_trans (NRF24Controller.devicesKept_symm kx)
          (NRF24Controller.devicesKept_trans hxy ky),
        NRF24Controller.updateChannelJoystick_tablesAgree profile initial x y i hoffx hxy hT⟩)
    a b ⟨NRF24Controller.devicesKept_refl a, hk, ht⟩
  -- the lever loop
  have hL := foldl_rel (updateChannelLever profile)
    (fun x y => a.devicesKept x ∧ x.devicesKept y ∧ tablesAgree initial x y)
    (List.range MAX_LEVERS)
    (fun x y i _ hP => by
      obtain ⟨hax, hxy, hT⟩ := hP
      have hoffx := NRF24Controller.smoothingOff_of_devicesKept hoff hax
      have hoffy := NRF24Controller.smoothingOff_of_devicesKept hoffx hxy
      have kx := NRF24Controller.updateChannelLever_devicesKept profile x i hoffx
      have ky := NRF24Controller.updateChannelLever_devicesKept profile y i hoffy
      exact ⟨NRF24Controller.devicesKept_trans hax kx,
        NRF24Controller.devicesKept_trans (NRF24Controller.devicesKept_symm kx)
          (NRF24Controller.devicesKept_trans hxy ky),
        NRF24Controller.updateChannelLever_tablesAgree profile initial x y i hoffx hxy hT⟩)
    _ _ hJ
  -- the conditional loop
  generalize (List.range MAX_LEVERS).foldl (updateChannelLever profile)
    ((List.range MAX_JOYSTICKS).foldl (updateChannelJoystick profile) a) = aL at hL hcov ⊢
  generalize (List.range MAX_LEVERS).foldl (updateChannelLever profile)
    ((List.range MAX_JOYSTICKS).foldl (updateChannelJoystick profile) b) = bL at hL ⊢
  have hC := foldl_rel (updateChannelConditional profile)
    (fun x y => (aL.devicesKept x ∧
      ∀ ch, aL._channelUpdated.getD ch false = true → x._channelUpdated.getD ch false = true) ∧
      x.devicesKept y ∧ tablesAgree initial x y)
    (List.range profile.conditionalCount)
    (fun x y i hi hP => by
      obtain ⟨⟨hax, hflags⟩, hxy, hT⟩ := hP
      have kx := NRF24Controller.updateChannelConditional_devicesKept profile x i
      have ky := NRF24Controller.updateChannelConditional_devicesKept profile y i
      refine ⟨⟨NRF24Controller.devicesKept_trans hax kx, fun ch hch =>
          NRF24Controller.updateChannelConditional_flags profile x i ch (hflags ch hch)⟩,
        NRF24Controller.devicesKept_trans (NRF24Controller.devicesKept_symm kx)
          (NRF24Controller.devicesKept_trans hxy ky),
        NRF24Controller.updateChannelConditional_tablesAgree profile initial x y i hxy hT ?_⟩
      intro hcheck
      rw [NRF24Controller.checkConditionalMapping_congr aL x hax.2.1.symm] at hcheck
      exact hflags _ (hcov i (List.mem_range.mp hi) hcheck))
    aL bL ⟨⟨NRF24Controller.devicesKept_refl aL, fun _ h => h⟩, hL.2.1, hL.2.2⟩
  exact ⟨NRF24Controller.devicesKept_trans hL.1 hC.1.1, hC.2.1, hC.2.2⟩

theorem list_ext_getD {l1 l2 : List Int} (hlen : l1.length = l2.length)
    (h : ∀ n, l1.getD n 0 = l2.getD n 0) : l1 = l2 := by
  apply List.ext_getElem hlen
  intro n h1 h2
  have := h n
  rw [List.getD_eq_getElem?_getD, List.getD_eq_getElem?_getD, List.getElem?_eq_getElem h1,
    List.getElem?_eq_getElem h2] at this
  exact this

theorem replicate_false_getD (n ch : Nat) : (List.replicate n false).getD ch false = false := by
  rw [List.getD_eq_getElem?_getD, List.getElem?_replicate]
  split_ifs <;> rfl

/-- C31 (amended): running `_updateChannelValues` twice in succession with the same active
profile, the same raw device readings and the same lever positions leaves the channel table
(values and updated flags) equal to the table after the first run, for every profile in which
each conditional mapping whose trigger holds targets a channel that a base mapping writes in
the cycle, with smoothing disabled on the registered devices. -/
theorem updateChannelValues_twice (c : NRF24Controller)
    (hlen : c._channelValues.length = 32) (hoff : c.smoothingOff)
    (hcov : c.conditionalsCovered) :
    c._updateChannelValues._updateChannelValues._channelValues
      = c._updateChannelValues._channelValues ∧
    c._updateChannelValues._updateChannelValues._channelUpdated
      = c._updateChannelValues._channelUpdated := by
  -- the first cycle, in step with itself
  have hcov1 : ∀ i, i < (c._profiles.getD c._activeProfile ControlProfile.zero).conditionalCount →
      c.updateChannelBase._checkConditionalMapping
        ((c._profiles.getD c._activeProfile ControlProfile.zero).conditionalMappings.getD i
          ConditionalMapping.zero) = true →
      c.updateChannelBase._channelUpdated.getD
        ((c._profiles.getD c._activeProfile ControlProfile.zero).conditionalMappings.getD i
          ConditionalMapping.zero).mapping.outputChannel false = true := by
    intro i hi hcheck
    apply hcov i hi
    have hJ := foldl_rel
      (NRF24Controller.updateChannelJoystick
        (c._profiles.getD c._activeProfile ControlProfile.zero))
      (fun x _ => c.devicesKept x) (List.range MAX_JOYSTICKS)
      (fun x _ i _ hP => NRF24Controller.devicesKept_trans hP
        (NRF24Controller.updateChannelJoystick_devicesKept _ x i
          (NRF24Controller.smoothingOff_of_devicesKept hoff hP)))
      { c with _channelUpdated := List.replicate 32 false } c ⟨rfl, rfl, rfl, rfl, rfl, rfl⟩
    have hL := foldl_rel
      (NRF24Controller.updateChannelLever
        (c._profiles.getD c._activeProfile ControlProfile.zero))
      (fun x _ => c.devicesKept x) (List.range MAX_LEVERS)
      (fun x _ i _ hP => NRF24Controller.devicesKept_trans hP
        (NRF24Controller.updateChannelLever_devicesKept _ x i
          (NRF24Controller.smoothingOff_of_devicesKept hoff hP)))
      _ c hJ
    rw [← NRF24Controller.checkConditionalMapping_congr c c.updateChannelBase hL.2.1.symm]
    exact hcheck
  have hoff0 : NRF24Controller.smoothingOff
      { c with _channelUpdated := List.replicate 32 false } := hoff
  have ht0 : NRF24Controller.tablesAgree c._channelValues
      { c with _channelUpdated := List.replicate 32 false }
      { c with _channelUpdated := List.replicate 32 false } :=
    ⟨hlen, hlen, List.length_replicate _ _, rfl, fun _ _ => rfl, fun ch hch => rfl⟩
  have h1 := NRF24Controller.cycle_lockstep
    (c._profiles.getD c._activeProfile ControlProfile.zero) c._channelValues
    { c with _channelUpdated := List.replicate 32 false }
    { c with _channelUpdated := List.replicate 32 false } hoff0
    (NRF24Controller.devicesKept_refl _) ht0 hcov1
  have hc1 : (List.range
        (c._profiles.getD c._activeProfile ControlProfile.zero).conditionalCount).foldl
      (NRF24Controller.updateChannelConditional
        (c._profiles.getD c._activeProfile ControlProfile.zero))
      ((List.range MAX_LEVERS).foldl
        (NRF24Controller.updateChannelLever
          (c._profiles.getD c._activeProfile ControlProfile.zero))
        ((List.range MAX_JOYSTICKS).foldl
          (NRF24Controller.updateChannelJoystick
            (c._profiles.getD c._activeProfile ControlProfile.zero))
          { c with _channelUpdated := List.replicate 32 false })) = c._updateChannelValues := rfl
  rw [hc1] at h1
  obtain ⟨hk1, _, hT1⟩ := h1
  -- the second cycle, in step with the first
  have hprofile : c._updateChannelValues._profiles.getD c._updateChannelValues._activeProfile
      ControlProfile.zero = c._profiles.getD c._activeProfile ControlProfile.zero := by
    rw [← hk1.2.2.2.2.1, ← hk1.2.2.2.2.2]
  have ht1 : NRF24Controller.tablesAgree c._updateChannelValues._channelValues
      { c with _channelUpdated := List.replicate 32 false }
      { c._updateChannelValues with _channelUpdated := List.replicate 32 false } :=
    ⟨hlen, hT1.2.1, List.length_replicate _ _, rfl,
      fun ch hch => absurd ((replicate_false_getD 32 ch).symm.trans hch) (by decide),
      fun ch _ => rfl⟩
  have h2 := NRF24Controller.cycle_lockstep
    (c._profiles.getD c._activeProfile ControlProfile.zero)
    c._updateChannelValues._channelValues
    { c with _channelUpdated := List.replicate 32 false }
    { c._updateChannelValues with _channelUpdated := List.replicate 32 false } hoff0
    hk1 ht1 hcov1
  have hc2 : (List.range
        (c._profiles.getD c._activeProfile ControlProfile.zero).conditionalCount).foldl
      (NRF24Controller.updateChannelConditional
        (c._profiles.getD c._activeProfile ControlProfile.zero))
      ((List.range MAX_LEVERS).foldl
        (NRF24Controller.updateChannelLever
          (c._profiles.getD c._activeProfile ControlProfile.zero))
        ((List.range MAX_JOYSTICKS).foldl
          (NRF24Controller.updateChannelJoystick
            (c._profiles.getD c._activeProfile ControlProfile.zero))
          { c._updateChannelValues with _channelUpdated := List.replicate 32 false }))
      = c._updateChannelValues._updateChannelValues := by
    rw [← hprofile]
    rfl
  rw [hc1, hc2] at h2
  obtain ⟨_, _, hT2⟩ := h2
  obtain ⟨ha, hb, _, hflags, hval, hframe⟩ := hT2
  refine ⟨?_, hflags.symm⟩
  apply list_ext_getD (hb.trans ha.symm)
  intro n
  by_cases hn : c._updateChannelValues._channelUpdated.getD n false = true
  · exact (hval n hn).symm
  · apply hframe n
    rw [← hflags]
    simpa using hn

/-- Witness for C31 (as amended): the controller `conditionalController 0`, whose conditional
mapping remaps channel 1, the channel its base mapping writes. -/
theorem updateChannelValues_twice_witness :
    (conditionalController 0)._updateChannelValues._updateChannelValues._channelValues
      = (conditionalController 0)._updateChannelValues._channelValues ∧
    (conditionalController 0)._updateChannelValues._updateChannelValues._channelUpdated
      = (conditionalController 0)._updateChannelValues._channelUpdated :=
  updateChannelValues_twice (conditionalController 0) (by decide)
    (by unfold NRF24Controller.smoothingOff; decide!)
    (by unfold NRF24Controller.conditionalsCovered; decide!)
